import Mathlib

/-! # Metal backend: packed resource descriptor and shader variable manager

A shallow embedding of `PipelineResourceAttribsMtl.hpp` and
`ShaderVariableManagerMtl.cpp`, followed by the properties proved about them.

Conventions of the embedding:
* unsigned machine integers are natural numbers; a bit-field of width `w`
  stores its initialiser modulo `2 ^ w`;
* pointers are byte addresses, `nullptr` is address `0`;
* a function whose C++ body can run into undefined behaviour (reading through
  a null pointer, reading outside an array) returns `Option`, `none` standing
  for the undefined run.
-/

namespace Diligent

/-! ## Types declared in headers outside the translated sources -/

/-- Numeric value of a `SHADER_RESOURCE_TYPE` enumerator. -/
abbrev SHADER_RESOURCE_TYPE := Nat

/-- Enumerator `SHADER_RESOURCE_TYPE_UNKNOWN`. -/
def SHADER_RESOURCE_TYPE_UNKNOWN : SHADER_RESOURCE_TYPE := 0

/-- Enumerator `SHADER_RESOURCE_TYPE_CONSTANT_BUFFER`. -/
def SHADER_RESOURCE_TYPE_CONSTANT_BUFFER : SHADER_RESOURCE_TYPE := 1

/-- Content kind of a resource cache: the static cache owned by a signature, or
the cache of a shader resource binding (SRB). -/
inductive ResourceCacheContentType where
  | Signature
  | SRB
  deriving DecidableEq

/-- Modelled from the spec: the `VERIFY` macro of `DebugUtilities.hpp`, which is
not among the sources. A `VERIFY` whose expression is false is a fatal contract
failure carrying the message; otherwise execution continues. -/
def VERIFY (Expr : Bool) (msg : String) : Except String Unit :=
  if Expr then Except.ok () else Except.error msg

/-! ## PipelineResourceAttribsMtl -/

/-- Width of the `BindingIndex` bit-field. -/
def _BindingIndexBits : Nat := 16

/-- Width of the `SamplerInd` bit-field. -/
def _SamplerIndBits : Nat := 16

/-- Width of the `ArraySize` bit-field. -/
def _ArraySizeBits : Nat := 24

/-- Width of the `ResourceType` bit-field. -/
def _ResourceTypeBits : Nat := 5

/-- Width of the `ImtblSamplerAssigned` bit-field. -/
def _SamplerAssignedBits : Nat := 1

/-- Width of the `Padding` bit-field. -/
def _PaddingBits : Nat := 2

/-- The packed descriptor. Every member is the value held by the C++ member;
the range fields record the width of the bit-field (or of `Uint32`) holding it. -/
structure PipelineResourceAttribsMtl where
  BindingIndex : Nat
  SamplerInd : Nat
  ArraySize : Nat
  ResourceType : Nat
  ImtblSamplerAssigned : Nat
  Padding : Nat
  SRBCacheOffset : Nat
  StaticCacheOffset : Nat
  BindingIndex_lt : BindingIndex < 2 ^ _BindingIndexBits
  SamplerInd_lt : SamplerInd < 2 ^ _SamplerIndBits
  ArraySize_lt : ArraySize < 2 ^ _ArraySizeBits
  ResourceType_lt : ResourceType < 2 ^ _ResourceTypeBits
  ImtblSamplerAssigned_lt : ImtblSamplerAssigned < 2 ^ _SamplerAssignedBits
  Padding_lt : Padding < 2 ^ _PaddingBits
  SRBCacheOffset_lt : SRBCacheOffset < 2 ^ 32
  StaticCacheOffset_lt : StaticCacheOffset < 2 ^ 32

namespace PipelineResourceAttribsMtl

/-- Sentinel `InvalidSamplerInd = (1u << _SamplerIndBits) - 1`. -/
def InvalidSamplerInd : Nat := (1 <<< _SamplerIndBits) - 1

/-- The member-initialiser list of the seven-argument constructor: every
bit-field keeps the low bits of its initialiser. -/
def init (_BindingIndex _SamplerInd _ArraySize : Nat) (_ResourceType : SHADER_RESOURCE_TYPE)
    (_ImtblSamplerAssigned : Bool) (_SRBCacheOffset _StaticCacheOffset : Nat) :
    PipelineResourceAttribsMtl where
  BindingIndex := _BindingIndex % 2 ^ _BindingIndexBits
  SamplerInd := _SamplerInd % 2 ^ _SamplerIndBits
  ArraySize := _ArraySize % 2 ^ _ArraySizeBits
  ResourceType := _ResourceType % 2 ^ _ResourceTypeBits
  ImtblSamplerAssigned := (if _ImtblSamplerAssigned then 1 else 0) % 2 ^ _SamplerAssignedBits
  Padding := 0 % 2 ^ _PaddingBits
  SRBCacheOffset := _SRBCacheOffset % 2 ^ 32
  StaticCacheOffset := _StaticCacheOffset % 2 ^ 32
  BindingIndex_lt := Nat.mod_lt _ (by decide)
  SamplerInd_lt := Nat.mod_lt _ (by decide)
  ArraySize_lt := Nat.mod_lt _ (by decide)
  ResourceType_lt := Nat.mod_lt _ (by decide)
  ImtblSamplerAssigned_lt := Nat.mod_lt _ (by decide)
  Padding_lt := Nat.mod_lt _ (by decide)
  SRBCacheOffset_lt := Nat.mod_lt _ (by decide)
  StaticCacheOffset_lt := Nat.mod_lt _ (by decide)

/-- Accessor `GetResourceType()`. -/
def GetResourceType (d : PipelineResourceAttribsMtl) : SHADER_RESOURCE_TYPE :=
  d.ResourceType

/-- Accessor `IsImmutableSamplerAssigned()`. -/
def IsImmutableSamplerAssigned (d : PipelineResourceAttribsMtl) : Bool :=
  d.ImtblSamplerAssigned != 0

/-- Accessor `IsCombinedWithSampler()`. -/
def IsCombinedWithSampler (d : PipelineResourceAttribsMtl) : Bool :=
  d.SamplerInd != InvalidSamplerInd

/-- Accessor `CacheOffset(CacheType)`. -/
def CacheOffset (d : PipelineResourceAttribsMtl) (CacheType : ResourceCacheContentType) : Nat :=
  if CacheType = ResourceCacheContentType.SRB then d.SRBCacheOffset else d.StaticCacheOffset

/-- The seven-argument constructor: the member-initialiser list followed by the
four `VERIFY` statements of the body, in source order. -/
def ctor (_BindingIndex _SamplerInd _ArraySize : Nat) (_ResourceType : SHADER_RESOURCE_TYPE)
    (_ImtblSamplerAssigned : Bool) (_SRBCacheOffset _StaticCacheOffset : Nat) :
    Except String PipelineResourceAttribsMtl :=
  let d := init _BindingIndex _SamplerInd _ArraySize _ResourceType _ImtblSamplerAssigned
    _SRBCacheOffset _StaticCacheOffset
  do
    VERIFY (d.BindingIndex == _BindingIndex) "Binding index exceeds maximum representable value"
    VERIFY (d.ArraySize == _ArraySize) "Array size exceeds maximum representable value"
    VERIFY (d.SamplerInd == _SamplerInd) "Sampler index exceeds maximum representable value"
    VERIFY (d.GetResourceType == _ResourceType) "Resource type exceeds maximum representable value"
    pure d

/-- The default constructor (only for serialization). -/
def ctorDefault : Except String PipelineResourceAttribsMtl :=
  ctor 0 0 0 SHADER_RESOURCE_TYPE_UNKNOWN false 0 0

/-- Method `IsCompatibleWith(rhs)`: sampler index and cache offsets are ignored. -/
def IsCompatibleWith (d rhs : PipelineResourceAttribsMtl) : Bool :=
  d.BindingIndex == rhs.BindingIndex &&
  d.ArraySize == rhs.ArraySize &&
  d.ResourceType == rhs.ResourceType &&
  d.ImtblSamplerAssigned == rhs.ImtblSamplerAssigned

/-- Method `GetHash()`. `ComputeHash` comes from `HashUtils.hpp`, which is not
among the sources, and is a parameter: it maps the sequence of its arguments to
a hash value. -/
def GetHash (ComputeHash : List Nat → Nat) (d : PipelineResourceAttribsMtl) : Nat :=
  ComputeHash [d.BindingIndex, d.ArraySize, d.ResourceType, d.ImtblSamplerAssigned]

end PipelineResourceAttribsMtl

/-! ## The resource signature (external collaborator) -/

/-- Bit mask of shader stages (`SHADER_TYPE`, 32-bit flags). -/
abbrev SHADER_TYPE := Nat

/-- Flag `SHADER_TYPE_VERTEX` (value of the engine's public header). -/
def SHADER_TYPE_VERTEX : SHADER_TYPE := 0x0001

/-- Flag `SHADER_TYPE_PIXEL` (value of the engine's public header). -/
def SHADER_TYPE_PIXEL : SHADER_TYPE := 0x0002

/-- Binding class of a resource (`SHADER_RESOURCE_VARIABLE_TYPE`). -/
inductive SHADER_RESOURCE_VARIABLE_TYPE where
  | STATIC
  | MUTABLE
  | DYNAMIC
  deriving DecidableEq

/-- Enumerator `SHADER_RESOURCE_VARIABLE_TYPE_STATIC`. -/
abbrev SHADER_RESOURCE_VARIABLE_TYPE_STATIC : SHADER_RESOURCE_VARIABLE_TYPE :=
  SHADER_RESOURCE_VARIABLE_TYPE.STATIC

/-- The members of `PipelineResourceDesc` read by the variable manager. `Name`
is a `const Char*`: `none` is the null pointer, `some s` a C string. -/
structure PipelineResourceDesc where
  Name : Option String
  ShaderStages : SHADER_TYPE
  VarType : SHADER_RESOURCE_VARIABLE_TYPE
  ResourceType : SHADER_RESOURCE_TYPE
  deriving DecidableEq

/-- The members of `PipelineResourceSignatureDesc` read by the variable
manager: the resource array. `NumResources` is a `Uint32`, so the array has
fewer than `2 ^ 32` entries. -/
structure PipelineResourceSignatureDesc where
  Resources : List PipelineResourceDesc
  NumResources_lt : Resources.length < 2 ^ 32

/-- Member `NumResources`. -/
def PipelineResourceSignatureDesc.NumResources (Desc : PipelineResourceSignatureDesc) : Nat :=
  Desc.Resources.length

/-- Modelled from the spec: the resource signature `PipelineResourceSignatureMtlImpl`,
whose header is not among the sources. It owns an ordered list of resource
descriptions and one packed descriptor per resource, and exposes lookup by index. -/
structure PipelineResourceSignatureMtlImpl where
  Desc : PipelineResourceSignatureDesc
  Attribs : List PipelineResourceAttribsMtl

namespace PipelineResourceSignatureMtlImpl

/-- Accessor `GetDesc()`. -/
def GetDesc (Signature : PipelineResourceSignatureMtlImpl) : PipelineResourceSignatureDesc :=
  Signature.Desc

/-- Accessor `GetResourceDesc(Index)`; reading past the array is undefined. -/
def GetResourceDesc (Signature : PipelineResourceSignatureMtlImpl) (Index : Nat) :
    Option PipelineResourceDesc :=
  Signature.Desc.Resources[Index]?

/-- Accessor `GetResourceAttribs(Index)`; reading past the array is undefined. -/
def GetResourceAttribs (Signature : PipelineResourceSignatureMtlImpl) (Index : Nat) :
    Option PipelineResourceAttribsMtl :=
  Signature.Attribs[Index]?

end PipelineResourceSignatureMtlImpl

/-! ## The resource cache and bound objects (external collaborators) -/

/-- A device object as seen through `IDeviceObject*`: its address and whether
it is a buffer. -/
structure IDeviceObject where
  Address : Nat
  IsBuffer : Bool
  deriving DecidableEq

/-- The members of `BindResourceInfo` that name what is bound: the object
(`none` is a null `pObject`) and the array element. -/
structure BindResourceInfo where
  pObject : Option IDeviceObject
  ArrayIndex : Nat
  deriving DecidableEq

/-- Modelled from the spec: the resource cache `ShaderResourceCacheMtl`, which the
sources only forward-declare. It is flat storage addressed by offset that holds
bound-object references; `Objects` lists the occupied offsets, most recent
write first. -/
structure ShaderResourceCacheMtl where
  ContentType : ResourceCacheContentType
  Objects : List (Nat × IDeviceObject)
  deriving DecidableEq

/-- Modelled from the spec: the object the cache holds at an offset, if any. -/
def ShaderResourceCacheMtl.Read (Cache : ShaderResourceCacheMtl) (Offset : Nat) :
    Option IDeviceObject :=
  Cache.Objects.lookup Offset

/-! ## ShaderVariableMtlImpl and ShaderVariableManagerMtl -/

/-- The null pointer. -/
def nullptr : Nat := 0

/-- The function `strcmp` of `<cstring>`: zero exactly for equal strings, undefined when
either argument is a null pointer. -/
def strcmp (s1 s2 : Option String) : Option Int :=
  match s1, s2 with
  | some a, some b => some (if a = b then 0 else if a < b then -1 else 1)
  | _, _ => none

/-- A variable: the handle `(owning manager, resource index)`. The reference to
the owning manager is the manager the variable is stored in. -/
structure ShaderVariableMtlImpl where
  m_ResIndex : Nat
  deriving DecidableEq

/-- A block of raw memory obtained from the allocator and viewed as an array of
variable slots: its address and, slot by slot, the variable constructed there
(`none` for a slot not yet constructed). -/
structure VariableBlock where
  Address : Nat
  Slots : List (Option ShaderVariableMtlImpl)
  deriving DecidableEq

/-- The manager: `m_pSignature` and `m_pVariables` of the base class
(`none` is the null pointer) and `m_NumVariables`. -/
structure ShaderVariableManagerMtl where
  m_pSignature : Option PipelineResourceSignatureMtlImpl
  m_pVariables : Option VariableBlock
  m_NumVariables : Nat

namespace ShaderVariableManagerMtl

/-- The constructor: an empty manager. -/
def ctor : ShaderVariableManagerMtl :=
  { m_pSignature := none, m_pVariables := none, m_NumVariables := 0 }

/-- Accessor `GetVariableCount()`. -/
def GetVariableCount (mgr : ShaderVariableManagerMtl) : Nat :=
  mgr.m_NumVariables

/-- The selection test of both loops:
`(Res.ShaderStages & ShaderStages) != 0 && Res.VarType == SHADER_RESOURCE_VARIABLE_TYPE_STATIC`. -/
def Selected (ShaderStages : SHADER_TYPE) (Res : PipelineResourceDesc) : Bool :=
  (Res.ShaderStages &&& ShaderStages) != 0 && Res.VarType == SHADER_RESOURCE_VARIABLE_TYPE_STATIC

/-- The counting loop of `GetRequiredMemorySize` over the remaining resources;
`Count` is a `Uint32`. -/
def GetRequiredMemorySize.loop (ShaderStages : SHADER_TYPE) :
    List PipelineResourceDesc → Nat → Nat
  | [], Count => Count
  | Res :: rest, Count =>
    if Selected ShaderStages Res then
      GetRequiredMemorySize.loop ShaderStages rest ((Count + 1) % 2 ^ 32)
    else
      GetRequiredMemorySize.loop ShaderStages rest Count

/-- Static method `GetRequiredMemorySize`. The result is the pair of the
returned `size_t` (64-bit) and the value stored through `pNumVariables` when
that pointer is not null. `sizeofVar` is `sizeof(ShaderVariableMtlImpl)`, a
constant of the platform. -/
def GetRequiredMemorySize (sizeofVar : Nat) (Signature : PipelineResourceSignatureMtlImpl)
    (_AllowedVarTypes : List SHADER_RESOURCE_VARIABLE_TYPE) (_NumAllowedTypes : Nat)
    (ShaderStages : SHADER_TYPE) : Nat × Nat :=
  let Count := GetRequiredMemorySize.loop ShaderStages Signature.GetDesc.Resources 0
  ((Count * sizeofVar) % 2 ^ 64, Count)

/-- Modelled from the spec: `ShaderVariableManagerBase::Initialize`, whose header
(`ShaderResourceVariableBase.hpp`) is not among the sources. It ties the manager
to the signature and allocates `Size` bytes of raw storage for the slots; the
allocator answers a request with the address of the block. -/
def TBase_Initialize (sizeofVar : Nat) (mgr : ShaderVariableManagerMtl)
    (Signature : PipelineResourceSignatureMtlImpl) (Allocator : Nat → Nat) (Size : Nat) :
    ShaderVariableManagerMtl :=
  { mgr with
    m_pSignature := some Signature
    m_pVariables := some
      { Address := Allocator Size, Slots := List.replicate (Size / sizeofVar) none } }

/-- Modelled from the spec: `ShaderVariableManagerBase::Destroy`, which releases
the storage of the slots. -/
def TBase_Destroy (mgr : ShaderVariableManagerMtl) : ShaderVariableManagerMtl :=
  { mgr with m_pVariables := none }

/-- The construction loop of `Initialize` over the remaining resources. `i` and
`VarIdx` are `Uint32`; the placement `new` at `m_pVariables + VarIdx` writes slot
`VarIdx` of the block and is undefined past its end. -/
def Initialize.loop (ShaderType : SHADER_TYPE) :
    List PipelineResourceDesc → Nat → Nat → List (Option ShaderVariableMtlImpl) →
      Option (List (Option ShaderVariableMtlImpl))
  | [], _, _, Slots => some Slots
  | Res :: rest, i, VarIdx, Slots =>
    if Selected ShaderType Res then
      if VarIdx < Slots.length then
        Initialize.loop ShaderType rest ((i + 1) % 2 ^ 32) ((VarIdx + 1) % 2 ^ 32)
          (Slots.set VarIdx (some { m_ResIndex := i }))
      else
        none
    else
      Initialize.loop ShaderType rest ((i + 1) % 2 ^ 32) VarIdx Slots

/-- Method `Initialize`. -/
def Initialize (sizeofVar : Nat) (mgr : ShaderVariableManagerMtl)
    (Signature : PipelineResourceSignatureMtlImpl) (Allocator : Nat → Nat)
    (AllowedVarTypes : List SHADER_RESOURCE_VARIABLE_TYPE) (NumAllowedTypes : Nat)
    (ShaderType : SHADER_TYPE) : Option ShaderVariableManagerMtl :=
  let r := GetRequiredMemorySize sizeofVar Signature AllowedVarTypes NumAllowedTypes ShaderType
  let MemSize := r.1
  let NumVars := r.2
  if NumVars == 0 then
    some { mgr with m_NumVariables := 0 }
  else
    let mgr1 := TBase_Initialize sizeofVar { mgr with m_NumVariables := NumVars } Signature
      Allocator MemSize
    match mgr1.m_pVariables with
    | none => none
    | some Block =>
      (Initialize.loop ShaderType Signature.GetDesc.Resources 0 0 Block.Slots).map
        fun Slots => { mgr1 with m_pVariables := some { Block with Slots := Slots } }

/-- Method `Destroy`: the destructor calls have no effect on the state. -/
def Destroy (mgr : ShaderVariableManagerMtl) : ShaderVariableManagerMtl :=
  TBase_Destroy { mgr with m_NumVariables := 0 }

/-- The address `m_pVariables + v` of slot `v`. -/
def SlotAddress (sizeofVar : Nat) (mgr : ShaderVariableManagerMtl) (v : Nat) : Nat :=
  (match mgr.m_pVariables with
    | none => nullptr
    | some Block => Block.Address) + v * sizeofVar

/-- The variable `m_pVariables[v]`; undefined when the pointer is null, the
slot lies past the block, or nothing was constructed in it. -/
def Variable (mgr : ShaderVariableManagerMtl) (v : Nat) : Option ShaderVariableMtlImpl :=
  match mgr.m_pVariables with
  | none => none
  | some Block => (Block.Slots[v]?).join

/-- The variable a pointer refers to: the one constructed in the slot of the
manager that starts at this address, if there is one. -/
def Deref (sizeofVar : Nat) (mgr : ShaderVariableManagerMtl) (p : Nat) :
    Option ShaderVariableMtlImpl :=
  match mgr.m_pVariables with
  | none => none
  | some Block =>
    if Block.Address ≤ p ∧ (p - Block.Address) % sizeofVar = 0 then
      mgr.Variable ((p - Block.Address) / sizeofVar)
    else
      none

/-- Method `GetResourceDesc(Index)`: forwards to the signature; undefined when
`m_pSignature` is null. -/
def GetResourceDesc (mgr : ShaderVariableManagerMtl) (Index : Nat) :
    Option PipelineResourceDesc :=
  match mgr.m_pSignature with
  | none => none
  | some Signature => Signature.GetResourceDesc Index

/-- Method `GetResourceAttribs(Index)`: forwards to the signature; undefined when
`m_pSignature` is null. -/
def GetResourceAttribs (mgr : ShaderVariableManagerMtl) (Index : Nat) :
    Option PipelineResourceAttribsMtl :=
  match mgr.m_pSignature with
  | none => none
  | some Signature => Signature.GetResourceAttribs Index

/-- Modelled from the spec: `ShaderVariableBase::GetDesc()` of the variable in
slot `v`, the description of the resource the variable refers to, obtained from
the owning manager by the variable's resource index. -/
def VariableDesc (mgr : ShaderVariableManagerMtl) (v : Nat) : Option PipelineResourceDesc :=
  (mgr.Variable v).bind fun Var => mgr.GetResourceDesc Var.m_ResIndex

/-- The declared resource name `Var.GetDesc().Name` of the variable in slot `v`
as a C string; `none` when reading it is undefined or the name is a null pointer. -/
def DeclaredName (mgr : ShaderVariableManagerMtl) (v : Nat) : Option String :=
  (mgr.VariableDesc v).bind fun Desc => Desc.Name

/-- The scan of `GetVariable(const Char* Name)` from slot `v` on, with `n` slots
left before `v` reaches `m_NumVariables`. The result is the returned pointer;
`none` is an undefined run. -/
def GetVariableByName.loop (sizeofVar : Nat) (mgr : ShaderVariableManagerMtl)
    (Name : Option String) : Nat → Nat → Option Nat
  | 0, _ => some nullptr
  | n + 1, v =>
    match mgr.VariableDesc v with
    | none => none
    | some Desc =>
      match strcmp Desc.Name Name with
      | none => none
      | some c =>
        if c == 0 then some (mgr.SlotAddress sizeofVar v)
        else GetVariableByName.loop sizeofVar mgr Name n ((v + 1) % 2 ^ 32)

/-- Method `GetVariable(const Char* Name)`. -/
def GetVariableByName (sizeofVar : Nat) (mgr : ShaderVariableManagerMtl)
    (Name : Option String) : Option Nat :=
  GetVariableByName.loop sizeofVar mgr Name mgr.m_NumVariables 0

/-- Method `GetVariable(Uint32 Index)`. -/
def GetVariableByIndex (sizeofVar : Nat) (mgr : ShaderVariableManagerMtl) (Index : Nat) : Nat :=
  if Index < mgr.m_NumVariables then mgr.SlotAddress sizeofVar Index else nullptr

/-- Method `BindResource(ResIndex, BindInfo)` on the manager and the resource
cache it refers to: the resource description is read, and neither branch of the
test on its type writes anything. -/
def BindResource (mgr : ShaderVariableManagerMtl) (Cache : ShaderResourceCacheMtl)
    (ResIndex : Nat) (_BindInfo : BindResourceInfo) :
    Option (ShaderVariableManagerMtl × ShaderResourceCacheMtl) :=
  match mgr.GetResourceDesc ResIndex with
  | none => none
  | some ResDesc =>
    if ResDesc.ResourceType == SHADER_RESOURCE_TYPE_CONSTANT_BUFFER then
      some (mgr, Cache)
    else
      some (mgr, Cache)

/-- A well-formed manager state: the count fits `Uint32`, the block of slots, if
there is one, is not at the null address, and each of the `m_NumVariables`
slots holds a variable whose resource exists in the signature and has a name. -/
def WellFormed (mgr : ShaderVariableManagerMtl) : Bool :=
  decide (mgr.m_NumVariables < 2 ^ 32) &&
  (match mgr.m_pVariables with
    | none => true
    | some Block => decide (0 < Block.Address)) &&
  (List.range mgr.m_NumVariables).all fun v => (mgr.DeclaredName v).isSome

end ShaderVariableManagerMtl

/-! ## Statements of the specification used for comparison -/

/-- The write-through the specification asks of `BindResource`: the call
returns, and afterwards the cache holds the bound object at the offset
`CacheOffset(contentType)` of the resource's packed descriptor. -/
def SpecWriteThrough (mgr : ShaderVariableManagerMtl) (Cache : ShaderResourceCacheMtl)
    (ResIndex : Nat) (BindInfo : BindResourceInfo) : Prop :=
  ∃ mgr' Cache' Attribs Object,
    mgr.BindResource Cache ResIndex BindInfo = some (mgr', Cache') ∧
    mgr.GetResourceAttribs ResIndex = some Attribs ∧
    BindInfo.pObject = some Object ∧
    Cache'.Read (Attribs.CacheOffset Cache'.ContentType) = some Object

/-- The indices, in ascending order, of the resources that the selection test
accepts for the given stages. -/
def SelectedResourceIndices (Resources : List PipelineResourceDesc) (ShaderStages : SHADER_TYPE) :
    List Nat :=
  (Resources.enum.filter fun p => ShaderVariableManagerMtl.Selected ShaderStages p.2).map Prod.fst

/-- The count the specification asks of `GetRequiredMemorySize`: the number of
resources whose stage mask intersects `ShaderStages` and whose binding class is
one of the first `NumAllowedTypes` classes of the caller's filter. -/
def SpecFilteredCount (Resources : List PipelineResourceDesc)
    (AllowedVarTypes : List SHADER_RESOURCE_VARIABLE_TYPE) (NumAllowedTypes : Nat)
    (ShaderStages : SHADER_TYPE) : Nat :=
  Resources.countP fun Res =>
    (Res.ShaderStages &&& ShaderStages) != 0 &&
      (AllowedVarTypes.take NumAllowedTypes).contains Res.VarType

/-! ## Example data -/

/-- The signature of the specification's example: `A` (vertex and pixel stages,
static), `B` (pixel stage, dynamic), `C` (pixel stage, static). -/
def exampleSignature : PipelineResourceSignatureMtlImpl where
  Desc :=
    { Resources :=
        [ { Name := some "A", ShaderStages := SHADER_TYPE_VERTEX ||| SHADER_TYPE_PIXEL,
            VarType := SHADER_RESOURCE_VARIABLE_TYPE.STATIC,
            ResourceType := SHADER_RESOURCE_TYPE_CONSTANT_BUFFER },
          { Name := some "B", ShaderStages := SHADER_TYPE_PIXEL,
            VarType := SHADER_RESOURCE_VARIABLE_TYPE.DYNAMIC,
            ResourceType := SHADER_RESOURCE_TYPE_CONSTANT_BUFFER },
          { Name := some "C", ShaderStages := SHADER_TYPE_PIXEL,
            VarType := SHADER_RESOURCE_VARIABLE_TYPE.STATIC,
            ResourceType := SHADER_RESOURCE_TYPE_CONSTANT_BUFFER } ]
      NumResources_lt := by decide }
  Attribs :=
    [ PipelineResourceAttribsMtl.init 0 65535 1 1 false 0 0,
      PipelineResourceAttribsMtl.init 1 65535 1 1 false 16 0,
      PipelineResourceAttribsMtl.init 2 65535 1 1 false 32 16 ]

/-- The example's allocator: every block is placed at address `4096`. -/
def exampleAllocator : Nat → Nat := fun _ => 4096

/-- The manager of the example: a new manager initialised over
`exampleSignature` for the pixel stage, with slots of 24 bytes; the empty
manager stands in should that run be undefined. -/
def exampleManager : ShaderVariableManagerMtl :=
  (ShaderVariableManagerMtl.Initialize 24 ShaderVariableManagerMtl.ctor exampleSignature
    exampleAllocator [SHADER_RESOURCE_VARIABLE_TYPE.STATIC] 1 SHADER_TYPE_PIXEL).getD
    ShaderVariableManagerMtl.ctor

/-- An empty SRB cache. -/
def exampleCache : ShaderResourceCacheMtl :=
  { ContentType := ResourceCacheContentType.SRB, Objects := [] }

/-- A binding of a buffer object at address `40960` to array element 0. -/
def exampleBinding : BindResourceInfo :=
  { pObject := some { Address := 40960, IsBuffer := true }, ArrayIndex := 0 }

/-- A signature whose first resource has a null `Name`, the case the log line of
`Initialize` provides for with `(Res.Name ? Res.Name : "<null>")`, and whose
second resource is named `A`; both are static and visible in the pixel stage. -/
def exampleUnnamedSignature : PipelineResourceSignatureMtlImpl where
  Desc :=
    { Resources :=
        [ { Name := none, ShaderStages := SHADER_TYPE_PIXEL,
            VarType := SHADER_RESOURCE_VARIABLE_TYPE.STATIC,
            ResourceType := SHADER_RESOURCE_TYPE_CONSTANT_BUFFER },
          { Name := some "A", ShaderStages := SHADER_TYPE_PIXEL,
            VarType := SHADER_RESOURCE_VARIABLE_TYPE.STATIC,
            ResourceType := SHADER_RESOURCE_TYPE_CONSTANT_BUFFER } ]
      NumResources_lt := by decide }
  Attribs :=
    [ PipelineResourceAttribsMtl.init 0 65535 1 1 false 0 0,
      PipelineResourceAttribsMtl.init 1 65535 1 1 false 16 0 ]

/-- The manager that `Initialize` leaves over `exampleUnnamedSignature` for the
pixel stage, with slots of 24 bytes; the empty manager stands in should that run
be undefined. -/
def exampleUnnamedManager : ShaderVariableManagerMtl :=
  (ShaderVariableManagerMtl.Initialize 24 ShaderVariableManagerMtl.ctor exampleUnnamedSignature
    exampleAllocator [SHADER_RESOURCE_VARIABLE_TYPE.STATIC] 1 SHADER_TYPE_PIXEL).getD
    ShaderVariableManagerMtl.ctor

/-! ## Further definitions for the variable manager -/

/-- Flag `SHADER_TYPE_COMPUTE` (value of the engine's public header). -/
def SHADER_TYPE_COMPUTE : SHADER_TYPE := 0x0020

/-- The ordered list of resource indices a manager exposes: for each of its
`m_NumVariables` slots, the resource index of the variable read there
(`none` where that read is undefined). -/
def ShaderVariableManagerMtl.ResourceIndices (mgr : ShaderVariableManagerMtl) :
    List (Option Nat) :=
  (List.range mgr.m_NumVariables).map fun v =>
    (mgr.Variable v).map ShaderVariableMtlImpl.m_ResIndex

/-- The rejection the specification asks of `BindResource` when an object that
is not buffer-like is bound: the call returns with the cache unchanged, and it
tells the rejected object from an accepted one, that is, its result differs
from the result of binding, in the same state, a buffer that the cache does
not hold yet. -/
def SpecRejects (mgr : ShaderVariableManagerMtl) (Cache : ShaderResourceCacheMtl)
    (ResIndex : Nat) (BindInfo : BindResourceInfo) : Prop :=
  (∃ mgr', mgr.BindResource Cache ResIndex BindInfo = some (mgr', Cache)) ∧
  ∀ (Accepted : BindResourceInfo) (Object : IDeviceObject),
    Accepted.pObject = some Object → Object.IsBuffer = true →
    (∀ Offset, Cache.Read Offset ≠ some Object) →
    mgr.BindResource Cache ResIndex Accepted ≠ mgr.BindResource Cache ResIndex BindInfo

/-- A binding of an object that is not a buffer (a texture view at address
`49152`) to array element 0. -/
def exampleTextureBinding : BindResourceInfo :=
  { pObject := some { Address := 49152, IsBuffer := false }, ArrayIndex := 0 }

/-! ## The command stream controller (DeviceContextMtlImpl)

Only the header of `DeviceContextMtlImpl` is among the sources: it declares the
members and the methods. The state below has the encoder members of the header;
the bodies of the methods follow the specification. -/

/-- The kinds of native encoder: render, compute and copy (blit). -/
inductive EncoderKind where
  | Render
  | Compute
  | Copy
  deriving DecidableEq

/-- Modelled from the spec: the calls the controller issues to the native
command queue, command buffer and encoders (the implementation file of
`DeviceContextMtlImpl` is not among the sources). -/
inductive NativeCall where
  | newCommandBuffer
  | beginEncoder (kind : EncoderKind)
  | endEncoding (kind : EncoderKind)
  | encode (kind : EncoderKind)
  | commit
  | logError
  deriving DecidableEq

/-- The controller states of the specification. -/
inductive ControllerState where
  | Idle
  | RenderActive
  | ComputeActive
  | CopyActive
  deriving DecidableEq

/-- The state in which an encoder of the given kind is active. -/
def ControllerState.Active : EncoderKind → ControllerState
  | EncoderKind.Render => ControllerState.RenderActive
  | EncoderKind.Compute => ControllerState.ComputeActive
  | EncoderKind.Copy => ControllerState.CopyActive

/-- The members `m_MtlCommandBuffer`, `m_MtlRenderEncoder`, `m_MtlComputeEncoder`
and `m_MtlBlitEncoder` of the header: `true` when the member holds an object,
`false` when it is `nil`. `NativeCalls` is not a member: it records the native
calls issued so far, oldest first. -/
structure DeviceContextMtlImpl where
  m_MtlCommandBuffer : Bool
  m_MtlRenderEncoder : Bool
  m_MtlComputeEncoder : Bool
  m_MtlBlitEncoder : Bool
  NativeCalls : List NativeCall
  deriving DecidableEq

namespace DeviceContextMtlImpl

/-- The state after construction: the default member initialisers of the header
set every member to `nil`. -/
def ctor : DeviceContextMtlImpl :=
  { m_MtlCommandBuffer := false, m_MtlRenderEncoder := false, m_MtlComputeEncoder := false,
    m_MtlBlitEncoder := false, NativeCalls := [] }

/-- Whether the encoder member of the given kind holds an encoder. -/
def Encoder (ctx : DeviceContextMtlImpl) : EncoderKind → Bool
  | EncoderKind.Render => ctx.m_MtlRenderEncoder
  | EncoderKind.Compute => ctx.m_MtlComputeEncoder
  | EncoderKind.Copy => ctx.m_MtlBlitEncoder

/-- The number of encoder members that hold an encoder. -/
def OpenEncoders (ctx : DeviceContextMtlImpl) : Nat :=
  (if ctx.m_MtlRenderEncoder then 1 else 0) + (if ctx.m_MtlComputeEncoder then 1 else 0) +
    (if ctx.m_MtlBlitEncoder then 1 else 0)

/-- The controller state a context is in: the kind of its open encoder, `Idle`
when no encoder is open. -/
def State (ctx : DeviceContextMtlImpl) : ControllerState :=
  if ctx.m_MtlRenderEncoder then ControllerState.RenderActive
  else if ctx.m_MtlComputeEncoder then ControllerState.ComputeActive
  else if ctx.m_MtlBlitEncoder then ControllerState.CopyActive
  else ControllerState.Idle

/-- The number of encoder-end calls issued so far. -/
def EncoderEnds (ctx : DeviceContextMtlImpl) : Nat :=
  ctx.NativeCalls.countP fun call =>
    match call with
    | NativeCall.endEncoding _ => true
    | _ => false

/-- The number of encoder-begin calls issued so far. -/
def EncoderBegins (ctx : DeviceContextMtlImpl) : Nat :=
  ctx.NativeCalls.countP fun call =>
    match call with
    | NativeCall.beginEncoder _ => true
    | _ => false

/-- Modelled from the spec: `EnsureCommandBuffer()`, whose body is not among the
sources. If no command buffer exists, one is created from the owning queue. -/
def EnsureCommandBuffer (ctx : DeviceContextMtlImpl) : DeviceContextMtlImpl :=
  if ctx.m_MtlCommandBuffer then ctx
  else
    { ctx with
      m_MtlCommandBuffer := true
      NativeCalls := ctx.NativeCalls ++ [NativeCall.newCommandBuffer] }

/-- Modelled from the spec: ending the encoder held by one member, if it holds
one (a step of `EndAllEncoders`, whose body is not among the sources). -/
def EndEncoder (ctx : DeviceContextMtlImpl) : EncoderKind → DeviceContextMtlImpl
  | EncoderKind.Render =>
    if ctx.m_MtlRenderEncoder then
      { ctx with
        m_MtlRenderEncoder := false
        NativeCalls := ctx.NativeCalls ++ [NativeCall.endEncoding EncoderKind.Render] }
    else ctx
  | EncoderKind.Compute =>
    if ctx.m_MtlComputeEncoder then
      { ctx with
        m_MtlComputeEncoder := false
        NativeCalls := ctx.NativeCalls ++ [NativeCall.endEncoding EncoderKind.Compute] }
    else ctx
  | EncoderKind.Copy =>
    if ctx.m_MtlBlitEncoder then
      { ctx with
        m_MtlBlitEncoder := false
        NativeCalls := ctx.NativeCalls ++ [NativeCall.endEncoding EncoderKind.Copy] }
    else ctx

/-- Modelled from the spec: `EndAllEncoders()`, whose body is not among the
sources. Whichever encoder is active is ended; the command buffer stays. -/
def EndAllEncoders (ctx : DeviceContextMtlImpl) : DeviceContextMtlImpl :=
  ((ctx.EndEncoder EncoderKind.Render).EndEncoder EncoderKind.Compute).EndEncoder
    EncoderKind.Copy

/-- Modelled from the spec: beginning a new encoder of a kind on the command
buffer (a step of `RequireEncoder`, which is not among the sources). -/
def BeginEncoder (ctx : DeviceContextMtlImpl) : EncoderKind → DeviceContextMtlImpl
  | EncoderKind.Render =>
    { ctx with
      m_MtlRenderEncoder := true
      NativeCalls := ctx.NativeCalls ++ [NativeCall.beginEncoder EncoderKind.Render] }
  | EncoderKind.Compute =>
    { ctx with
      m_MtlComputeEncoder := true
      NativeCalls := ctx.NativeCalls ++ [NativeCall.beginEncoder EncoderKind.Compute] }
  | EncoderKind.Copy =>
    { ctx with
      m_MtlBlitEncoder := true
      NativeCalls := ctx.NativeCalls ++ [NativeCall.beginEncoder EncoderKind.Copy] }

/-- Modelled from the spec: `RequireEncoder(kind)`, the primitive under the draw,
dispatch and copy calls, which is not among the sources. The command buffer is
created if absent; if the current state's encoder kind is not `kind`, the
current encoder (if any) is ended and a new encoder of `kind` is begun. -/
def RequireEncoder (ctx : DeviceContextMtlImpl) (kind : EncoderKind) : DeviceContextMtlImpl :=
  let ctx1 := ctx.EnsureCommandBuffer
  if ctx1.State = ControllerState.Active kind then ctx1
  else ctx1.EndAllEncoders.BeginEncoder kind

/-- Modelled from the spec: the encoder-specific native call of an operation,
issued on the encoder of the given kind. -/
def Encode (ctx : DeviceContextMtlImpl) (kind : EncoderKind) : DeviceContextMtlImpl :=
  { ctx with NativeCalls := ctx.NativeCalls ++ [NativeCall.encode kind] }

/-- Modelled from the spec: the abort of a call that was given a null required
object: an error is logged and nothing else happens. -/
def Abort (ctx : DeviceContextMtlImpl) : DeviceContextMtlImpl :=
  { ctx with NativeCalls := ctx.NativeCalls ++ [NativeCall.logError] }

/-- Modelled from the spec: `BeginRenderEncoding`, the request for a render
encoder. -/
def BeginRenderEncoding (ctx : DeviceContextMtlImpl) : DeviceContextMtlImpl :=
  ctx.RequireEncoder EncoderKind.Render

/-- Modelled from the spec: `Draw`, whose body is not among the sources. The
required objects supplied to the call are the pipeline state and the vertex
buffer at a required slot; a null one aborts the call, otherwise the render
encoder is required and the draw is encoded. -/
def Draw (ctx : DeviceContextMtlImpl) (pPipelineState pVertexBuffer : Nat) :
    DeviceContextMtlImpl :=
  if pPipelineState = nullptr ∨ pVertexBuffer = nullptr then ctx.Abort
  else (ctx.RequireEncoder EncoderKind.Render).Encode EncoderKind.Render

/-- Modelled from the spec: `DispatchCompute`, whose body is not among the
sources. The required object supplied to the call is the pipeline state; a null
one aborts the call, otherwise the compute encoder is required and the dispatch
is encoded. -/
def DispatchCompute (ctx : DeviceContextMtlImpl) (pPipelineState : Nat) :
    DeviceContextMtlImpl :=
  if pPipelineState = nullptr then ctx.Abort
  else (ctx.RequireEncoder EncoderKind.Compute).Encode EncoderKind.Compute

/-- Modelled from the spec: `CopyBuffer`, whose body is not among the sources:
the copy encoder is required and the copy is encoded. -/
def CopyBuffer (ctx : DeviceContextMtlImpl) : DeviceContextMtlImpl :=
  (ctx.RequireEncoder EncoderKind.Copy).Encode EncoderKind.Copy

/-- Modelled from the spec: `Flush()`, whose body is not among the sources:
`EndAllEncoders()`, then the command buffer is committed to its queue; a new one
is created lazily by the next operation. -/
def Flush (ctx : DeviceContextMtlImpl) : DeviceContextMtlImpl :=
  let ctx1 := ctx.EndAllEncoders
  if ctx1.m_MtlCommandBuffer then
    { ctx1 with
      m_MtlCommandBuffer := false
      NativeCalls := ctx1.NativeCalls ++ [NativeCall.commit] }
  else ctx1

/-- Modelled from the spec: `FinishCommandList`, whose body is not among the
sources. The specification fixes that the encoders are ended first
(`EndAllEncoders()` is required before it); what becomes of the command buffer
is not specified and is left as it is. -/
def FinishCommandList (ctx : DeviceContextMtlImpl) : DeviceContextMtlImpl :=
  ctx.EndAllEncoders

end DeviceContextMtlImpl

/-- The context operations that touch the encoders. -/
inductive ContextOp where
  | EnsureCommandBuffer
  | RequireEncoder (kind : EncoderKind)
  | EndAllEncoders
  | BeginRenderEncoding
  | Draw (pPipelineState pVertexBuffer : Nat)
  | DispatchCompute (pPipelineState : Nat)
  | CopyBuffer
  | Flush
  | FinishCommandList

/-- The effect of one context operation. -/
def DeviceContextMtlImpl.Apply (ctx : DeviceContextMtlImpl) : ContextOp → DeviceContextMtlImpl
  | ContextOp.EnsureCommandBuffer => ctx.EnsureCommandBuffer
  | ContextOp.RequireEncoder kind => ctx.RequireEncoder kind
  | ContextOp.EndAllEncoders => ctx.EndAllEncoders
  | ContextOp.BeginRenderEncoding => ctx.BeginRenderEncoding
  | ContextOp.Draw pPipelineState pVertexBuffer => ctx.Draw pPipelineState pVertexBuffer
  | ContextOp.DispatchCompute pPipelineState => ctx.DispatchCompute pPipelineState
  | ContextOp.CopyBuffer => ctx.CopyBuffer
  | ContextOp.Flush => ctx.Flush
  | ContextOp.FinishCommandList => ctx.FinishCommandList

/-- The state reached from `ctx` by a sequence of context operations. -/
def DeviceContextMtlImpl.Run (ctx : DeviceContextMtlImpl) (ops : List ContextOp) :
    DeviceContextMtlImpl :=
  ops.foldl DeviceContextMtlImpl.Apply ctx

/-! ## Index recovery, construction log and object queries of the variable manager -/

namespace ShaderVariableManagerMtl

/-- The address held by `m_pVariables`: the address of the block, the null
address when there is none. -/
def BaseAddress (mgr : ShaderVariableManagerMtl) : Nat :=
  match mgr.m_pVariables with
  | none => nullptr
  | some Block => Block.Address

/-- The value `~0u` that `GetVariableIndex` returns for a variable it does not
own. -/
def InvalidVariableIndex : Nat := 0xFFFFFFFF

/-- Method `GetVariableIndex(Variable)`, the variable being given by its
address. `Offset` is the `ptrdiff_t` difference of the two byte addresses, held
here as its 64-bit pattern; in `Offset % sizeof(...)` and `Offset / sizeof(...)`
the `size_t` operand makes both operations unsigned 64-bit ones; the
`static_cast<Uint32>` keeps the low 32 bits of the quotient. -/
def GetVariableIndex (sizeofVar : Nat) (mgr : ShaderVariableManagerMtl) (Variable : Nat) : Nat :=
  let Offset := (Variable + 2 ^ 64 - mgr.BaseAddress) % 2 ^ 64
  if Offset % sizeofVar = 0 then
    let Index := (Offset / sizeofVar) % 2 ^ 32
    if Index < mgr.m_NumVariables then Index else InvalidVariableIndex
  else
    InvalidVariableIndex

/-- The placement `new` calls of the construction loop of `Initialize` over the
remaining resources, in the order they are made: for each, the slot `VarIdx`
written and the resource index `i` of the variable constructed there. -/
def Initialize.writes (ShaderType : SHADER_TYPE) :
    List PipelineResourceDesc → Nat → Nat → List (Nat × Nat)
  | [], _, _ => []
  | Res :: rest, i, VarIdx =>
    if Selected ShaderType Res then
      (VarIdx, i) :: Initialize.writes ShaderType rest ((i + 1) % 2 ^ 32) ((VarIdx + 1) % 2 ^ 32)
    else
      Initialize.writes ShaderType rest ((i + 1) % 2 ^ 32) VarIdx

/-- One placement `new`: slot `w.1` of the block receives the variable of
resource `w.2`; writing past the block is undefined. -/
def PlacementNew (Slots : List (Option ShaderVariableMtlImpl)) (w : Nat × Nat) :
    Option (List (Option ShaderVariableMtlImpl)) :=
  if w.1 < Slots.length then some (Slots.set w.1 (some { m_ResIndex := w.2 })) else none

/-- The number of slots of the manager's block in which a variable has been
constructed. -/
def ConstructedVariables (mgr : ShaderVariableManagerMtl) : Nat :=
  match mgr.m_pVariables with
  | none => 0
  | some Block => Block.Slots.countP Option.isSome

/-- Method `SetBufferDynamicOffset`: the three arguments are discarded. -/
def SetBufferDynamicOffset (mgr : ShaderVariableManagerMtl)
    (_ResIndex _ArrayIndex _BufferDynamicOffset : Nat) : ShaderVariableManagerMtl :=
  mgr

/-- Method `Get(ArrayIndex, ResIndex)`: both arguments are discarded and the null
pointer is returned. -/
def Get (_mgr : ShaderVariableManagerMtl) (_ArrayIndex _ResIndex : Nat) : Nat :=
  nullptr

/-- Method `BindResources(pResourceMapping, Flags)`: forwards to the base class,
whose header is not among the sources; `TBase_BindResources` stands for what the
base class does to the manager and the cache (`none` for an undefined run). -/
def BindResources
    (TBase_BindResources : Nat → Nat → ShaderVariableManagerMtl × ShaderResourceCacheMtl →
      Option (ShaderVariableManagerMtl × ShaderResourceCacheMtl))
    (mgr : ShaderVariableManagerMtl) (Cache : ShaderResourceCacheMtl)
    (pResourceMapping Flags : Nat) :
    Option (ShaderVariableManagerMtl × ShaderResourceCacheMtl) :=
  TBase_BindResources pResourceMapping Flags (mgr, Cache)

end ShaderVariableManagerMtl

/-- The binding calls of the variable manager. -/
inductive ManagerOp where
  | BindResource (ResIndex : Nat) (BindInfo : BindResourceInfo)
  | BindResources (pResourceMapping Flags : Nat)
  | SetBufferDynamicOffset (ResIndex ArrayIndex BufferDynamicOffset : Nat)

/-- The effect of one binding call on the manager and its cache. -/
def ShaderVariableManagerMtl.ApplyOp
    (TBase_BindResources : Nat → Nat → ShaderVariableManagerMtl × ShaderResourceCacheMtl →
      Option (ShaderVariableManagerMtl × ShaderResourceCacheMtl))
    (st : ShaderVariableManagerMtl × ShaderResourceCacheMtl) :
    ManagerOp → Option (ShaderVariableManagerMtl × ShaderResourceCacheMtl)
  | ManagerOp.BindResource ResIndex BindInfo => st.1.BindResource st.2 ResIndex BindInfo
  | ManagerOp.BindResources pResourceMapping Flags =>
    st.1.BindResources TBase_BindResources st.2 pResourceMapping Flags
  | ManagerOp.SetBufferDynamicOffset ResIndex ArrayIndex BufferDynamicOffset =>
    some (st.1.SetBufferDynamicOffset ResIndex ArrayIndex BufferDynamicOffset, st.2)

/-- The effect of a sequence of binding calls; `none` when one of them is
undefined. -/
def ShaderVariableManagerMtl.RunOps
    (TBase_BindResources : Nat → Nat → ShaderVariableManagerMtl × ShaderResourceCacheMtl →
      Option (ShaderVariableManagerMtl × ShaderResourceCacheMtl)) :
    ShaderVariableManagerMtl × ShaderResourceCacheMtl → List ManagerOp →
      Option (ShaderVariableManagerMtl × ShaderResourceCacheMtl)
  | st, [] => some st
  | st, op :: rest =>
    match ShaderVariableManagerMtl.ApplyOp TBase_BindResources st op with
    | none => none
    | some st' => ShaderVariableManagerMtl.RunOps TBase_BindResources st' rest

/-! ## EngineFactoryMtlImpl::CreateDeviceAndContextsMtl -/

/-- The members of `EngineMtlCreateInfo` read by the factory. The two context
counts are `Uint32`. -/
structure EngineMtlCreateInfo where
  EngineAPIVersion : Nat
  NumImmediateContexts : Nat
  NumDeferredContexts : Nat
  NumImmediateContexts_lt : NumImmediateContexts < 2 ^ 32
  NumDeferredContexts_lt : NumDeferredContexts < 2 ^ 32

/-- What the build, the platform and the constructors called by the factory
answer during one call: the constant `DILIGENT_API_VERSION`, the result of
`MTLCreateSystemDefaultDevice()` (the null address for `nil`), the address of
the render device created (`none` when its creation throws `std::runtime_error`)
and, for each context index, the address of the immediate or deferred context
created (`none` when its creation throws). -/
structure CreationEnvironment where
  DILIGENT_API_VERSION : Nat
  mtlDevice : Nat
  NewRenderDevice : Option Nat
  NewImmediateContext : Nat → Option Nat
  NewDeferredContext : Nat → Option Nat

/-- The memory a call reaches through its two output pointers, and a record of
what the call did to it. `ppDevice` is `none` for a null pointer and otherwise
holds `*ppDevice`; `ppContexts` is `none` for a null pointer and otherwise holds
the caller's array. `Zeroed` is the number of context slots cleared by `memset`,
`Writes` lists the context slots written through `QueryInterface`, in order, and
`Released` lists the objects released. -/
structure FactoryCall where
  ppDevice : Option Nat
  ppContexts : Option (List Nat)
  Zeroed : Nat
  Writes : List Nat
  Released : List Nat
  deriving DecidableEq

/-- How the `try` block ends: in undefined behaviour, by a thrown
`std::runtime_error`, or normally; the last two with the memory at that point. -/
inductive TryOutcome where
  | undefined
  | thrown (s : FactoryCall)
  | completed (s : FactoryCall)
  deriving DecidableEq

namespace EngineFactoryMtlImpl

/-- The write `QueryInterface(IID_DeviceContext, ppContexts + Index)`: slot
`Index` of the caller's array receives the context; undefined past the array. -/
def WriteContext (s : FactoryCall) (Index pContext : Nat) : Option FactoryCall :=
  match s.ppContexts with
  | none => none
  | some Contexts =>
    if Index < Contexts.length then
      some { s with
        ppContexts := some (Contexts.set Index pContext)
        Writes := s.Writes ++ [Index] }
    else none

/-- A context creation loop with `n` turns left: context `CtxInd` is created by
`New` and written to slot `Base + CtxInd` (`Base` is 0 in the loop of the
immediate contexts and `NumImmediateContexts` in the loop of the deferred
ones; the sum is pointer arithmetic and does not wrap). `CtxInd` is a `Uint32`. -/
def CreateContexts (New : Nat → Option Nat) (Base : Nat) : Nat → Nat → FactoryCall → TryOutcome
  | 0, _, s => TryOutcome.completed s
  | n + 1, CtxInd, s =>
    match New CtxInd with
    | none => TryOutcome.thrown s
    | some pContext =>
      match WriteContext s (Base + CtxInd) pContext with
      | none => TryOutcome.undefined
      | some s' => CreateContexts New Base n ((CtxInd + 1) % 2 ^ 32) s'

/-- The `try` block of `CreateDeviceAndContextsMtl`. -/
def TryBlock (env : CreationEnvironment) (EngineCI : EngineMtlCreateInfo) (s : FactoryCall) :
    TryOutcome :=
  if env.mtlDevice = nullptr then TryOutcome.completed s
  else
    match env.NewRenderDevice with
    | none => TryOutcome.thrown s
    | some pRenderDeviceMtl =>
      let s1 := { s with ppDevice := some pRenderDeviceMtl }
      let NumImmediateContexts := max 1 EngineCI.NumImmediateContexts
      match CreateContexts env.NewImmediateContext 0 NumImmediateContexts 0 s1 with
      | TryOutcome.completed s2 =>
        CreateContexts env.NewDeferredContext NumImmediateContexts EngineCI.NumDeferredContexts
          0 s2
      | other => other

/-- The `catch` block of `CreateDeviceAndContextsMtl`: a device already stored
in `*ppDevice` is released and `*ppDevice` is reset; nothing else is touched. -/
def CatchBlock (s : FactoryCall) : FactoryCall :=
  match s.ppDevice with
  | none => s
  | some pDevice =>
    if pDevice ≠ nullptr then
      { s with ppDevice := some nullptr, Released := s.Released ++ [pDevice] }
    else s

/-- Method `CreateDeviceAndContextsMtl`. The result is an error for a failed
`VERIFY`, `none` for an undefined run (the caller's array is shorter than the
`memset`), and otherwise the memory on return. -/
def CreateDeviceAndContextsMtl (env : CreationEnvironment) (EngineCI : EngineMtlCreateInfo)
    (call : FactoryCall) : Except String (Option FactoryCall) :=
  if EngineCI.EngineAPIVersion ≠ env.DILIGENT_API_VERSION then
    pure (some call)
  else do
    VERIFY (call.ppDevice.isSome && call.ppContexts.isSome) "Null pointer provided"
    match call.ppDevice, call.ppContexts with
    | some _, some Contexts =>
      let NumSlots := (max 1 EngineCI.NumImmediateContexts + EngineCI.NumDeferredContexts) % 2 ^ 64
      if NumSlots ≤ Contexts.length then
        let s1 : FactoryCall :=
          { call with
            ppDevice := some nullptr
            ppContexts := some (List.replicate NumSlots nullptr ++ Contexts.drop NumSlots)
            Zeroed := NumSlots }
        match TryBlock env EngineCI s1 with
        | TryOutcome.undefined => pure none
        | TryOutcome.thrown s => pure (some (CatchBlock s))
        | TryOutcome.completed s => pure (some s)
      else
        pure none
    | _, _ => pure (some call)

end EngineFactoryMtlImpl

/-- The outputs the specification of a failed call asks for: `*ppDevice` is null
and each of the first `max(1, NumImmediateContexts) + NumDeferredContexts`
context slots is null. -/
def SpecNullOutputs (EngineCI : EngineMtlCreateInfo) (s : FactoryCall) : Prop :=
  s.ppDevice = some nullptr ∧
  ∃ Contexts, s.ppContexts = some Contexts ∧
    ∀ i, i < max 1 EngineCI.NumImmediateContexts + EngineCI.NumDeferredContexts →
      Contexts[i]? = some nullptr

/-- A creation request for two immediate contexts and one deferred context with
the API version 255000. -/
def exampleEngineCI : EngineMtlCreateInfo :=
  { EngineAPIVersion := 255000, NumImmediateContexts := 2, NumDeferredContexts := 1,
    NumImmediateContexts_lt := by decide, NumDeferredContexts_lt := by decide }

/-- An environment of the same API version in which every creation succeeds:
the device is created at address 4096, immediate context `i` at `8192 + i` and
deferred context `j` at `12288 + j`. -/
def exampleEnvironment : CreationEnvironment :=
  { DILIGENT_API_VERSION := 255000, mtlDevice := 1024, NewRenderDevice := some 4096,
    NewImmediateContext := fun i => some (8192 + i),
    NewDeferredContext := fun j => some (12288 + j) }

/-- An environment built for another API version, 256000. -/
def exampleOtherVersion : CreationEnvironment :=
  { exampleEnvironment with DILIGENT_API_VERSION := 256000 }

/-- An environment in which the creation of the second immediate context throws. -/
def exampleContextThrows : CreationEnvironment :=
  { exampleEnvironment with
    NewImmediateContext := fun i => if i = 1 then none else some (8192 + i) }

/-- A call whose output locations hold values left by the caller: `*ppDevice` is
57005 and the four context slots hold 48879. -/
def exampleCall : FactoryCall :=
  { ppDevice := some 57005, ppContexts := some [48879, 48879, 48879, 48879], Zeroed := 0,
    Writes := [], Released := [] }

section

open PipelineResourceAttribsMtl

/-! ## Properties of the packed descriptor -/

/-- Four `VERIFY` statements followed by a return succeed exactly when all
four expressions hold, and then return the value. -/
theorem VERIFY_chain_ok_iff {α : Type} (c1 c2 c3 c4 : Bool) (m1 m2 m3 m4 : String) (d d' : α) :
    (do VERIFY c1 m1; VERIFY c2 m2; VERIFY c3 m3; VERIFY c4 m4; pure d : Except String α)
        = Except.ok d' ↔
      (c1 = true ∧ c2 = true ∧ c3 = true ∧ c4 = true) ∧ d' = d := by
  cases c1 <;> cases c2 <;> cases c3 <;> cases c4 <;>
    simp [VERIFY, bind, Except.bind, pure, Except.pure, eq_comm]

/-- Four `VERIFY` statements followed by a return fail exactly when one of the
expressions is false. -/
theorem VERIFY_chain_error_iff {α : Type} (c1 c2 c3 c4 : Bool) (m1 m2 m3 m4 : String) (d : α) :
    (∃ msg, (do VERIFY c1 m1; VERIFY c2 m2; VERIFY c3 m3; VERIFY c4 m4; pure d : Except String α)
        = Except.error msg) ↔
      (c1 = false ∨ c2 = false ∨ c3 = false ∨ c4 = false) := by
  cases c1 <;> cases c2 <;> cases c3 <;> cases c4 <;>
    simp [VERIFY, bind, Except.bind, pure, Except.pure]

/-- A bit-field of width `w` holds `n` unchanged exactly when `n < 2 ^ w`. -/
theorem bitfield_holds_iff (n w : Nat) : (n % 2 ^ w == n) = true ↔ n < 2 ^ w := by
  rw [beq_iff_eq]
  exact Nat.mod_eq_iff_lt (pow_ne_zero w (by decide))

/-- Field `BindingIndex` after the member-initialiser list. -/
theorem init_BindingIndex (bi si as : Nat) (rt : SHADER_RESOURCE_TYPE) (f : Bool) (o p : Nat) :
    (init bi si as rt f o p).BindingIndex = bi % 2 ^ 16 := rfl

/-- Field `SamplerInd` after the member-initialiser list. -/
theorem init_SamplerInd (bi si as : Nat) (rt : SHADER_RESOURCE_TYPE) (f : Bool) (o p : Nat) :
    (init bi si as rt f o p).SamplerInd = si % 2 ^ 16 := rfl

/-- Field `ArraySize` after the member-initialiser list. -/
theorem init_ArraySize (bi si as : Nat) (rt : SHADER_RESOURCE_TYPE) (f : Bool) (o p : Nat) :
    (init bi si as rt f o p).ArraySize = as % 2 ^ 24 := rfl

/-- Accessor `GetResourceType()` after the member-initialiser list. -/
theorem init_GetResourceType (bi si as : Nat) (rt : SHADER_RESOURCE_TYPE) (f : Bool) (o p : Nat) :
    (init bi si as rt f o p).GetResourceType = rt % 2 ^ 5 := rfl

/-- Accessor `IsImmutableSamplerAssigned()` after the member-initialiser list. -/
theorem init_IsImmutableSamplerAssigned (bi si as : Nat) (rt : SHADER_RESOURCE_TYPE) (f : Bool)
    (o p : Nat) : (init bi si as rt f o p).IsImmutableSamplerAssigned = f := by
  cases f <;> rfl

/-- Field `SRBCacheOffset` after the member-initialiser list. -/
theorem init_SRBCacheOffset (bi si as : Nat) (rt : SHADER_RESOURCE_TYPE) (f : Bool) (o p : Nat) :
    (init bi si as rt f o p).SRBCacheOffset = o % 2 ^ 32 := rfl

/-- Field `StaticCacheOffset` after the member-initialiser list. -/
theorem init_StaticCacheOffset (bi si as : Nat) (rt : SHADER_RESOURCE_TYPE) (f : Bool) (o p : Nat) :
    (init bi si as rt f o p).StaticCacheOffset = p % 2 ^ 32 := rfl

/-- The constructor succeeds exactly when the four checked arguments fit their
bit-fields, and then it returns the member-initialiser list. -/
theorem ctor_eq_ok_iff (bi si as : Nat) (rt : SHADER_RESOURCE_TYPE) (f : Bool) (o p : Nat)
    (d : PipelineResourceAttribsMtl) :
    ctor bi si as rt f o p = Except.ok d ↔
      (bi < 2 ^ 16 ∧ si < 2 ^ 16 ∧ as < 2 ^ 24 ∧ rt < 32) ∧ d = init bi si as rt f o p := by
  have h5 : rt < 2 ^ 5 ↔ rt < 32 := by norm_num
  unfold ctor
  rw [VERIFY_chain_ok_iff]
  simp only [init_BindingIndex, init_SamplerInd, init_ArraySize, init_GetResourceType,
    bitfield_holds_iff, h5]
  tauto

/-- The constructor fails exactly when one of the four checked arguments does
not fit its bit-field. -/
theorem ctor_eq_error_iff (bi si as : Nat) (rt : SHADER_RESOURCE_TYPE) (f : Bool) (o p : Nat) :
    (∃ msg, ctor bi si as rt f o p = Except.error msg) ↔
      (2 ^ 16 ≤ bi ∨ 2 ^ 16 ≤ si ∨ 2 ^ 24 ≤ as ∨ 32 ≤ rt) := by
  have h5 : rt < 2 ^ 5 ↔ rt < 32 := by norm_num
  unfold ctor
  rw [VERIFY_chain_error_iff]
  simp only [init_BindingIndex, init_SamplerInd, init_ArraySize, init_GetResourceType,
    ← Bool.not_eq_true, bitfield_holds_iff, h5, not_lt]
  tauto

/-- Compatibility spelled out on the four compared bit-fields. -/
theorem IsCompatibleWith_eq_true_iff (a b : PipelineResourceAttribsMtl) :
    a.IsCompatibleWith b = true ↔
      a.BindingIndex = b.BindingIndex ∧ a.ArraySize = b.ArraySize ∧
        a.ResourceType = b.ResourceType ∧ a.ImtblSamplerAssigned = b.ImtblSamplerAssigned := by
  simp only [IsCompatibleWith, Bool.and_eq_true, beq_iff_eq, and_assoc]

/-- The one-bit flag field and the accessor built on it carry the same information. -/
theorem IsImmutableSamplerAssigned_eq_iff (a b : PipelineResourceAttribsMtl) :
    a.IsImmutableSamplerAssigned = b.IsImmutableSamplerAssigned ↔
      a.ImtblSamplerAssigned = b.ImtblSamplerAssigned := by
  have ha : a.ImtblSamplerAssigned < 2 := a.ImtblSamplerAssigned_lt
  have hb : b.ImtblSamplerAssigned < 2 := b.ImtblSamplerAssigned_lt
  unfold IsImmutableSamplerAssigned
  constructor
  · intro h
    by_cases h0 : a.ImtblSamplerAssigned = 0
    · have : (b.ImtblSamplerAssigned != 0) = false := by rw [← h, h0]; rfl
      have hb0 : b.ImtblSamplerAssigned = 0 := by simpa using this
      omega
    · have h1 : (a.ImtblSamplerAssigned != 0) = true := by simpa using h0
      have : (b.ImtblSamplerAssigned != 0) = true := by rw [← h, h1]
      have hb0 : b.ImtblSamplerAssigned ≠ 0 := by simpa using this
      omega
  · intro h
    rw [h]

/-- C1: for bindingIndex < 2^16, samplerIndex < 2^16, arraySize < 2^24,
resourceType < 32, any immutable-sampler flag and any two 32-bit cache offsets,
the constructor succeeds and the descriptor it returns reads back exactly these
values through BindingIndex, SamplerInd, ArraySize, GetResourceType(),
IsImmutableSamplerAssigned(), SRBCacheOffset and StaticCacheOffset. -/
theorem ctor_pack_unpack (bindingIndex samplerIndex arraySize : Nat)
    (resourceType : SHADER_RESOURCE_TYPE) (flag : Bool) (srbOffset staticOffset : Nat)
    (hb : bindingIndex < 2 ^ 16) (hs : samplerIndex < 2 ^ 16) (ha : arraySize < 2 ^ 24)
    (hr : resourceType < 32) (ho : srbOffset < 2 ^ 32) (hp : staticOffset < 2 ^ 32) :
    ∃ d, ctor bindingIndex samplerIndex arraySize resourceType flag srbOffset staticOffset
          = Except.ok d ∧
      d.BindingIndex = bindingIndex ∧ d.SamplerInd = samplerIndex ∧ d.ArraySize = arraySize ∧
      d.GetResourceType = resourceType ∧ d.IsImmutableSamplerAssigned = flag ∧
      d.SRBCacheOffset = srbOffset ∧ d.StaticCacheOffset = staticOffset := by
  refine ⟨init bindingIndex samplerIndex arraySize resourceType flag srbOffset staticOffset,
    (ctor_eq_ok_iff _ _ _ _ _ _ _ _).mpr ⟨⟨hb, hs, ha, hr⟩, rfl⟩, ?_, ?_, ?_, ?_, ?_, ?_, ?_⟩
  · rw [init_BindingIndex]; exact Nat.mod_eq_of_lt hb
  · rw [init_SamplerInd]; exact Nat.mod_eq_of_lt hs
  · rw [init_ArraySize]; exact Nat.mod_eq_of_lt ha
  · rw [init_GetResourceType]; exact Nat.mod_eq_of_lt (by norm_num; exact hr)
  · exact init_IsImmutableSamplerAssigned _ _ _ _ _ _ _
  · rw [init_SRBCacheOffset]; exact Nat.mod_eq_of_lt ho
  · rw [init_StaticCacheOffset]; exact Nat.mod_eq_of_lt hp

/-- C1 at the largest values of every field: binding index 65535, sampler
index 65534, array size 2^24 - 1, resource type 31, flag set, offsets 2^32 - 1
and 0. -/
theorem ctor_pack_unpack_witness :
    ∃ d, ctor 65535 65534 16777215 31 true 4294967295 0 = Except.ok d ∧
      d.BindingIndex = 65535 ∧ d.SamplerInd = 65534 ∧ d.ArraySize = 16777215 ∧
      d.GetResourceType = 31 ∧ d.IsImmutableSamplerAssigned = true ∧
      d.SRBCacheOffset = 4294967295 ∧ d.StaticCacheOffset = 0 :=
  ctor_pack_unpack 65535 65534 16777215 31 true 4294967295 0 (by decide) (by decide)
    (by decide) (by decide) (by decide) (by decide)

/-- C2: `a.IsCompatibleWith(b)` is true if and only if a and b have equal
binding index, equal array size, equal resource type and equal
immutable-sampler flag. Hence descriptors initialised with the same four values
are compatible whatever their sampler indices and cache offsets are, and
descriptors that differ in any one of the four fields are incompatible. -/
theorem IsCompatibleWith_iff_four_fields :
    (∀ a b : PipelineResourceAttribsMtl,
      a.IsCompatibleWith b = true ↔
        (a.BindingIndex = b.BindingIndex ∧ a.ArraySize = b.ArraySize ∧
          a.GetResourceType = b.GetResourceType ∧
          a.IsImmutableSamplerAssigned = b.IsImmutableSamplerAssigned)) ∧
    (∀ (bi as : Nat) (rt : SHADER_RESOURCE_TYPE) (f : Bool) (s1 s2 o1 o2 p1 p2 : Nat),
      (init bi s1 as rt f o1 p1).IsCompatibleWith (init bi s2 as rt f o2 p2) = true) ∧
    (∀ a b : PipelineResourceAttribsMtl,
      (a.BindingIndex ≠ b.BindingIndex ∨ a.ArraySize ≠ b.ArraySize ∨
        a.GetResourceType ≠ b.GetResourceType ∨
        a.IsImmutableSamplerAssigned ≠ b.IsImmutableSamplerAssigned) →
      a.IsCompatibleWith b = false) := by
  have key : ∀ a b : PipelineResourceAttribsMtl,
      a.IsCompatibleWith b = true ↔
        (a.BindingIndex = b.BindingIndex ∧ a.ArraySize = b.ArraySize ∧
          a.GetResourceType = b.GetResourceType ∧
          a.IsImmutableSamplerAssigned = b.IsImmutableSamplerAssigned) := by
    intro a b
    rw [IsCompatibleWith_eq_true_iff, IsImmutableSamplerAssigned_eq_iff]
    rfl
  refine ⟨key, ?_, ?_⟩
  · intro bi as rt f s1 s2 o1 o2 p1 p2
    exact (IsCompatibleWith_eq_true_iff _ _).mpr ⟨rfl, rfl, rfl, rfl⟩
  · intro a b h
    rw [← Bool.not_eq_true, key]
    tauto

/-- C3: the constructor is a contract failure whenever bindingIndex >= 2^16, or
samplerIndex >= 2^16, or arraySize >= 2^24, or resourceType >= 32; a descriptor
it returns holds the untruncated arguments; and for every input within these
bounds it returns a descriptor. -/
theorem ctor_contract (bindingIndex samplerIndex arraySize : Nat)
    (resourceType : SHADER_RESOURCE_TYPE) (flag : Bool) (srbOffset staticOffset : Nat) :
    ((2 ^ 16 ≤ bindingIndex ∨ 2 ^ 16 ≤ samplerIndex ∨ 2 ^ 24 ≤ arraySize ∨ 32 ≤ resourceType) →
      ∃ msg, ctor bindingIndex samplerIndex arraySize resourceType flag srbOffset staticOffset
        = Except.error msg) ∧
    (∀ d, ctor bindingIndex samplerIndex arraySize resourceType flag srbOffset staticOffset
        = Except.ok d →
      d.BindingIndex = bindingIndex ∧ d.SamplerInd = samplerIndex ∧ d.ArraySize = arraySize ∧
        d.GetResourceType = resourceType) ∧
    ((bindingIndex < 2 ^ 16 ∧ samplerIndex < 2 ^ 16 ∧ arraySize < 2 ^ 24 ∧ resourceType < 32) →
      ∃ d, ctor bindingIndex samplerIndex arraySize resourceType flag srbOffset staticOffset
        = Except.ok d) := by
  refine ⟨(ctor_eq_error_iff _ _ _ _ _ _ _).mpr, ?_, ?_⟩
  · intro d hd
    obtain ⟨⟨hb, hs, ha, hr⟩, rfl⟩ := (ctor_eq_ok_iff _ _ _ _ _ _ _ _).mp hd
    refine ⟨?_, ?_, ?_, ?_⟩
    · rw [init_BindingIndex]; exact Nat.mod_eq_of_lt hb
    · rw [init_SamplerInd]; exact Nat.mod_eq_of_lt hs
    · rw [init_ArraySize]; exact Nat.mod_eq_of_lt ha
    · rw [init_GetResourceType]; exact Nat.mod_eq_of_lt (by norm_num; exact hr)
  · intro h
    exact ⟨_, (ctor_eq_ok_iff _ _ _ _ _ _ _ _).mpr ⟨h, rfl⟩⟩

/-- C3 at concrete inputs: a binding index of 2^16 and a resource type of 32
are contract failures with the message of their own check, and the arguments
just below the limits construct. -/
theorem ctor_contract_witness :
    ctor 65536 0 1 1 false 0 0
        = Except.error "Binding index exceeds maximum representable value" ∧
    ctor 0 0 1 32 false 0 0
        = Except.error "Resource type exceeds maximum representable value" ∧
    (∃ d, ctor 65535 65535 16777215 31 false 0 0 = Except.ok d) :=
  ⟨rfl, rfl,
    (ctor_contract 65535 65535 16777215 31 false 0 0).2.2 (by decide)⟩

/-- C9: compatible descriptors have equal hashes, for every hash combiner
`ComputeHash`; and the hash of a descriptor does not depend on its sampler
index or on either cache offset. -/
theorem GetHash_respects_IsCompatibleWith (ComputeHash : List Nat → Nat) :
    (∀ a b : PipelineResourceAttribsMtl,
      a.IsCompatibleWith b = true → a.GetHash ComputeHash = b.GetHash ComputeHash) ∧
    (∀ (bi as : Nat) (rt : SHADER_RESOURCE_TYPE) (f : Bool) (s1 s2 o1 o2 p1 p2 : Nat),
      (init bi s1 as rt f o1 p1).GetHash ComputeHash
        = (init bi s2 as rt f o2 p2).GetHash ComputeHash) := by
  refine ⟨?_, ?_⟩
  · intro a b h
    obtain ⟨h1, h2, h3, h4⟩ := (IsCompatibleWith_eq_true_iff a b).mp h
    simp only [GetHash, h1, h2, h3, h4]
  · intro bi as rt f s1 s2 o1 o2 p1 p2
    rfl

/-- C9 at two descriptors that differ in sampler index and in both cache
offsets, hashed by a positional polynomial: they are compatible and hash alike. -/
theorem GetHash_respects_IsCompatibleWith_witness :
    (init 3 65535 4 1 true 0 16).IsCompatibleWith (init 3 2 4 1 true 32 48) = true ∧
    (init 3 65535 4 1 true 0 16).GetHash (fun args => args.foldl (fun h x => 31 * h + x) 7)
      = (init 3 2 4 1 true 32 48).GetHash (fun args => args.foldl (fun h x => 31 * h + x) 7) :=
  ⟨by decide,
    (GetHash_respects_IsCompatibleWith _).1 _ _ (by decide)⟩

/-- C10: `IsCompatibleWith` is reflexive and symmetric. -/
theorem IsCompatibleWith_refl_symm :
    (∀ a : PipelineResourceAttribsMtl, a.IsCompatibleWith a = true) ∧
    (∀ a b : PipelineResourceAttribsMtl, a.IsCompatibleWith b = b.IsCompatibleWith a) := by
  refine ⟨?_, ?_⟩
  · intro a
    exact (IsCompatibleWith_eq_true_iff a a).mpr ⟨rfl, rfl, rfl, rfl⟩
  · intro a b
    rw [Bool.eq_iff_iff, IsCompatibleWith_eq_true_iff, IsCompatibleWith_eq_true_iff]
    constructor
    · rintro ⟨h1, h2, h3, h4⟩
      exact ⟨h1.symm, h2.symm, h3.symm, h4.symm⟩
    · rintro ⟨h1, h2, h3, h4⟩
      exact ⟨h1.symm, h2.symm, h3.symm, h4.symm⟩


end

section

open ShaderVariableManagerMtl

/-! ## Properties of the variable manager -/

/-- The counting loop adds the number of selected resources to its counter, as
long as the counter cannot pass `2 ^ 32`. -/
theorem GetRequiredMemorySize_loop_eq (ShaderStages : SHADER_TYPE) :
    ∀ (Rs : List PipelineResourceDesc) (Count : Nat), Count + Rs.length < 2 ^ 32 →
      GetRequiredMemorySize.loop ShaderStages Rs Count
        = Count + Rs.countP (Selected ShaderStages)
  | [], Count, _ => by simp [GetRequiredMemorySize.loop]
  | Res :: rest, Count, h => by
    simp only [List.length_cons] at h
    by_cases hs : Selected ShaderStages Res = true
    · have hc : (Count + 1) % 2 ^ 32 = Count + 1 := Nat.mod_eq_of_lt (by omega)
      rw [GetRequiredMemorySize.loop, if_pos hs, hc,
        GetRequiredMemorySize_loop_eq ShaderStages rest (Count + 1) (by omega),
        List.countP_cons_of_pos _ _ hs]
      omega
    · rw [GetRequiredMemorySize.loop, if_neg hs,
        GetRequiredMemorySize_loop_eq ShaderStages rest Count (by omega),
        List.countP_cons_of_neg _ _ hs]

/-- The selected indices of a list enumerated from `i`. -/
theorem selected_enumFrom_cons (ShaderStages : SHADER_TYPE) (Res : PipelineResourceDesc)
    (rest : List PipelineResourceDesc) (i : Nat) :
    (((Res :: rest).enumFrom i).filter fun p => Selected ShaderStages p.2).map Prod.fst
      = (if Selected ShaderStages Res then [i] else []) ++
        ((rest.enumFrom (i + 1)).filter fun p => Selected ShaderStages p.2).map Prod.fst := by
  by_cases hs : Selected ShaderStages Res = true
  · simp [List.enumFrom, List.filter_cons, hs]
  · simp [List.enumFrom, List.filter_cons, hs]

/-- There are as many selected indices as selected resources. -/
theorem selected_enumFrom_length (ShaderStages : SHADER_TYPE) :
    ∀ (Rs : List PipelineResourceDesc) (i : Nat),
      (((Rs.enumFrom i).filter fun p => Selected ShaderStages p.2).map Prod.fst).length
        = Rs.countP (Selected ShaderStages)
  | [], _ => by simp
  | Res :: rest, i => by
    rw [selected_enumFrom_cons, List.length_append, selected_enumFrom_length ShaderStages rest]
    by_cases hs : Selected ShaderStages Res = true
    · rw [if_pos hs, List.countP_cons_of_pos _ _ hs]; simp; omega
    · rw [if_neg hs, List.countP_cons_of_neg _ _ hs]; simp

/-- Every selected index of a list enumerated from `i` is at least `i`. -/
theorem selected_enumFrom_ge (ShaderStages : SHADER_TYPE) :
    ∀ (Rs : List PipelineResourceDesc) (i j : Nat),
      j ∈ ((Rs.enumFrom i).filter fun p => Selected ShaderStages p.2).map Prod.fst → i ≤ j
  | [], _, _, h => by simp at h
  | Res :: rest, i, j, h => by
    rw [selected_enumFrom_cons, List.mem_append] at h
    rcases h with h | h
    · by_cases hs : Selected ShaderStages Res = true
      · rw [if_pos hs] at h; simp at h; omega
      · rw [if_neg hs] at h; simp at h
    · have := selected_enumFrom_ge ShaderStages rest (i + 1) j h
      omega

/-- The selected indices of a list enumerated from `i` are strictly increasing. -/
theorem selected_enumFrom_pairwise (ShaderStages : SHADER_TYPE) :
    ∀ (Rs : List PipelineResourceDesc) (i : Nat),
      (((Rs.enumFrom i).filter fun p => Selected ShaderStages p.2).map Prod.fst).Pairwise
        (fun a b => a < b)
  | [], _ => by simp
  | Res :: rest, i => by
    rw [selected_enumFrom_cons, List.pairwise_append]
    refine ⟨?_, selected_enumFrom_pairwise ShaderStages rest (i + 1), ?_⟩
    · by_cases hs : Selected ShaderStages Res = true
      · rw [if_pos hs]; simp
      · rw [if_neg hs]; simp
    · intro a ha b hb
      have hb' := selected_enumFrom_ge ShaderStages rest (i + 1) b hb
      by_cases hs : Selected ShaderStages Res = true
      · rw [if_pos hs] at ha; simp at ha; omega
      · rw [if_neg hs] at ha; simp at ha

/-- Writing slot `v` and keeping the first `v + 1` slots. -/
theorem take_succ_set {α : Type} (a : α) :
    ∀ (l : List α) (v : Nat), v < l.length → (l.set v a).take (v + 1) = l.take v ++ [a]
  | [], _, h => by simp at h
  | _ :: _, 0, _ => by simp
  | x :: l, v + 1, h => by
    simp only [List.length_cons, Nat.add_lt_add_iff_right] at h
    simp [take_succ_set a l v h]

/-- Writing slot `v` leaves the slots after it as they were. -/
theorem drop_succ_set {α : Type} (a : α) :
    ∀ (l : List α) (v k : Nat), (l.set v a).drop (v + 1 + k) = l.drop (v + 1 + k)
  | [], _, _ => by simp
  | _ :: _, 0, k => by
    rw [Nat.zero_add, Nat.add_comm 1 k]
    rfl
  | x :: l, v + 1, k => by
    have := drop_succ_set a l v k
    simpa [Nat.add_right_comm] using this

/-- The construction loop, started at resource `i` and slot `VarIdx`, never
writes past the block when the block has room for the selected resources, and
fills the slots from `VarIdx` on with the selected indices in order. -/
theorem Initialize_loop_eq (ShaderType : SHADER_TYPE) :
    ∀ (Rs : List PipelineResourceDesc) (i VarIdx : Nat)
      (Slots : List (Option ShaderVariableMtlImpl)),
      i + Rs.length < 2 ^ 32 → VarIdx ≤ i →
      VarIdx + Rs.countP (Selected ShaderType) ≤ Slots.length →
      Initialize.loop ShaderType Rs i VarIdx Slots
        = some (Slots.take VarIdx ++
            (((Rs.enumFrom i).filter fun p => Selected ShaderType p.2).map Prod.fst).map
              (fun j => some (ShaderVariableMtlImpl.mk j)) ++
            Slots.drop (VarIdx + Rs.countP (Selected ShaderType)))
  | [], i, VarIdx, Slots, _, _, _ => by
    simp [Initialize.loop]
  | Res :: rest, i, VarIdx, Slots, hi, hv, hroom => by
    simp only [List.length_cons] at hi
    have hi1 : (i + 1) % 2 ^ 32 = i + 1 := Nat.mod_eq_of_lt (by omega)
    have hv1 : (VarIdx + 1) % 2 ^ 32 = VarIdx + 1 := Nat.mod_eq_of_lt (by omega)
    rw [selected_enumFrom_cons]
    by_cases hs : Selected ShaderType Res = true
    · rw [List.countP_cons_of_pos _ _ hs] at hroom ⊢
      have hlt : VarIdx < Slots.length := by omega
      rw [Initialize.loop, if_pos hs, if_pos hlt, hi1, hv1,
        Initialize_loop_eq ShaderType rest (i + 1) (VarIdx + 1) _ (by omega) (by omega)
          (by rw [List.length_set]; omega),
        take_succ_set _ _ _ hlt, drop_succ_set, if_pos hs]
      simp [Nat.add_assoc, Nat.add_comm 1]
    · rw [List.countP_cons_of_neg _ _ hs] at hroom ⊢
      rw [Initialize.loop, if_neg hs, hi1,
        Initialize_loop_eq ShaderType rest (i + 1) VarIdx Slots (by omega) (by omega) hroom,
        if_neg hs]
      simp

/-- The selection test, spelled out. -/
theorem Selected_iff (ShaderStages : SHADER_TYPE) (Res : PipelineResourceDesc) :
    Selected ShaderStages Res = true ↔
      (Res.ShaderStages &&& ShaderStages) ≠ 0 ∧
        Res.VarType = SHADER_RESOURCE_VARIABLE_TYPE.STATIC := by
  simp [Selected]

/-- An index is selected exactly when the resource at this index passes the
selection test. -/
theorem mem_SelectedResourceIndices (Rs : List PipelineResourceDesc) (ShaderStages : SHADER_TYPE)
    (i : Nat) :
    i ∈ SelectedResourceIndices Rs ShaderStages ↔
      ∃ Res, Rs[i]? = some Res ∧ (Res.ShaderStages &&& ShaderStages) ≠ 0 ∧
        Res.VarType = SHADER_RESOURCE_VARIABLE_TYPE.STATIC := by
  unfold SelectedResourceIndices
  simp only [List.mem_map, List.mem_filter, Prod.exists, exists_and_right, exists_eq_right,
    List.mk_mem_enum_iff_getElem?, Selected_iff]

/-- With fewer than `2 ^ 32` resources and a slot of at most `2 ^ 32` bytes,
`GetRequiredMemorySize` returns the unwrapped product and the number of selected
resources. -/
theorem GetRequiredMemorySize_eq (sizeofVar : Nat) (Signature : PipelineResourceSignatureMtlImpl)
    (AllowedVarTypes : List SHADER_RESOURCE_VARIABLE_TYPE) (NumAllowedTypes : Nat)
    (ShaderStages : SHADER_TYPE) (hsize : sizeofVar ≤ 2 ^ 32) :
    GetRequiredMemorySize sizeofVar Signature AllowedVarTypes NumAllowedTypes ShaderStages
      = (Signature.GetDesc.Resources.countP (Selected ShaderStages) * sizeofVar,
          Signature.GetDesc.Resources.countP (Selected ShaderStages)) := by
  have hlen : Signature.GetDesc.Resources.length < 2 ^ 32 := Signature.Desc.NumResources_lt
  have hle : Signature.GetDesc.Resources.countP (Selected ShaderStages)
      ≤ Signature.GetDesc.Resources.length := List.countP_le_length _
  have hloop := GetRequiredMemorySize_loop_eq ShaderStages Signature.GetDesc.Resources 0
    (by omega)
  rw [Nat.zero_add] at hloop
  unfold GetRequiredMemorySize
  simp only [hloop]
  have hprod : Signature.GetDesc.Resources.countP (Selected ShaderStages) * sizeofVar
      < 2 ^ 64 := by
    calc Signature.GetDesc.Resources.countP (Selected ShaderStages) * sizeofVar
        ≤ (2 ^ 32 - 1) * 2 ^ 32 := Nat.mul_le_mul (by omega) hsize
      _ < 2 ^ 64 := by norm_num
  rw [Nat.mod_eq_of_lt hprod]

/-- The state `Initialize` leaves when at least one resource is selected: the
manager is tied to the signature, its block sits where the allocator put it and
holds the variables of the selected indices in order. -/
theorem Initialize_eq (sizeofVar : Nat) (mgr : ShaderVariableManagerMtl)
    (Signature : PipelineResourceSignatureMtlImpl) (Allocator : Nat → Nat)
    (AllowedVarTypes : List SHADER_RESOURCE_VARIABLE_TYPE) (NumAllowedTypes : Nat)
    (ShaderType : SHADER_TYPE) (hpos : 0 < sizeofVar) (hsize : sizeofVar ≤ 2 ^ 32)
    (hcount : 0 < Signature.GetDesc.Resources.countP (Selected ShaderType)) :
    Initialize sizeofVar mgr Signature Allocator AllowedVarTypes NumAllowedTypes ShaderType
      = some (ShaderVariableManagerMtl.mk (some Signature)
          (some (VariableBlock.mk
            (Allocator (Signature.GetDesc.Resources.countP (Selected ShaderType) * sizeofVar))
            ((SelectedResourceIndices Signature.GetDesc.Resources ShaderType).map
              (fun i => some (ShaderVariableMtlImpl.mk i)))))
          (Signature.GetDesc.Resources.countP (Selected ShaderType))) := by
  have hlen : Signature.GetDesc.Resources.length < 2 ^ 32 := Signature.Desc.NumResources_lt
  have hne : (Signature.GetDesc.Resources.countP (Selected ShaderType) == 0) = false := by
    rw [beq_eq_false_iff_ne]; omega
  have hloop := Initialize_loop_eq ShaderType Signature.GetDesc.Resources 0 0
    (List.replicate (Signature.GetDesc.Resources.countP (Selected ShaderType)) none)
    (by omega) (Nat.le_refl 0) (by simp)
  have hslots : ((List.map Prod.fst
      (List.filter (fun p => Selected ShaderType p.2)
        (List.enumFrom 0 Signature.GetDesc.Resources))).map
        (fun j => some (ShaderVariableMtlImpl.mk j)))
      = (SelectedResourceIndices Signature.GetDesc.Resources ShaderType).map
        (fun i => some (ShaderVariableMtlImpl.mk i)) := rfl
  simp only [List.take_zero, List.nil_append, Nat.zero_add, List.drop_replicate, Nat.sub_self,
    List.replicate_zero, List.append_nil, hslots] at hloop
  unfold Initialize
  simp only [GetRequiredMemorySize_eq sizeofVar Signature AllowedVarTypes NumAllowedTypes
    ShaderType hsize, hne, TBase_Initialize, Nat.mul_div_cancel _ hpos, hloop]
  rfl

/-- C4: when at least one resource of the signature is visible in the given
stages and static, `Initialize` returns with a block that holds exactly one
variable per such resource: the count is the number of selected resource
indices, slot k holds the variable of the k-th selected index, the selected
indices are strictly increasing, and an index is selected exactly when its
resource intersects the stage mask and is static. -/
theorem Initialize_creates_selected_variables (sizeofVar : Nat) (mgr : ShaderVariableManagerMtl)
    (Signature : PipelineResourceSignatureMtlImpl) (Allocator : Nat → Nat)
    (AllowedVarTypes : List SHADER_RESOURCE_VARIABLE_TYPE) (NumAllowedTypes : Nat)
    (ShaderType : SHADER_TYPE) (hpos : 0 < sizeofVar) (hsize : sizeofVar ≤ 2 ^ 32)
    (hmatch : ∃ Res, Res ∈ Signature.GetDesc.Resources ∧
      (Res.ShaderStages &&& ShaderType) ≠ 0 ∧
      Res.VarType = SHADER_RESOURCE_VARIABLE_TYPE.STATIC) :
    ∃ mgr' Block,
      Initialize sizeofVar mgr Signature Allocator AllowedVarTypes NumAllowedTypes ShaderType
        = some mgr' ∧
      mgr'.m_pVariables = some Block ∧
      mgr'.GetVariableCount
        = (SelectedResourceIndices Signature.GetDesc.Resources ShaderType).length ∧
      Block.Slots = (SelectedResourceIndices Signature.GetDesc.Resources ShaderType).map
        (fun i => some (ShaderVariableMtlImpl.mk i)) ∧
      (∀ k, k < mgr'.GetVariableCount →
        mgr'.Variable k = (SelectedResourceIndices Signature.GetDesc.Resources ShaderType)[k]?.map
          ShaderVariableMtlImpl.mk) ∧
      (SelectedResourceIndices Signature.GetDesc.Resources ShaderType).Pairwise
        (fun a b => a < b) ∧
      (∀ i, i ∈ SelectedResourceIndices Signature.GetDesc.Resources ShaderType ↔
        ∃ Res, Signature.GetDesc.Resources[i]? = some Res ∧
          (Res.ShaderStages &&& ShaderType) ≠ 0 ∧
          Res.VarType = SHADER_RESOURCE_VARIABLE_TYPE.STATIC) := by
  have hsel : (SelectedResourceIndices Signature.GetDesc.Resources ShaderType).length
      = Signature.GetDesc.Resources.countP (Selected ShaderType) :=
    selected_enumFrom_length ShaderType _ 0
  have hcount : 0 < Signature.GetDesc.Resources.countP (Selected ShaderType) := by
    obtain ⟨Res, hmem, hst, hvt⟩ := hmatch
    exact List.countP_pos_iff.mpr ⟨Res, hmem, (Selected_iff ShaderType Res).mpr ⟨hst, hvt⟩⟩
  refine ⟨_, _, Initialize_eq sizeofVar mgr Signature Allocator AllowedVarTypes NumAllowedTypes
      ShaderType hpos hsize hcount, rfl, hsel.symm, rfl, ?_,
    selected_enumFrom_pairwise ShaderType _ 0, mem_SelectedResourceIndices _ _⟩
  intro k _
  simp [Variable, List.getElem?_map]
  cases (SelectedResourceIndices Signature.GetDesc.Resources ShaderType)[k]? <;> rfl


/-- C4 on the example of the specification: over `A` (vertex and pixel, static),
`B` (pixel, dynamic), `C` (pixel, static) and the pixel stage the selected
indices are `[0, 2]`, the manager holds exactly 2 variables, and their declared
names are `A` and `C` in this order. -/
theorem Initialize_creates_selected_variables_witness :
    SelectedResourceIndices exampleSignature.GetDesc.Resources SHADER_TYPE_PIXEL = [0, 2] ∧
    exampleManager.GetVariableCount = 2 ∧
    (List.range exampleManager.GetVariableCount).map exampleManager.DeclaredName
      = [some "A", some "C"] ∧
    ∃ mgr' Block,
      Initialize 24 ShaderVariableManagerMtl.ctor exampleSignature exampleAllocator
        [SHADER_RESOURCE_VARIABLE_TYPE.STATIC] 1 SHADER_TYPE_PIXEL = some mgr' ∧
      mgr'.m_pVariables = some Block ∧
      mgr'.GetVariableCount
        = (SelectedResourceIndices exampleSignature.GetDesc.Resources SHADER_TYPE_PIXEL).length ∧
      Block.Slots = (SelectedResourceIndices exampleSignature.GetDesc.Resources
        SHADER_TYPE_PIXEL).map (fun i => some (ShaderVariableMtlImpl.mk i)) ∧
      (∀ k, k < mgr'.GetVariableCount →
        mgr'.Variable k = (SelectedResourceIndices exampleSignature.GetDesc.Resources
          SHADER_TYPE_PIXEL)[k]?.map ShaderVariableMtlImpl.mk) ∧
      (SelectedResourceIndices exampleSignature.GetDesc.Resources SHADER_TYPE_PIXEL).Pairwise
        (fun a b => a < b) ∧
      (∀ i, i ∈ SelectedResourceIndices exampleSignature.GetDesc.Resources SHADER_TYPE_PIXEL ↔
        ∃ Res, exampleSignature.GetDesc.Resources[i]? = some Res ∧
          (Res.ShaderStages &&& SHADER_TYPE_PIXEL) ≠ 0 ∧
          Res.VarType = SHADER_RESOURCE_VARIABLE_TYPE.STATIC) :=
  ⟨by decide, by decide, by decide,
    Initialize_creates_selected_variables 24 ShaderVariableManagerMtl.ctor exampleSignature
      exampleAllocator [SHADER_RESOURCE_VARIABLE_TYPE.STATIC] 1 SHADER_TYPE_PIXEL (by decide)
      (by decide) ⟨_, List.mem_cons_self _ _, by decide, rfl⟩⟩

/-- C5 as amended: whatever filter of binding classes the caller passes,
`GetRequiredMemorySize` reports the number of resources whose stage mask
intersects `ShaderStages` and whose variable type is static, and returns that
count times the slot size, without wrap-around (so 0 when nothing is selected). -/
theorem GetRequiredMemorySize_counts_static (sizeofVar : Nat)
    (Signature : PipelineResourceSignatureMtlImpl)
    (AllowedVarTypes : List SHADER_RESOURCE_VARIABLE_TYPE) (NumAllowedTypes : Nat)
    (ShaderStages : SHADER_TYPE) (hsize : sizeofVar ≤ 2 ^ 32) :
    (GetRequiredMemorySize sizeofVar Signature AllowedVarTypes NumAllowedTypes ShaderStages).2
      = Signature.GetDesc.Resources.countP (fun Res =>
          (Res.ShaderStages &&& ShaderStages) != 0 &&
            Res.VarType == SHADER_RESOURCE_VARIABLE_TYPE.STATIC) ∧
    (GetRequiredMemorySize sizeofVar Signature AllowedVarTypes NumAllowedTypes ShaderStages).1
      = Signature.GetDesc.Resources.countP (fun Res =>
          (Res.ShaderStages &&& ShaderStages) != 0 &&
            Res.VarType == SHADER_RESOURCE_VARIABLE_TYPE.STATIC) * sizeofVar ∧
    ((∀ Res, Res ∈ Signature.GetDesc.Resources →
        ¬ ((Res.ShaderStages &&& ShaderStages) ≠ 0 ∧
          Res.VarType = SHADER_RESOURCE_VARIABLE_TYPE.STATIC)) →
      GetRequiredMemorySize sizeofVar Signature AllowedVarTypes NumAllowedTypes ShaderStages
        = (0, 0)) := by
  rw [GetRequiredMemorySize_eq sizeofVar Signature AllowedVarTypes NumAllowedTypes ShaderStages
    hsize]
  refine ⟨rfl, rfl, ?_⟩
  intro hnone
  have : Signature.GetDesc.Resources.countP (Selected ShaderStages) = 0 := by
    rw [List.countP_eq_zero]
    intro Res hmem hsel
    exact hnone Res hmem ((Selected_iff ShaderStages Res).mp hsel)
  rw [this, Nat.zero_mul]

/-- C5 as amended, on the example: with 24-byte slots, the pixel stage and a
filter that names only the dynamic class, two static resources are counted and
48 bytes are returned. -/
theorem GetRequiredMemorySize_counts_static_witness :
    (GetRequiredMemorySize 24 exampleSignature [SHADER_RESOURCE_VARIABLE_TYPE.DYNAMIC] 1
      SHADER_TYPE_PIXEL).2
      = exampleSignature.GetDesc.Resources.countP (fun Res =>
          (Res.ShaderStages &&& SHADER_TYPE_PIXEL) != 0 &&
            Res.VarType == SHADER_RESOURCE_VARIABLE_TYPE.STATIC) ∧
    (GetRequiredMemorySize 24 exampleSignature [SHADER_RESOURCE_VARIABLE_TYPE.DYNAMIC] 1
      SHADER_TYPE_PIXEL) = (48, 2) :=
  ⟨(GetRequiredMemorySize_counts_static 24 exampleSignature
      [SHADER_RESOURCE_VARIABLE_TYPE.DYNAMIC] 1 SHADER_TYPE_PIXEL (by decide)).1,
    by decide⟩

/-- C5 as stated fails: asked for the dynamic class in the pixel stage of the
example, `GetRequiredMemorySize` reports 2 (the static resources `A` and `C`),
while the number of resources of the filtered class is 1 (the dynamic `B`). -/
theorem GetRequiredMemorySize_ignores_filter_counterexample :
    (GetRequiredMemorySize 24 exampleSignature [SHADER_RESOURCE_VARIABLE_TYPE.DYNAMIC] 1
      SHADER_TYPE_PIXEL).2 = 2 ∧
    SpecFilteredCount exampleSignature.GetDesc.Resources
      [SHADER_RESOURCE_VARIABLE_TYPE.DYNAMIC] 1 SHADER_TYPE_PIXEL = 1 ∧
    (GetRequiredMemorySize 24 exampleSignature [SHADER_RESOURCE_VARIABLE_TYPE.DYNAMIC] 1
      SHADER_TYPE_PIXEL).2
      ≠ SpecFilteredCount exampleSignature.GetDesc.Resources
          [SHADER_RESOURCE_VARIABLE_TYPE.DYNAMIC] 1 SHADER_TYPE_PIXEL := by
  decide

/-- C6 as amended: for every resource index that the manager's signature
describes and every binding, `BindResource` returns with the manager and the
resource cache exactly as they were; in particular the cache holds at every
offset what it held before the call. -/
theorem BindResource_leaves_cache_unchanged (mgr : ShaderVariableManagerMtl)
    (Cache : ShaderResourceCacheMtl) (ResIndex : Nat) (BindInfo : BindResourceInfo)
    (hres : ∃ ResDesc, mgr.GetResourceDesc ResIndex = some ResDesc) :
    mgr.BindResource Cache ResIndex BindInfo = some (mgr, Cache) ∧
    ∀ mgr' Cache', mgr.BindResource Cache ResIndex BindInfo = some (mgr', Cache') →
      ∀ Offset, Cache'.Read Offset = Cache.Read Offset := by
  obtain ⟨ResDesc, hdesc⟩ := hres
  have hcall : mgr.BindResource Cache ResIndex BindInfo = some (mgr, Cache) := by
    unfold BindResource
    rw [hdesc]
    simp
  refine ⟨hcall, ?_⟩
  intro mgr' Cache' h Offset
  rw [hcall] at h
  injection h with h
  injection h with _ h2
  rw [h2]

/-- C6 as amended, on the example: binding a buffer to the constant buffer `A`
returns and the cache still holds nothing at the offset of `A`. -/
theorem BindResource_leaves_cache_unchanged_witness :
    exampleManager.GetResourceDesc 0 = exampleSignature.GetDesc.Resources[0]? ∧
    exampleManager.BindResource exampleCache 0 exampleBinding
      = some (exampleManager, exampleCache) ∧
    exampleCache.Read 0 = none :=
  ⟨rfl,
    (BindResource_leaves_cache_unchanged exampleManager exampleCache 0 exampleBinding
      ⟨_, rfl⟩).1,
    rfl⟩

/-- C6 as stated fails: after a buffer is bound to the constant buffer `A` of
the example (resource 0, SRB cache offset 0), the cache does not hold it. -/
theorem BindResource_no_write_through_counterexample :
    ¬ SpecWriteThrough exampleManager exampleCache 0 exampleBinding := by
  rintro ⟨mgr', Cache', Attribs, Object, hcall, _, _, hread⟩
  have hcall' : exampleManager.BindResource exampleCache 0 exampleBinding
      = some (exampleManager, exampleCache) := rfl
  rw [hcall'] at hcall
  injection hcall with hcall
  injection hcall with _ h2
  rw [← h2] at hread
  simp [ShaderResourceCacheMtl.Read, exampleCache] at hread

/-- The slot found at the address of slot `i` is slot `i`. -/
theorem Deref_SlotAddress (sizeofVar : Nat) (mgr : ShaderVariableManagerMtl) (i : Nat)
    (hpos : 0 < sizeofVar) :
    mgr.Deref sizeofVar (mgr.SlotAddress sizeofVar i) = mgr.Variable i := by
  unfold Deref SlotAddress
  cases h : mgr.m_pVariables with
  | none => simp [Variable, h]
  | some Block =>
    simp only [Nat.le_add_right, Nat.add_sub_cancel_left, Nat.mul_mod_left, and_self, if_true,
      Nat.mul_div_cancel _ hpos]

/-- C7: `GetVariable(i)` returns the pointer to slot `i`, through which the i-th
variable of the manager is read, when `i < GetVariableCount()`, and the null
pointer when `i >= GetVariableCount()`. -/
theorem GetVariableByIndex_bounds_checked (sizeofVar : Nat) (mgr : ShaderVariableManagerMtl)
    (i : Nat) (hpos : 0 < sizeofVar) :
    (i < mgr.GetVariableCount →
      mgr.GetVariableByIndex sizeofVar i = mgr.SlotAddress sizeofVar i ∧
      mgr.Deref sizeofVar (mgr.GetVariableByIndex sizeofVar i) = mgr.Variable i) ∧
    (mgr.GetVariableCount ≤ i → mgr.GetVariableByIndex sizeofVar i = nullptr) := by
  refine ⟨?_, ?_⟩
  · intro h
    have hget : mgr.GetVariableByIndex sizeofVar i = mgr.SlotAddress sizeofVar i := by
      exact if_pos h
    exact ⟨hget, by rw [hget]; exact Deref_SlotAddress sizeofVar mgr i hpos⟩
  · intro h
    exact if_neg (Nat.not_lt.mpr h)

/-- C7 on the example with variables `[A, C]`: `GetVariable(0)` and
`GetVariable(1)` point to the variables of resources 0 and 2, and
`GetVariable(2)` is the null pointer. -/
theorem GetVariableByIndex_bounds_checked_witness :
    exampleManager.GetVariableCount = 2 ∧
    exampleManager.Deref 24 (exampleManager.GetVariableByIndex 24 0)
      = some (ShaderVariableMtlImpl.mk 0) ∧
    exampleManager.Deref 24 (exampleManager.GetVariableByIndex 24 1)
      = some (ShaderVariableMtlImpl.mk 2) ∧
    exampleManager.GetVariableByIndex 24 2 = nullptr :=
  ⟨by decide, by decide, by decide,
    (GetVariableByIndex_bounds_checked 24 exampleManager 2 (by decide)).2 (by decide)⟩


/-- The `strcmp` of two C strings is defined, and zero exactly when they are equal. -/
theorem strcmp_some (a b : String) :
    ∃ c, strcmp (some a) (some b) = some c ∧ ((c == 0) = true ↔ a = b) := by
  refine ⟨_, rfl, ?_⟩
  by_cases h : a = b
  · simp [h]
  · by_cases h2 : a < b
    · simp [h, h2]
    · simp [h, h2]

/-- One turn of the scan at a slot whose variable has a declared name. -/
theorem GetVariableByName_loop_step (sizeofVar : Nat) (mgr : ShaderVariableManagerMtl)
    (nm x : String) (n v : Nat) (hx : mgr.DeclaredName v = some x) :
    GetVariableByName.loop sizeofVar mgr (some nm) (n + 1) v
      = if x = nm then some (mgr.SlotAddress sizeofVar v)
        else GetVariableByName.loop sizeofVar mgr (some nm) n ((v + 1) % 2 ^ 32) := by
  unfold DeclaredName at hx
  obtain ⟨Desc, hdesc, hname⟩ := Option.bind_eq_some.mp hx
  obtain ⟨c, hc, hzero⟩ := strcmp_some x nm
  rw [GetVariableByName.loop]
  simp only [hdesc, hname, hc]
  by_cases h : x = nm
  · rw [if_pos (hzero.mpr h), if_pos h]
  · rw [if_neg (fun hcz => h (hzero.mp hcz)), if_neg h]

/-- What a well-formed state provides. -/
theorem WellFormed_iff (mgr : ShaderVariableManagerMtl) :
    mgr.WellFormed = true ↔
      mgr.m_NumVariables < 2 ^ 32 ∧
      (∀ Block, mgr.m_pVariables = some Block → 0 < Block.Address) ∧
      (∀ v, v < mgr.m_NumVariables → ∃ x, mgr.DeclaredName v = some x) := by
  unfold WellFormed
  simp only [Bool.and_eq_true, decide_eq_true_eq, List.all_eq_true, List.mem_range,
    Option.isSome_iff_exists, and_assoc]
  refine and_congr_right fun _ => and_congr_left fun _ => ?_
  cases mgr.m_pVariables with
  | none => simp
  | some Block => simp

/-- A slot with a declared name lies in an allocated block. -/
theorem DeclaredName_some_block (mgr : ShaderVariableManagerMtl) (v : Nat) (x : String)
    (hx : mgr.DeclaredName v = some x) : ∃ Block, mgr.m_pVariables = some Block := by
  unfold DeclaredName VariableDesc Variable at hx
  cases h : mgr.m_pVariables with
  | none => rw [h] at hx; simp at hx
  | some Block => exact ⟨Block, rfl⟩

/-- The scan from slot `v` with `n` slots left: it returns null when no later
slot has the name, and the address of the first later slot that has it. -/
theorem GetVariableByName_loop_spec (sizeofVar : Nat) (mgr : ShaderVariableManagerMtl)
    (nm : String) (hN : mgr.m_NumVariables < 2 ^ 32)
    (hnames : ∀ v, v < mgr.m_NumVariables → ∃ x, mgr.DeclaredName v = some x) :
    ∀ (n v : Nat), v + n = mgr.m_NumVariables →
      ((∀ u, v ≤ u → u < mgr.m_NumVariables → mgr.DeclaredName u ≠ some nm) →
        GetVariableByName.loop sizeofVar mgr (some nm) n v = some nullptr) ∧
      (∀ w, v ≤ w → w < mgr.m_NumVariables → mgr.DeclaredName w = some nm →
        (∀ u, v ≤ u → u < w → mgr.DeclaredName u ≠ some nm) →
        GetVariableByName.loop sizeofVar mgr (some nm) n v
          = some (mgr.SlotAddress sizeofVar w))
  | 0, v, hv => by
    refine ⟨fun _ => rfl, ?_⟩
    intro w hvw hw
    omega
  | n + 1, v, hv => by
    obtain ⟨x, hx⟩ := hnames v (by omega)
    have hmod : (v + 1) % 2 ^ 32 = v + 1 := Nat.mod_eq_of_lt (by omega)
    have ih := GetVariableByName_loop_spec sizeofVar mgr nm hN hnames n (v + 1) (by omega)
    rw [GetVariableByName_loop_step sizeofVar mgr nm x n v hx, hmod]
    by_cases h : x = nm
    · rw [if_pos h]
      refine ⟨?_, ?_⟩
      · intro hnone
        exact absurd (h ▸ hx) (hnone v (Nat.le_refl v) (by omega))
      · intro w hvw _ _ hbefore
        have hwv : w = v := by
          by_contra hne
          exact hbefore v (Nat.le_refl v) (by omega) (h ▸ hx)
        rw [hwv]
    · rw [if_neg h]
      refine ⟨?_, ?_⟩
      · intro hnone
        exact ih.1 fun u hu hlt => hnone u (by omega) hlt
      · intro w hvw hw hwname hbefore
        have hne : w ≠ v := by
          intro hwv
          rw [hwv, hx] at hwname
          exact h (Option.some.inj hwname)
        exact ih.2 w (by omega) hw hwname fun u hu hlt => hbefore u (by omega) hlt

/-- In a well-formed manager state, where every variable's resource has a
non-null name, and for a non-null name, `GetVariable(name)` returns the pointer
to the lowest-index variable whose declared resource name equals the name
exactly; it returns the null pointer if and only if no variable of the manager
has that name; and it always returns. -/
theorem GetVariableByName_exact_match (sizeofVar : Nat) (mgr : ShaderVariableManagerMtl)
    (name : String) (hwf : mgr.WellFormed = true) :
    (∀ v, v < mgr.GetVariableCount → mgr.DeclaredName v = some name →
      (∀ u, u < v → mgr.DeclaredName u ≠ some name) →
      mgr.GetVariableByName sizeofVar (some name) = some (mgr.SlotAddress sizeofVar v)) ∧
    (mgr.GetVariableByName sizeofVar (some name) = some nullptr ↔
      ∀ v, v < mgr.GetVariableCount → mgr.DeclaredName v ≠ some name) ∧
    (∃ p, mgr.GetVariableByName sizeofVar (some name) = some p) := by
  obtain ⟨hN, haddr, hnames⟩ := (WellFormed_iff mgr).mp hwf
  have hspec := GetVariableByName_loop_spec sizeofVar mgr name hN hnames mgr.m_NumVariables 0
    (Nat.zero_add _)
  have hfound : ∀ v, v < mgr.GetVariableCount → mgr.DeclaredName v = some name →
      (∀ u, u < v → mgr.DeclaredName u ≠ some name) →
      mgr.GetVariableByName sizeofVar (some name) = some (mgr.SlotAddress sizeofVar v) :=
    fun v hv hname hbefore => hspec.2 v (Nat.zero_le v) hv hname fun u _ hlt => hbefore u hlt
  have hmiss : (∀ v, v < mgr.GetVariableCount → mgr.DeclaredName v ≠ some name) →
      mgr.GetVariableByName sizeofVar (some name) = some nullptr :=
    fun hnone => hspec.1 fun u _ hlt => hnone u hlt
  refine ⟨hfound, ⟨?_, hmiss⟩, ?_⟩
  · intro hnull
    by_contra hex
    have hex' : ∃ v, v < mgr.GetVariableCount ∧ mgr.DeclaredName v = some name := by
      by_contra hnot
      exact hex fun v hv hname => hnot ⟨v, hv, hname⟩
    classical
    have hleast := Nat.find_spec hex'
    have hmin : ∀ u, u < Nat.find hex' → mgr.DeclaredName u ≠ some name := by
      intro u hu hname
      exact Nat.find_min hex' hu ⟨Nat.lt_trans hu hleast.1, hname⟩
    have hres := hfound (Nat.find hex') hleast.1 hleast.2 hmin
    rw [hnull] at hres
    obtain ⟨Block, hblock⟩ := DeclaredName_some_block mgr _ name hleast.2
    have hpos := haddr Block hblock
    have : mgr.SlotAddress sizeofVar (Nat.find hex') = nullptr := (Option.some.inj hres).symm
    unfold SlotAddress nullptr at this
    rw [hblock] at this
    simp only at this
    omega
  · by_cases hex : ∃ v, v < mgr.GetVariableCount ∧ mgr.DeclaredName v = some name
    · classical
      have hleast := Nat.find_spec hex
      have hmin : ∀ u, u < Nat.find hex → mgr.DeclaredName u ≠ some name := by
        intro u hu hname
        exact Nat.find_min hex hu ⟨Nat.lt_trans hu hleast.1, hname⟩
      exact ⟨_, hfound (Nat.find hex) hleast.1 hleast.2 hmin⟩
    · exact ⟨_, hmiss fun v hv hname => hex ⟨v, hv, hname⟩⟩

/-- The lookup on the example with variables `[A, C]`, all named: the name `C`
finds slot 1, and the names `B` (not a variable), `c` (differs in case), `AA` (has `A` as a
prefix) and the empty name (a prefix of every name) are not found. -/
theorem GetVariableByName_exact_match_witness :
    exampleManager.WellFormed = true ∧
    exampleManager.GetVariableByName 24 (some "C") = some (exampleManager.SlotAddress 24 1) ∧
    exampleManager.Deref 24 (exampleManager.SlotAddress 24 1)
      = some (ShaderVariableMtlImpl.mk 2) ∧
    exampleManager.GetVariableByName 24 (some "B") = some nullptr ∧
    exampleManager.GetVariableByName 24 (some "c") = some nullptr ∧
    exampleManager.GetVariableByName 24 (some "AA") = some nullptr ∧
    exampleManager.GetVariableByName 24 (some "") = some nullptr :=
  ⟨by decide,
    (GetVariableByName_exact_match 24 exampleManager "C" (by decide)).1 1 (by decide)
      (by decide) (by decide),
    by decide,
    (GetVariableByName_exact_match 24 exampleManager "B" (by decide)).2.1.mpr (by decide),
    (GetVariableByName_exact_match 24 exampleManager "c" (by decide)).2.1.mpr (by decide),
    (GetVariableByName_exact_match 24 exampleManager "AA" (by decide)).2.1.mpr (by decide),
    (GetVariableByName_exact_match 24 exampleManager "" (by decide)).2.1.mpr (by decide)⟩

/-- C8 fails on the code: `Initialize` over a signature whose first static
resource has a null name and whose second is named `A` returns a manager with
two variables, the second of which is declared as `A`; on it `GetVariable("A")`
does not return that variable at slot 1: the scan first compares the null name
of slot 0 with `strcmp`, which is undefined. On the example `[A, C]`, where
every resource is named, the same lookup returns slot 0. -/
theorem GetVariableByName_unnamed_resource_undefined :
    (ShaderVariableManagerMtl.Initialize 24 ShaderVariableManagerMtl.ctor exampleUnnamedSignature
      exampleAllocator [SHADER_RESOURCE_VARIABLE_TYPE.STATIC] 1 SHADER_TYPE_PIXEL).isSome = true ∧
    exampleUnnamedManager.GetVariableCount = 2 ∧
    exampleUnnamedManager.Variable 0 = some (ShaderVariableMtlImpl.mk 0) ∧
    exampleUnnamedManager.Variable 1 = some (ShaderVariableMtlImpl.mk 1) ∧
    exampleUnnamedManager.DeclaredName 0 = none ∧
    exampleUnnamedManager.DeclaredName 1 = some "A" ∧
    exampleUnnamedManager.GetVariableByIndex 24 1 = 4120 ∧
    exampleUnnamedManager.GetVariableByName 24 (some "A") = none ∧
    exampleUnnamedManager.GetVariableByName 24 (some "A")
      ≠ some (exampleUnnamedManager.SlotAddress 24 1) ∧
    exampleUnnamedManager.WellFormed = false ∧
    exampleManager.GetVariableByName 24 (some "A") = some 4096 := by
  refine ⟨rfl, rfl, rfl, rfl, rfl, rfl, rfl, rfl, ?_, rfl, ?_⟩
  · exact fun h => Option.noConfusion h
  · decide

/-- Well-formed states are the ones `Initialize` produces: when the allocator
returns a non-null block and every resource of the signature has a name, the
state left by `Initialize` with at least one selected resource is well-formed. -/
theorem Initialize_WellFormed (sizeofVar : Nat) (mgr mgr' : ShaderVariableManagerMtl)
    (Signature : PipelineResourceSignatureMtlImpl) (Allocator : Nat → Nat)
    (AllowedVarTypes : List SHADER_RESOURCE_VARIABLE_TYPE) (NumAllowedTypes : Nat)
    (ShaderType : SHADER_TYPE) (hpos : 0 < sizeofVar) (hsize : sizeofVar ≤ 2 ^ 32)
    (hcount : 0 < Signature.GetDesc.Resources.countP (Selected ShaderType))
    (halloc : ∀ Size, 0 < Allocator Size)
    (hnamed : ∀ Res, Res ∈ Signature.GetDesc.Resources → ∃ x, Res.Name = some x)
    (hinit : Initialize sizeofVar mgr Signature Allocator AllowedVarTypes NumAllowedTypes
      ShaderType = some mgr') :
    mgr'.WellFormed = true := by
  rw [Initialize_eq sizeofVar mgr Signature Allocator AllowedVarTypes NumAllowedTypes ShaderType
    hpos hsize hcount] at hinit
  have hmgr := (Option.some.inj hinit).symm
  have hlen : Signature.GetDesc.Resources.length < 2 ^ 32 := Signature.Desc.NumResources_lt
  have hle : Signature.GetDesc.Resources.countP (Selected ShaderType)
      ≤ Signature.GetDesc.Resources.length := List.countP_le_length _
  have hsel : (SelectedResourceIndices Signature.GetDesc.Resources ShaderType).length
      = Signature.GetDesc.Resources.countP (Selected ShaderType) :=
    selected_enumFrom_length ShaderType _ 0
  subst hmgr
  rw [WellFormed_iff]
  refine ⟨?_, ?_, ?_⟩
  · show Signature.GetDesc.Resources.countP (Selected ShaderType) < 2 ^ 32
    omega
  · intro Block hb
    have := Option.some.inj hb
    rw [← this]
    exact halloc _
  · intro v hv
    have hv' : v < (SelectedResourceIndices Signature.GetDesc.Resources ShaderType).length := by
      rw [hsel]; exact hv
    have hmem : (SelectedResourceIndices Signature.GetDesc.Resources ShaderType)[v]
        ∈ SelectedResourceIndices Signature.GetDesc.Resources ShaderType :=
      List.getElem_mem hv'
    obtain ⟨Res, hres, _, _⟩ := (mem_SelectedResourceIndices _ _ _).mp hmem
    obtain ⟨x, hx⟩ := hnamed Res (List.getElem?_mem hres)
    refine ⟨x, ?_⟩
    have hres' : Signature.Desc.Resources[
        (SelectedResourceIndices Signature.GetDesc.Resources ShaderType)[v]]? = some Res := hres
    simp [DeclaredName, VariableDesc, Variable, ShaderVariableManagerMtl.GetResourceDesc,
      PipelineResourceSignatureMtlImpl.GetResourceDesc, List.getElem?_map,
      List.getElem?_eq_getElem hv', hres', hx]

end

section

open PipelineResourceAttribsMtl

/-! ## Sampler sentinel and cache offsets of the packed descriptor -/

/-- C11: `IsCombinedWithSampler()` is true if and only if the sampler index
differs from the sentinel `InvalidSamplerInd`; the sentinel equals
2^16 - 1 = 65535, no descriptor holds a larger sampler index, and a descriptor
can hold the sentinel itself. -/
theorem IsCombinedWithSampler_iff_not_sentinel :
    (∀ d : PipelineResourceAttribsMtl,
      d.IsCombinedWithSampler = true ↔ d.SamplerInd ≠ InvalidSamplerInd) ∧
    InvalidSamplerInd = 2 ^ 16 - 1 ∧
    InvalidSamplerInd = 65535 ∧
    (∀ d : PipelineResourceAttribsMtl, d.SamplerInd ≤ InvalidSamplerInd) ∧
    (init 0 InvalidSamplerInd 1 0 false 0 0).SamplerInd = InvalidSamplerInd := by
  have hval : InvalidSamplerInd = 65535 := by decide
  refine ⟨?_, by decide, hval, ?_, by decide⟩
  · intro d
    simp [IsCombinedWithSampler]
  · intro d
    have h : d.SamplerInd < 2 ^ 16 := d.SamplerInd_lt
    rw [hval]
    omega

/-- C12: `CacheOffset(SRB)` is the SRB cache offset and `CacheOffset` of the
static (signature) content is the static cache offset; two descriptors with the
same two offsets give the same result whatever their other fields are. -/
theorem CacheOffset_selects_offset :
    (∀ d : PipelineResourceAttribsMtl,
      d.CacheOffset ResourceCacheContentType.SRB = d.SRBCacheOffset) ∧
    (∀ d : PipelineResourceAttribsMtl,
      d.CacheOffset ResourceCacheContentType.Signature = d.StaticCacheOffset) ∧
    (∀ (d d' : PipelineResourceAttribsMtl) (CacheType : ResourceCacheContentType),
      d.SRBCacheOffset = d'.SRBCacheOffset → d.StaticCacheOffset = d'.StaticCacheOffset →
      d.CacheOffset CacheType = d'.CacheOffset CacheType) := by
  refine ⟨fun d => rfl, fun d => rfl, ?_⟩
  intro d d' CacheType hsrb hstatic
  cases CacheType
  · exact hstatic
  · exact hsrb

/-- C12 on two descriptors that share only their offsets 32 and 16: both content
types read the same offsets from them. -/
theorem CacheOffset_selects_offset_witness :
    (init 2 65535 1 1 false 32 16).CacheOffset ResourceCacheContentType.SRB = 32 ∧
    (init 2 65535 1 1 false 32 16).CacheOffset ResourceCacheContentType.Signature = 16 ∧
    (init 7 3 4 6 true 32 16).CacheOffset ResourceCacheContentType.SRB
      = (init 2 65535 1 1 false 32 16).CacheOffset ResourceCacheContentType.SRB :=
  ⟨by decide, by decide,
    CacheOffset_selects_offset.2.2 _ _ ResourceCacheContentType.SRB (by decide) (by decide)⟩

end

section

open ShaderVariableManagerMtl

/-! ## Empty selection, lifecycle and binding of the variable manager -/

/-- The count reported by `GetRequiredMemorySize` is the number of selected
resources, whatever the slot size is. -/
theorem GetRequiredMemorySize_count (sizeofVar : Nat)
    (Signature : PipelineResourceSignatureMtlImpl)
    (AllowedVarTypes : List SHADER_RESOURCE_VARIABLE_TYPE) (NumAllowedTypes : Nat)
    (ShaderStages : SHADER_TYPE) :
    (GetRequiredMemorySize sizeofVar Signature AllowedVarTypes NumAllowedTypes ShaderStages).2
      = Signature.GetDesc.Resources.countP (Selected ShaderStages) := by
  have hlen : Signature.GetDesc.Resources.length < 2 ^ 32 := Signature.Desc.NumResources_lt
  have hloop := GetRequiredMemorySize_loop_eq ShaderStages Signature.GetDesc.Resources 0
    (by omega)
  rw [Nat.zero_add] at hloop
  exact hloop

/-- With no selected resource `Initialize` only clears the count. -/
theorem Initialize_eq_of_count_zero (sizeofVar : Nat) (mgr : ShaderVariableManagerMtl)
    (Signature : PipelineResourceSignatureMtlImpl) (Allocator : Nat → Nat)
    (AllowedVarTypes : List SHADER_RESOURCE_VARIABLE_TYPE) (NumAllowedTypes : Nat)
    (ShaderType : SHADER_TYPE)
    (hzero : Signature.GetDesc.Resources.countP (Selected ShaderType) = 0) :
    Initialize sizeofVar mgr Signature Allocator AllowedVarTypes NumAllowedTypes ShaderType
      = some { mgr with m_NumVariables := 0 } := by
  unfold Initialize
  simp only [GetRequiredMemorySize_count, hzero, beq_self_eq_true, if_true]

/-- A manager without variables answers every lookup by index with null. -/
theorem GetVariableByIndex_of_count_zero (sizeofVar : Nat) (mgr : ShaderVariableManagerMtl)
    (hzero : mgr.m_NumVariables = 0) (i : Nat) :
    mgr.GetVariableByIndex sizeofVar i = nullptr := by
  unfold GetVariableByIndex
  rw [hzero, if_neg (Nat.not_lt_zero i)]

/-- A manager without variables answers every lookup by name, also by a null
name, with null: the scan does not read a single slot. -/
theorem GetVariableByName_of_count_zero (sizeofVar : Nat) (mgr : ShaderVariableManagerMtl)
    (hzero : mgr.m_NumVariables = 0) (Name : Option String) :
    mgr.GetVariableByName sizeofVar Name = some nullptr := by
  unfold GetVariableByName
  rw [hzero]
  rfl

/-- No selected resource means a count of zero. -/
theorem countP_Selected_eq_zero (Rs : List PipelineResourceDesc) (ShaderType : SHADER_TYPE)
    (hnone : ∀ Res, Res ∈ Rs →
      ¬ ((Res.ShaderStages &&& ShaderType) ≠ 0 ∧
        Res.VarType = SHADER_RESOURCE_VARIABLE_TYPE.STATIC)) :
    Rs.countP (Selected ShaderType) = 0 := by
  rw [List.countP_eq_zero]
  intro Res hmem hsel
  exact hnone Res hmem ((Selected_iff ShaderType Res).mp hsel)

/-- C13: when no resource of the signature is visible in the given stages and
static, `Initialize` returns without an error and changes nothing but the count,
which it sets to 0: no slots are allocated (the slot pointer is as before, and
a new manager stays exactly as constructed), `GetVariableCount()` is 0, and
afterwards `GetVariable(i)` for every index and `GetVariable(name)` for every
name, null included, return null. -/
theorem Initialize_no_match_is_noop (sizeofVar : Nat) (mgr : ShaderVariableManagerMtl)
    (Signature : PipelineResourceSignatureMtlImpl) (Allocator : Nat → Nat)
    (AllowedVarTypes : List SHADER_RESOURCE_VARIABLE_TYPE) (NumAllowedTypes : Nat)
    (ShaderType : SHADER_TYPE)
    (hnone : ∀ Res, Res ∈ Signature.GetDesc.Resources →
      ¬ ((Res.ShaderStages &&& ShaderType) ≠ 0 ∧
        Res.VarType = SHADER_RESOURCE_VARIABLE_TYPE.STATIC)) :
    Initialize sizeofVar ShaderVariableManagerMtl.ctor Signature Allocator AllowedVarTypes
        NumAllowedTypes ShaderType = some ShaderVariableManagerMtl.ctor ∧
    ∃ mgr',
      Initialize sizeofVar mgr Signature Allocator AllowedVarTypes NumAllowedTypes ShaderType
        = some mgr' ∧
      mgr'.m_pVariables = mgr.m_pVariables ∧
      mgr'.m_pSignature = mgr.m_pSignature ∧
      mgr'.GetVariableCount = 0 ∧
      (∀ i, mgr'.GetVariableByIndex sizeofVar i = nullptr) ∧
      (∀ Name, mgr'.GetVariableByName sizeofVar Name = some nullptr) := by
  have hzero := countP_Selected_eq_zero Signature.GetDesc.Resources ShaderType hnone
  refine ⟨Initialize_eq_of_count_zero sizeofVar _ Signature Allocator AllowedVarTypes
      NumAllowedTypes ShaderType hzero, _,
    Initialize_eq_of_count_zero sizeofVar mgr Signature Allocator AllowedVarTypes
      NumAllowedTypes ShaderType hzero, rfl, rfl, rfl, ?_, ?_⟩
  · exact GetVariableByIndex_of_count_zero sizeofVar _ rfl
  · exact GetVariableByName_of_count_zero sizeofVar _ rfl

/-- C13 on the example signature and the compute stage, in which none of `A`,
`B`, `C` is visible: a new manager stays as constructed, and lookups by index,
by the name `A` and by a null name return null. -/
theorem Initialize_no_match_is_noop_witness :
    Initialize 24 ShaderVariableManagerMtl.ctor exampleSignature exampleAllocator
        [SHADER_RESOURCE_VARIABLE_TYPE.STATIC] 1 SHADER_TYPE_COMPUTE
      = some ShaderVariableManagerMtl.ctor ∧
    ShaderVariableManagerMtl.ctor.GetVariableByIndex 24 0 = nullptr ∧
    ShaderVariableManagerMtl.ctor.GetVariableByName 24 (some "A") = some nullptr ∧
    ShaderVariableManagerMtl.ctor.GetVariableByName 24 none = some nullptr :=
  ⟨(Initialize_no_match_is_noop 24 ShaderVariableManagerMtl.ctor exampleSignature
      exampleAllocator [SHADER_RESOURCE_VARIABLE_TYPE.STATIC] 1 SHADER_TYPE_COMPUTE
      (by decide)).1,
    by decide, by decide, by decide⟩

/-- When at least one resource is selected, the state `Initialize` leaves does
not depend on the state it started from. -/
theorem Initialize_independent_of_prior (sizeofVar : Nat) (mgr mgr0 : ShaderVariableManagerMtl)
    (Signature : PipelineResourceSignatureMtlImpl) (Allocator : Nat → Nat)
    (AllowedVarTypes : List SHADER_RESOURCE_VARIABLE_TYPE) (NumAllowedTypes : Nat)
    (ShaderType : SHADER_TYPE)
    (hcount : Signature.GetDesc.Resources.countP (Selected ShaderType) ≠ 0) :
    Initialize sizeofVar mgr Signature Allocator AllowedVarTypes NumAllowedTypes ShaderType
      = Initialize sizeofVar mgr0 Signature Allocator AllowedVarTypes NumAllowedTypes
          ShaderType := by
  have hne : ((GetRequiredMemorySize sizeofVar Signature AllowedVarTypes NumAllowedTypes
      ShaderType).2 == 0) = false := by
    rw [GetRequiredMemorySize_count, beq_eq_false_iff_ne]
    exact hcount
  unfold Initialize
  simp only [hne, TBase_Initialize]
  rfl

/-- C14: a newly constructed manager has zero variables; `Destroy` leaves every
manager with `GetVariableCount()` 0, so that lookups by index and by name return
null; and `Initialize` after `Destroy` returns, as `Initialize` with the same
arguments on a newly constructed manager does, with the same variable count and
the same ordered list of resource indices. -/
theorem Destroy_then_Initialize_as_new :
    ShaderVariableManagerMtl.ctor.GetVariableCount = 0 ∧
    (∀ (sizeofVar : Nat) (mgr : ShaderVariableManagerMtl),
      mgr.Destroy.GetVariableCount = 0 ∧
      mgr.Destroy.m_pVariables = none ∧
      (∀ i, mgr.Destroy.GetVariableByIndex sizeofVar i = nullptr) ∧
      (∀ Name, mgr.Destroy.GetVariableByName sizeofVar Name = some nullptr)) ∧
    (∀ (sizeofVar : Nat) (mgr : ShaderVariableManagerMtl)
      (Signature : PipelineResourceSignatureMtlImpl) (Allocator : Nat → Nat)
      (AllowedVarTypes : List SHADER_RESOURCE_VARIABLE_TYPE) (NumAllowedTypes : Nat)
      (ShaderType : SHADER_TYPE), 0 < sizeofVar → sizeofVar ≤ 2 ^ 32 →
      ∃ again fresh,
        Initialize sizeofVar mgr.Destroy Signature Allocator AllowedVarTypes NumAllowedTypes
          ShaderType = some again ∧
        Initialize sizeofVar ShaderVariableManagerMtl.ctor Signature Allocator AllowedVarTypes
          NumAllowedTypes ShaderType = some fresh ∧
        again.GetVariableCount = fresh.GetVariableCount ∧
        again.ResourceIndices = fresh.ResourceIndices ∧
        again.m_pVariables = fresh.m_pVariables) := by
  refine ⟨rfl, ?_, ?_⟩
  · intro sizeofVar mgr
    exact ⟨rfl, rfl, GetVariableByIndex_of_count_zero sizeofVar _ rfl,
      GetVariableByName_of_count_zero sizeofVar _ rfl⟩
  · intro sizeofVar mgr Signature Allocator AllowedVarTypes NumAllowedTypes ShaderType hpos hsize
    by_cases hzero : Signature.GetDesc.Resources.countP (Selected ShaderType) = 0
    · exact ⟨_, _,
        Initialize_eq_of_count_zero sizeofVar mgr.Destroy Signature Allocator AllowedVarTypes
          NumAllowedTypes ShaderType hzero,
        Initialize_eq_of_count_zero sizeofVar ShaderVariableManagerMtl.ctor Signature Allocator
          AllowedVarTypes NumAllowedTypes ShaderType hzero,
        rfl, rfl, rfl⟩
    · have hfresh := Initialize_eq sizeofVar ShaderVariableManagerMtl.ctor Signature Allocator
        AllowedVarTypes NumAllowedTypes ShaderType hpos hsize (Nat.pos_of_ne_zero hzero)
      have hagain := Initialize_independent_of_prior sizeofVar mgr.Destroy
        ShaderVariableManagerMtl.ctor Signature Allocator AllowedVarTypes NumAllowedTypes
        ShaderType hzero
      exact ⟨_, _, hagain.trans hfresh, hfresh, rfl, rfl, rfl⟩

/-- C14 on the example: the manager with variables `[A, C]` is destroyed, which
leaves no variable, and initialised again over the same signature and stage,
which gives the 2 variables of resources 0 and 2 again. -/
theorem Destroy_then_Initialize_as_new_witness :
    exampleManager.GetVariableCount = 2 ∧
    exampleManager.Destroy.GetVariableCount = 0 ∧
    exampleManager.Destroy.GetVariableByName 24 (some "A") = some nullptr ∧
    (∃ again,
      Initialize 24 exampleManager.Destroy exampleSignature exampleAllocator
        [SHADER_RESOURCE_VARIABLE_TYPE.STATIC] 1 SHADER_TYPE_PIXEL = some again ∧
      again.GetVariableCount = 2 ∧
      again.ResourceIndices = [some 0, some 2] ∧
      exampleManager.ResourceIndices = [some 0, some 2]) :=
  ⟨by decide, (Destroy_then_Initialize_as_new.2.1 24 exampleManager).1,
    (Destroy_then_Initialize_as_new.2.1 24 exampleManager).2.2.2 (some "A"),
    ⟨_, rfl, by decide, by decide, by decide⟩⟩

/-- What `BindResource` returns for a resource the signature describes, whatever
is bound. -/
theorem BindResource_eq (mgr : ShaderVariableManagerMtl) (Cache : ShaderResourceCacheMtl)
    (ResIndex : Nat) (BindInfo : BindResourceInfo) (ResDesc : PipelineResourceDesc)
    (hres : mgr.GetResourceDesc ResIndex = some ResDesc) :
    mgr.BindResource Cache ResIndex BindInfo = some (mgr, Cache) := by
  unfold BindResource
  rw [hres]
  simp

/-- C15 as amended: `BindResource` does not look at the supplied object. For
every resource the signature describes, declared as a constant buffer or not,
and every two bindings, of a buffer or of anything else, the call returns with
the same result, the manager and the resource cache unchanged; so a binding of
an object that is not buffer-like leaves the cache unchanged and is treated
like any other. -/
theorem BindResource_ignores_object_type (mgr : ShaderVariableManagerMtl)
    (Cache : ShaderResourceCacheMtl) (ResIndex : Nat) (ResDesc : PipelineResourceDesc)
    (BindInfo Other : BindResourceInfo)
    (hres : mgr.GetResourceDesc ResIndex = some ResDesc) :
    mgr.BindResource Cache ResIndex BindInfo = some (mgr, Cache) ∧
    mgr.BindResource Cache ResIndex BindInfo = mgr.BindResource Cache ResIndex Other := by
  have h1 := BindResource_eq mgr Cache ResIndex BindInfo ResDesc hres
  have h2 := BindResource_eq mgr Cache ResIndex Other ResDesc hres
  exact ⟨h1, h1.trans h2.symm⟩

/-- C15 as amended, on the example: binding a texture view to the constant
buffer `A` returns with manager and cache unchanged, exactly as binding a
buffer does. -/
theorem BindResource_ignores_object_type_witness :
    exampleTextureBinding.pObject.map IDeviceObject.IsBuffer = some false ∧
    exampleBinding.pObject.map IDeviceObject.IsBuffer = some true ∧
    exampleManager.BindResource exampleCache 0 exampleTextureBinding
      = some (exampleManager, exampleCache) ∧
    exampleManager.BindResource exampleCache 0 exampleTextureBinding
      = exampleManager.BindResource exampleCache 0 exampleBinding :=
  ⟨rfl, rfl,
    BindResource_ignores_object_type exampleManager exampleCache 0 _ exampleTextureBinding
      exampleBinding (show exampleManager.GetResourceDesc 0 = some _ from rfl)⟩

/-- C15 as stated fails: a texture view bound to the constant buffer `A` of the
example is not rejected, the call cannot be told from the call that binds a
buffer. -/
theorem BindResource_no_rejection_counterexample :
    ¬ SpecRejects exampleManager exampleCache 0 exampleTextureBinding := by
  rintro ⟨_, hdiffers⟩
  exact hdiffers exampleBinding _ rfl rfl (fun Offset => by simp [ShaderResourceCacheMtl.Read,
    exampleCache]) rfl

end

section

open DeviceContextMtlImpl

/-! ## Properties of the command stream controller -/

/-- Only a state without an open encoder is `Idle`. -/
theorem State_eq_Idle_iff (ctx : DeviceContextMtlImpl) :
    ctx.State = ControllerState.Idle ↔ ctx.OpenEncoders = 0 := by
  rcases ctx with ⟨cb, r, c, b, calls⟩
  cases r <;> cases c <;> cases b <;> simp [State, OpenEncoders]

/-- After `EndAllEncoders()` every encoder member is `nil`, the command buffer
member is as before, and one encoder-end call was issued per open encoder. -/
theorem EndAllEncoders_fields (ctx : DeviceContextMtlImpl) :
    ctx.EndAllEncoders.m_MtlRenderEncoder = false ∧
    ctx.EndAllEncoders.m_MtlComputeEncoder = false ∧
    ctx.EndAllEncoders.m_MtlBlitEncoder = false ∧
    ctx.EndAllEncoders.m_MtlCommandBuffer = ctx.m_MtlCommandBuffer ∧
    ctx.EndAllEncoders.EncoderEnds = ctx.EncoderEnds + ctx.OpenEncoders ∧
    ctx.EndAllEncoders.EncoderBegins = ctx.EncoderBegins := by
  rcases ctx with ⟨cb, r, c, b, calls⟩
  cases r <;> cases c <;> cases b <;>
    simp [EndAllEncoders, EndEncoder, EncoderEnds, EncoderBegins, OpenEncoders,
      List.countP_append, List.countP_cons]

/-- With at most one encoder open, `RequireEncoder(kind)` leaves exactly the
encoder of `kind` open on a command buffer, ends an encoder once if one of
another kind was open and not at all otherwise, and begins one unless the kind
was already active. -/
theorem RequireEncoder_spec (ctx : DeviceContextMtlImpl) (kind : EncoderKind)
    (hwf : ctx.OpenEncoders ≤ 1) :
    (ctx.RequireEncoder kind).State = ControllerState.Active kind ∧
    (ctx.RequireEncoder kind).OpenEncoders = 1 ∧
    (ctx.RequireEncoder kind).m_MtlCommandBuffer = true ∧
    (ctx.RequireEncoder kind).EncoderEnds = ctx.EncoderEnds +
      (if ctx.State = ControllerState.Idle ∨ ctx.State = ControllerState.Active kind then 0
        else 1) ∧
    (ctx.RequireEncoder kind).EncoderBegins = ctx.EncoderBegins +
      (if ctx.State = ControllerState.Active kind then 0 else 1) ∧
    (ctx.State ≠ ControllerState.Active kind →
      (ctx.RequireEncoder kind).NativeCalls.getLast? = some (NativeCall.beginEncoder kind)) := by
  rcases ctx with ⟨cb, r, c, b, calls⟩
  cases cb <;> cases r <;> cases c <;> cases b <;> cases kind <;>
    simp [RequireEncoder, EnsureCommandBuffer, EndAllEncoders, EndEncoder, BeginEncoder, State,
      OpenEncoders, EncoderEnds, EncoderBegins, ControllerState.Active, List.countP_append,
      List.countP_cons] at hwf ⊢

/-- C16: in every controller state (at most one encoder open) and for every
encoder kind k, `RequireEncoder(k)` ends with exactly the encoder of kind k
active on a command buffer; it ends the previously active encoder exactly once
when an encoder of a different kind was active, and zero times when the state
was `Idle` or the active kind was already k; and when it switches, the begin of
the new encoder is its last call, after the end. -/
theorem RequireEncoder_switches_encoder (ctx : DeviceContextMtlImpl) (k : EncoderKind)
    (hwf : ctx.OpenEncoders ≤ 1) :
    (ctx.RequireEncoder k).State = ControllerState.Active k ∧
    (ctx.RequireEncoder k).OpenEncoders = 1 ∧
    (ctx.RequireEncoder k).m_MtlCommandBuffer = true ∧
    (ctx.State ≠ ControllerState.Idle → ctx.State ≠ ControllerState.Active k →
      (ctx.RequireEncoder k).EncoderEnds = ctx.EncoderEnds + 1) ∧
    (ctx.State = ControllerState.Idle ∨ ctx.State = ControllerState.Active k →
      (ctx.RequireEncoder k).EncoderEnds = ctx.EncoderEnds) ∧
    (ctx.State ≠ ControllerState.Active k →
      (ctx.RequireEncoder k).EncoderBegins = ctx.EncoderBegins + 1 ∧
      (ctx.RequireEncoder k).NativeCalls.getLast? = some (NativeCall.beginEncoder k)) ∧
    (ctx.State = ControllerState.Active k →
      (ctx.RequireEncoder k).EncoderBegins = ctx.EncoderBegins) := by
  obtain ⟨hstate, hopen, hcb, hends, hbegins, hlast⟩ := RequireEncoder_spec ctx k hwf
  refine ⟨hstate, hopen, hcb, ?_, ?_, ?_, ?_⟩
  · intro h1 h2
    rw [hends, if_neg (by tauto)]
  · intro h
    rw [hends, if_pos h, Nat.add_zero]
  · intro h
    exact ⟨by rw [hbegins, if_neg h], hlast h⟩
  · intro h
    rw [hbegins, if_pos h, Nat.add_zero]

/-- C16 on the sequence of the specification: after `BeginRenderEncoding` the
render encoder is active; `DispatchCompute` with a pipeline state then issues
exactly one encoder-end, before the compute encoder opens, and finishes in
`ComputeActive`. -/
theorem RequireEncoder_switches_encoder_witness :
    DeviceContextMtlImpl.ctor.BeginRenderEncoding.State = ControllerState.RenderActive ∧
    (DeviceContextMtlImpl.ctor.BeginRenderEncoding.RequireEncoder EncoderKind.Compute).EncoderEnds
      = DeviceContextMtlImpl.ctor.BeginRenderEncoding.EncoderEnds + 1 ∧
    (DeviceContextMtlImpl.ctor.BeginRenderEncoding.DispatchCompute 4096).State
      = ControllerState.ComputeActive ∧
    (DeviceContextMtlImpl.ctor.BeginRenderEncoding.DispatchCompute 4096).EncoderEnds = 1 ∧
    (DeviceContextMtlImpl.ctor.BeginRenderEncoding.DispatchCompute 4096).NativeCalls
      = [NativeCall.newCommandBuffer, NativeCall.beginEncoder EncoderKind.Render,
          NativeCall.endEncoding EncoderKind.Render, NativeCall.beginEncoder EncoderKind.Compute,
          NativeCall.encode EncoderKind.Compute] :=
  ⟨by decide,
    (RequireEncoder_switches_encoder DeviceContextMtlImpl.ctor.BeginRenderEncoding
      EncoderKind.Compute (by decide)).2.2.2.1 (by decide) (by decide),
    by decide, by decide, by decide⟩

/-- With at most one encoder open, no two encoder members hold an encoder. -/
theorem OpenEncoders_le_one_no_two (ctx : DeviceContextMtlImpl) (h : ctx.OpenEncoders ≤ 1) :
    ¬ (ctx.m_MtlRenderEncoder = true ∧ ctx.m_MtlComputeEncoder = true) ∧
    ¬ (ctx.m_MtlRenderEncoder = true ∧ ctx.m_MtlBlitEncoder = true) ∧
    ¬ (ctx.m_MtlComputeEncoder = true ∧ ctx.m_MtlBlitEncoder = true) := by
  rcases ctx with ⟨cb, r, c, b, calls⟩
  cases r <;> cases c <;> cases b <;> simp [OpenEncoders] at h ⊢

/-- Every context operation keeps at most one encoder open. -/
theorem Apply_OpenEncoders_le_one (ctx : DeviceContextMtlImpl) (op : ContextOp)
    (hwf : ctx.OpenEncoders ≤ 1) : (ctx.Apply op).OpenEncoders ≤ 1 := by
  have hreq : ∀ kind, (ctx.RequireEncoder kind).OpenEncoders ≤ 1 := fun kind =>
    Nat.le_of_eq (RequireEncoder_spec ctx kind hwf).2.1
  have hend : ctx.EndAllEncoders.OpenEncoders ≤ 1 := by
    obtain ⟨h1, h2, h3, _⟩ := EndAllEncoders_fields ctx
    simp [OpenEncoders, h1, h2, h3]
  cases op with
  | EnsureCommandBuffer =>
    show ctx.EnsureCommandBuffer.OpenEncoders ≤ 1
    unfold EnsureCommandBuffer
    split
    · exact hwf
    · exact hwf
  | RequireEncoder kind => exact hreq kind
  | EndAllEncoders => exact hend
  | BeginRenderEncoding => exact hreq EncoderKind.Render
  | Draw pPipelineState pVertexBuffer =>
    show (ctx.Draw pPipelineState pVertexBuffer).OpenEncoders ≤ 1
    unfold Draw
    split
    · exact hwf
    · exact hreq EncoderKind.Render
  | DispatchCompute pPipelineState =>
    show (ctx.DispatchCompute pPipelineState).OpenEncoders ≤ 1
    unfold DispatchCompute
    split
    · exact hwf
    · exact hreq EncoderKind.Compute
  | CopyBuffer => exact hreq EncoderKind.Copy
  | Flush =>
    show ctx.Flush.OpenEncoders ≤ 1
    simp only [Flush]
    split
    · exact hend
    · exact hend
  | FinishCommandList => exact hend

/-- A sequence of context operations keeps at most one encoder open. -/
theorem Run_OpenEncoders_le_one (ops : List ContextOp) :
    ∀ ctx : DeviceContextMtlImpl, ctx.OpenEncoders ≤ 1 → (ctx.Run ops).OpenEncoders ≤ 1 := by
  induction ops with
  | nil => intro ctx h; exact h
  | cons op rest ih =>
    intro ctx h
    exact ih (ctx.Apply op) (Apply_OpenEncoders_le_one ctx op h)

/-- C17: in every state reached from the newly constructed context by a
sequence of context operations, at most one of the render, compute and copy
(blit) encoder members holds an encoder: no two of them do. -/
theorem reachable_at_most_one_encoder (ops : List ContextOp) :
    (DeviceContextMtlImpl.ctor.Run ops).OpenEncoders ≤ 1 ∧
    ¬ ((DeviceContextMtlImpl.ctor.Run ops).m_MtlRenderEncoder = true ∧
        (DeviceContextMtlImpl.ctor.Run ops).m_MtlComputeEncoder = true) ∧
    ¬ ((DeviceContextMtlImpl.ctor.Run ops).m_MtlRenderEncoder = true ∧
        (DeviceContextMtlImpl.ctor.Run ops).m_MtlBlitEncoder = true) ∧
    ¬ ((DeviceContextMtlImpl.ctor.Run ops).m_MtlComputeEncoder = true ∧
        (DeviceContextMtlImpl.ctor.Run ops).m_MtlBlitEncoder = true) := by
  have h := Run_OpenEncoders_le_one ops DeviceContextMtlImpl.ctor (by decide)
  exact ⟨h, OpenEncoders_le_one_no_two _ h⟩

/-- C17 on a sequence that visits every encoder kind: draw, dispatch, copy, a
draw without pipeline state, flush, draw. -/
theorem reachable_at_most_one_encoder_witness :
    (DeviceContextMtlImpl.ctor.Run
      [ContextOp.Draw 4096 8192, ContextOp.DispatchCompute 4096, ContextOp.CopyBuffer,
        ContextOp.Draw 0 8192, ContextOp.Flush, ContextOp.Draw 4096 8192]).OpenEncoders = 1 ∧
    (DeviceContextMtlImpl.ctor.Run
      [ContextOp.Draw 4096 8192, ContextOp.DispatchCompute 4096,
        ContextOp.CopyBuffer]).State = ControllerState.CopyActive ∧
    (DeviceContextMtlImpl.ctor.Run
      [ContextOp.Draw 4096 8192, ContextOp.DispatchCompute 4096,
        ContextOp.CopyBuffer]).OpenEncoders ≤ 1 :=
  ⟨by decide, by decide,
    (reachable_at_most_one_encoder
      [ContextOp.Draw 4096 8192, ContextOp.DispatchCompute 4096, ContextOp.CopyBuffer]).1⟩

/-- C18: from every controller state, `FinishCommandList` leaves the controller
in `Idle` with no open encoder: each of the three encoder members is `nil`. -/
theorem FinishCommandList_leaves_Idle (ctx : DeviceContextMtlImpl) :
    ctx.FinishCommandList.State = ControllerState.Idle ∧
    ctx.FinishCommandList.OpenEncoders = 0 ∧
    ctx.FinishCommandList.m_MtlRenderEncoder = false ∧
    ctx.FinishCommandList.m_MtlComputeEncoder = false ∧
    ctx.FinishCommandList.m_MtlBlitEncoder = false := by
  obtain ⟨h1, h2, h3, _⟩ := EndAllEncoders_fields ctx
  have hopen : ctx.FinishCommandList.OpenEncoders = 0 := by
    show ctx.EndAllEncoders.OpenEncoders = 0
    simp [OpenEncoders, h1, h2, h3]
  exact ⟨(State_eq_Idle_iff _).mpr hopen, hopen, h1, h2, h3⟩

/-- C18 from each of the four controller states: idle, and after a draw, a
dispatch and a copy. -/
theorem FinishCommandList_leaves_Idle_witness :
    DeviceContextMtlImpl.ctor.FinishCommandList.State = ControllerState.Idle ∧
    (DeviceContextMtlImpl.ctor.Draw 4096 8192).State = ControllerState.RenderActive ∧
    (DeviceContextMtlImpl.ctor.Draw 4096 8192).FinishCommandList.State = ControllerState.Idle ∧
    (DeviceContextMtlImpl.ctor.DispatchCompute 4096).State = ControllerState.ComputeActive ∧
    (DeviceContextMtlImpl.ctor.DispatchCompute 4096).FinishCommandList.State
      = ControllerState.Idle ∧
    DeviceContextMtlImpl.ctor.CopyBuffer.State = ControllerState.CopyActive ∧
    DeviceContextMtlImpl.ctor.CopyBuffer.FinishCommandList.State = ControllerState.Idle :=
  ⟨(FinishCommandList_leaves_Idle _).1, by decide, (FinishCommandList_leaves_Idle _).1,
    by decide, (FinishCommandList_leaves_Idle _).1, by decide,
    (FinishCommandList_leaves_Idle _).1⟩

/-- C19: from every controller state, `EndAllEncoders()` ends the open encoder
(one encoder-end call per open encoder, no begin), leaves the state `Idle` and
leaves the command-buffer member as it was; applied to an `Idle` state it
changes nothing, so it is idempotent. -/
theorem EndAllEncoders_to_Idle (ctx : DeviceContextMtlImpl) :
    ctx.EndAllEncoders.State = ControllerState.Idle ∧
    ctx.EndAllEncoders.OpenEncoders = 0 ∧
    ctx.EndAllEncoders.m_MtlCommandBuffer = ctx.m_MtlCommandBuffer ∧
    ctx.EndAllEncoders.EncoderEnds = ctx.EncoderEnds + ctx.OpenEncoders ∧
    ctx.EndAllEncoders.EncoderBegins = ctx.EncoderBegins ∧
    (ctx.State = ControllerState.Idle → ctx.EndAllEncoders = ctx) ∧
    ctx.EndAllEncoders.EndAllEncoders = ctx.EndAllEncoders := by
  obtain ⟨h1, h2, h3, hcb, hends, hbegins⟩ := EndAllEncoders_fields ctx
  have hopen : ctx.EndAllEncoders.OpenEncoders = 0 := by
    simp [OpenEncoders, h1, h2, h3]
  have hidle : ∀ c : DeviceContextMtlImpl, c.State = ControllerState.Idle →
      c.EndAllEncoders = c := by
    intro c hc
    rcases c with ⟨cb, r, c, b, calls⟩
    cases r <;> cases c <;> cases b <;> simp [State] at hc
    simp [EndAllEncoders, EndEncoder]
  have hstate := (State_eq_Idle_iff _).mpr hopen
  exact ⟨hstate, hopen, hcb, hends, hbegins, hidle ctx, hidle _ hstate⟩

/-- C19 on a context with an open render encoder: the encoder is ended with one
call, the command buffer stays, and a second `EndAllEncoders()` changes nothing. -/
theorem EndAllEncoders_to_Idle_witness :
    (DeviceContextMtlImpl.ctor.Draw 4096 8192).m_MtlCommandBuffer = true ∧
    (DeviceContextMtlImpl.ctor.Draw 4096 8192).EndAllEncoders.m_MtlCommandBuffer = true ∧
    (DeviceContextMtlImpl.ctor.Draw 4096 8192).EndAllEncoders.NativeCalls
      = (DeviceContextMtlImpl.ctor.Draw 4096 8192).NativeCalls
          ++ [NativeCall.endEncoding EncoderKind.Render] ∧
    (DeviceContextMtlImpl.ctor.Draw 4096 8192).EndAllEncoders.EndAllEncoders
      = (DeviceContextMtlImpl.ctor.Draw 4096 8192).EndAllEncoders :=
  ⟨by decide, by decide, by decide, (EndAllEncoders_to_Idle _).2.2.2.2.2.2⟩

/-- C20: in every controller state, a draw given a null pipeline state or a null
vertex buffer, and a dispatch given a null pipeline state, is aborted: every
encoder member and the command-buffer member are as before the call, and the
only call issued is the error log, so no encoder is ended or begun. -/
theorem null_object_aborts_call (ctx : DeviceContextMtlImpl) :
    (∀ pPipelineState pVertexBuffer : Nat,
      pPipelineState = nullptr ∨ pVertexBuffer = nullptr →
      (ctx.Draw pPipelineState pVertexBuffer).State = ctx.State ∧
      (ctx.Draw pPipelineState pVertexBuffer).m_MtlCommandBuffer = ctx.m_MtlCommandBuffer ∧
      (ctx.Draw pPipelineState pVertexBuffer).m_MtlRenderEncoder = ctx.m_MtlRenderEncoder ∧
      (ctx.Draw pPipelineState pVertexBuffer).m_MtlComputeEncoder = ctx.m_MtlComputeEncoder ∧
      (ctx.Draw pPipelineState pVertexBuffer).m_MtlBlitEncoder = ctx.m_MtlBlitEncoder ∧
      (ctx.Draw pPipelineState pVertexBuffer).NativeCalls
        = ctx.NativeCalls ++ [NativeCall.logError] ∧
      (ctx.Draw pPipelineState pVertexBuffer).EncoderEnds = ctx.EncoderEnds ∧
      (ctx.Draw pPipelineState pVertexBuffer).EncoderBegins = ctx.EncoderBegins) ∧
    ((ctx.DispatchCompute nullptr).State = ctx.State ∧
      (ctx.DispatchCompute nullptr).m_MtlCommandBuffer = ctx.m_MtlCommandBuffer ∧
      (ctx.DispatchCompute nullptr).m_MtlRenderEncoder = ctx.m_MtlRenderEncoder ∧
      (ctx.DispatchCompute nullptr).m_MtlComputeEncoder = ctx.m_MtlComputeEncoder ∧
      (ctx.DispatchCompute nullptr).m_MtlBlitEncoder = ctx.m_MtlBlitEncoder ∧
      (ctx.DispatchCompute nullptr).NativeCalls = ctx.NativeCalls ++ [NativeCall.logError] ∧
      (ctx.DispatchCompute nullptr).EncoderEnds = ctx.EncoderEnds ∧
      (ctx.DispatchCompute nullptr).EncoderBegins = ctx.EncoderBegins) := by
  have habort : ctx.Abort.State = ctx.State ∧
      ctx.Abort.m_MtlCommandBuffer = ctx.m_MtlCommandBuffer ∧
      ctx.Abort.m_MtlRenderEncoder = ctx.m_MtlRenderEncoder ∧
      ctx.Abort.m_MtlComputeEncoder = ctx.m_MtlComputeEncoder ∧
      ctx.Abort.m_MtlBlitEncoder = ctx.m_MtlBlitEncoder ∧
      ctx.Abort.NativeCalls = ctx.NativeCalls ++ [NativeCall.logError] ∧
      ctx.Abort.EncoderEnds = ctx.EncoderEnds ∧
      ctx.Abort.EncoderBegins = ctx.EncoderBegins := by
    refine ⟨rfl, rfl, rfl, rfl, rfl, rfl, ?_, ?_⟩
    · simp [Abort, EncoderEnds, List.countP_append, List.countP_cons]
    · simp [Abort, EncoderBegins, List.countP_append, List.countP_cons]
  refine ⟨?_, ?_⟩
  · intro pPipelineState pVertexBuffer hnull
    have hdraw : ctx.Draw pPipelineState pVertexBuffer = ctx.Abort := if_pos hnull
    rw [hdraw]
    exact habort
  · have hdispatch : ctx.DispatchCompute nullptr = ctx.Abort := if_pos rfl
    rw [hdispatch]
    exact habort

/-- C20 while a compute encoder is open: a draw without pipeline state, a draw
without vertex buffer and a dispatch without pipeline state all leave the
compute encoder open and the command buffer in place. -/
theorem null_object_aborts_call_witness :
    (DeviceContextMtlImpl.ctor.DispatchCompute 4096).State = ControllerState.ComputeActive ∧
    ((DeviceContextMtlImpl.ctor.DispatchCompute 4096).Draw 0 8192).State
      = ControllerState.ComputeActive ∧
    ((DeviceContextMtlImpl.ctor.DispatchCompute 4096).Draw 4096 0).State
      = ControllerState.ComputeActive ∧
    ((DeviceContextMtlImpl.ctor.DispatchCompute 4096).Draw 4096 0).m_MtlCommandBuffer = true ∧
    ((DeviceContextMtlImpl.ctor.DispatchCompute 4096).DispatchCompute 0).State
      = ControllerState.ComputeActive ∧
    ((DeviceContextMtlImpl.ctor.DispatchCompute 4096).Draw 4096 8192).State
      = ControllerState.RenderActive :=
  ⟨by decide,
    ((null_object_aborts_call (DeviceContextMtlImpl.ctor.DispatchCompute 4096)).1 0 8192
      (Or.inl rfl)).1.trans (by decide),
    ((null_object_aborts_call (DeviceContextMtlImpl.ctor.DispatchCompute 4096)).1 4096 0
      (Or.inr rfl)).1.trans (by decide),
    by decide, by decide, by decide⟩

end

section

open PipelineResourceAttribsMtl

/-! ## Default construction and transitivity of compatibility -/

/-- C28: the default constructor returns a descriptor with binding index 0,
sampler index 0, array size 0, resource type UNKNOWN, immutable-sampler flag
false and both cache offsets 0; its sampler index 0 is not the sentinel, so
`IsCombinedWithSampler()` is true for it. -/
theorem ctorDefault_fields :
    ∃ d, ctorDefault = Except.ok d ∧
      d.BindingIndex = 0 ∧ d.SamplerInd = 0 ∧ d.ArraySize = 0 ∧
      d.GetResourceType = SHADER_RESOURCE_TYPE_UNKNOWN ∧
      d.IsImmutableSamplerAssigned = false ∧
      d.SRBCacheOffset = 0 ∧ d.StaticCacheOffset = 0 ∧
      d.SamplerInd ≠ InvalidSamplerInd ∧
      d.IsCombinedWithSampler = true :=
  ⟨init 0 0 0 SHADER_RESOURCE_TYPE_UNKNOWN false 0 0, rfl, rfl, rfl, rfl, rfl, rfl, rfl, rfl,
    by decide, by decide⟩

/-- C30: `IsCompatibleWith` is transitive. -/
theorem IsCompatibleWith_trans (a b c : PipelineResourceAttribsMtl)
    (hab : a.IsCompatibleWith b = true) (hbc : b.IsCompatibleWith c = true) :
    a.IsCompatibleWith c = true := by
  obtain ⟨h1, h2, h3, h4⟩ := (IsCompatibleWith_eq_true_iff a b).mp hab
  obtain ⟨g1, g2, g3, g4⟩ := (IsCompatibleWith_eq_true_iff b c).mp hbc
  exact (IsCompatibleWith_eq_true_iff a c).mpr
    ⟨h1.trans g1, h2.trans g2, h3.trans g3, h4.trans g4⟩

/-- C30 on three descriptors that agree on the four compared fields and differ
in sampler index and offsets. -/
theorem IsCompatibleWith_trans_witness :
    (init 3 65535 4 1 true 0 16).IsCompatibleWith (init 3 2 4 1 true 32 48) = true ∧
    (init 3 2 4 1 true 32 48).IsCompatibleWith (init 3 7 4 1 true 64 80) = true ∧
    (init 3 65535 4 1 true 0 16).IsCompatibleWith (init 3 7 4 1 true 64 80) = true :=
  ⟨by decide, by decide,
    IsCompatibleWith_trans (init 3 65535 4 1 true 0 16) (init 3 2 4 1 true 32 48)
      (init 3 7 4 1 true 64 80) (by decide) (by decide)⟩

end

section

open ShaderVariableManagerMtl

/-! ## Index recovery of the variable manager -/

/-- The address of a slot is the base address plus the slot's byte offset. -/
theorem SlotAddress_eq (sizeofVar : Nat) (mgr : ShaderVariableManagerMtl) (v : Nat) :
    mgr.SlotAddress sizeofVar v = mgr.BaseAddress + v * sizeofVar := by
  unfold SlotAddress BaseAddress
  cases mgr.m_pVariables <;> rfl

/-- `GetVariableIndex` recovers the index of a slot of the manager from the
slot's address. -/
theorem GetVariableIndex_SlotAddress (sizeofVar : Nat) (mgr : ShaderVariableManagerMtl) (i : Nat)
    (hpos : 0 < sizeofVar) (hN : mgr.m_NumVariables < 2 ^ 32)
    (hfit : mgr.SlotAddress sizeofVar mgr.m_NumVariables ≤ 2 ^ 64)
    (hi : i < mgr.m_NumVariables) :
    mgr.GetVariableIndex sizeofVar (mgr.SlotAddress sizeofVar i) = i := by
  rw [SlotAddress_eq] at hfit
  have hle : i * sizeofVar ≤ mgr.m_NumVariables * sizeofVar :=
    Nat.mul_le_mul_right _ (Nat.le_of_lt hi)
  have hoff : (mgr.BaseAddress + i * sizeofVar + 2 ^ 64 - mgr.BaseAddress) % 2 ^ 64
      = i * sizeofVar := by
    have h1 : mgr.BaseAddress + i * sizeofVar + 2 ^ 64 - mgr.BaseAddress
        = i * sizeofVar + 2 ^ 64 := by omega
    have hlt : i * sizeofVar < 2 ^ 64 := by
      have hlt' : i * sizeofVar < mgr.m_NumVariables * sizeofVar :=
        Nat.mul_lt_mul_of_pos_right hi hpos
      omega
    rw [h1, Nat.add_mod_right, Nat.mod_eq_of_lt hlt]
  unfold GetVariableIndex
  simp only [SlotAddress_eq, hoff, Nat.mul_mod_left, if_true, Nat.mul_div_cancel _ hpos,
    Nat.mod_eq_of_lt (Nat.lt_trans hi hN), if_pos hi]

/-- Within `2 ^ 32` slots above the base, an address that is not the address of
one of the manager's slots is answered with the invalid index. -/
theorem GetVariableIndex_foreign_near (sizeofVar : Nat) (mgr : ShaderVariableManagerMtl)
    (Variable : Nat) (hpos : 0 < sizeofVar) (hbase : mgr.BaseAddress ≤ Variable)
    (haddr : Variable < 2 ^ 64) (hnear : Variable < mgr.BaseAddress + 2 ^ 32 * sizeofVar)
    (hforeign : ∀ k, k < mgr.m_NumVariables → Variable ≠ mgr.SlotAddress sizeofVar k) :
    mgr.GetVariableIndex sizeofVar Variable = InvalidVariableIndex := by
  have hoff : (Variable + 2 ^ 64 - mgr.BaseAddress) % 2 ^ 64 = Variable - mgr.BaseAddress := by
    have h1 : Variable + 2 ^ 64 - mgr.BaseAddress = (Variable - mgr.BaseAddress) + 2 ^ 64 := by
      omega
    rw [h1, Nat.add_mod_right, Nat.mod_eq_of_lt (by omega)]
  unfold GetVariableIndex
  simp only [hoff]
  by_cases hal : (Variable - mgr.BaseAddress) % sizeofVar = 0
  · rw [if_pos hal]
    have hq : (Variable - mgr.BaseAddress) / sizeofVar < 2 ^ 32 := by
      rw [Nat.div_lt_iff_lt_mul hpos]
      omega
    simp only [Nat.mod_eq_of_lt hq]
    by_cases hown : (Variable - mgr.BaseAddress) / sizeofVar < mgr.m_NumVariables
    · exfalso
      apply hforeign _ hown
      rw [SlotAddress_eq]
      have := Nat.div_mul_cancel (Nat.dvd_of_mod_eq_zero hal)
      omega
    · rw [if_neg hown]
  · rw [if_neg hal]

/-- C22: in a manager whose count fits `Uint32` and whose slots lie in the 64-bit
address space, `GetVariableIndex` applied to the variable that `GetVariable(i)`
returns for `i < GetVariableCount()` is `i`. -/
theorem GetVariableIndex_inverts_GetVariable (sizeofVar : Nat) (mgr : ShaderVariableManagerMtl)
    (i : Nat) (hpos : 0 < sizeofVar) (hN : mgr.m_NumVariables < 2 ^ 32)
    (hfit : mgr.SlotAddress sizeofVar mgr.m_NumVariables ≤ 2 ^ 64)
    (hi : i < mgr.GetVariableCount) :
    mgr.GetVariableIndex sizeofVar (mgr.GetVariableByIndex sizeofVar i) = i := by
  have hget : mgr.GetVariableByIndex sizeofVar i = mgr.SlotAddress sizeofVar i := if_pos hi
  rw [hget]
  exact GetVariableIndex_SlotAddress sizeofVar mgr i hpos hN hfit hi

/-- C22 on the example with variables `[A, C]` in 24-byte slots at address 4096. -/
theorem GetVariableIndex_inverts_GetVariable_witness :
    exampleManager.GetVariableByIndex 24 0 = 4096 ∧
    exampleManager.GetVariableByIndex 24 1 = 4120 ∧
    exampleManager.GetVariableIndex 24 (exampleManager.GetVariableByIndex 24 0) = 0 ∧
    exampleManager.GetVariableIndex 24 (exampleManager.GetVariableByIndex 24 1) = 1 :=
  ⟨by decide, by decide,
    GetVariableIndex_inverts_GetVariable 24 exampleManager 0 (by decide) (by decide) (by decide)
      (by decide),
    GetVariableIndex_inverts_GetVariable 24 exampleManager 1 (by decide) (by decide) (by decide)
      (by decide)⟩

/-- C21 fails on the code: in the example (2 variables in 24-byte slots at
address 4096) the address 4096 + 2^32 * 24 = 103079219200 is not the address of
a slot of the manager, yet `GetVariableIndex` answers 0 and not `0xFFFFFFFF`:
the quotient 2^32 loses its high bit in the narrowing to 32 bits. Addresses near
the block and off the slot boundaries do get `0xFFFFFFFF`. -/
theorem GetVariableIndex_aliases_far_address :
    (∀ k, k < exampleManager.GetVariableCount →
      103079219200 ≠ exampleManager.SlotAddress 24 k) ∧
    exampleManager.GetVariableIndex 24 103079219200 = 0 ∧
    exampleManager.GetVariableIndex 24 103079219200 ≠ InvalidVariableIndex ∧
    exampleManager.GetVariableIndex 24 (103079219200 + 24) = 1 ∧
    exampleManager.GetVariableIndex 24 4144 = InvalidVariableIndex ∧
    exampleManager.GetVariableIndex 24 4097 = InvalidVariableIndex ∧
    exampleManager.GetVariableIndex 24 4072 = InvalidVariableIndex := by
  decide

/-- A scan for a null name is undefined as soon as the manager has a variable:
its first turn hands the null pointer to `strcmp`. -/
theorem GetVariableByName_null_undefined (sizeofVar : Nat) (mgr : ShaderVariableManagerMtl)
    (hcount : 0 < mgr.m_NumVariables) :
    mgr.GetVariableByName sizeofVar none = none := by
  unfold GetVariableByName
  obtain ⟨n, hn⟩ := Nat.exists_eq_succ_of_ne_zero (Nat.pos_iff_ne_zero.mp hcount)
  rw [hn, GetVariableByName.loop]
  cases mgr.VariableDesc 0 with
  | none => rfl
  | some Desc =>
    cases hname : Desc.Name <;> simp [strcmp]

/-- C26 fails on the code: in the example manager, which has the two variables
`[A, C]`, `GetVariable` of a null name does not return null: the call is
undefined, because the name of the first slot is compared with the null pointer
by `strcmp`. A manager without variables does return null. -/
theorem GetVariableByName_null_name_undefined :
    exampleManager.GetVariableCount = 2 ∧
    exampleManager.GetVariableByName 24 none = none ∧
    exampleManager.GetVariableByName 24 none ≠ some nullptr ∧
    ShaderVariableManagerMtl.ctor.GetVariableByName 24 none = some nullptr := by
  have h := GetVariableByName_null_undefined 24 exampleManager (by decide)
  refine ⟨by decide, h, ?_, rfl⟩
  rw [h]
  exact fun hne => Option.noConfusion hne

/-! ## Filter arguments, construction log and object queries -/

/-- The variables `Initialize` creates refer to static resources visible in the
given stages. -/
theorem Initialize_variables_static (sizeofVar : Nat) (mgr mgr' : ShaderVariableManagerMtl)
    (Signature : PipelineResourceSignatureMtlImpl) (Allocator : Nat → Nat)
    (AllowedVarTypes : List SHADER_RESOURCE_VARIABLE_TYPE) (NumAllowedTypes : Nat)
    (ShaderType : SHADER_TYPE) (hpos : 0 < sizeofVar) (hsize : sizeofVar ≤ 2 ^ 32)
    (hinit : Initialize sizeofVar mgr Signature Allocator AllowedVarTypes NumAllowedTypes
      ShaderType = some mgr') (v : Nat) (hv : v < mgr'.GetVariableCount) :
    ∃ Res, mgr'.VariableDesc v = some Res ∧
      (Res.ShaderStages &&& ShaderType) ≠ 0 ∧
      Res.VarType = SHADER_RESOURCE_VARIABLE_TYPE.STATIC := by
  by_cases hzero : Signature.GetDesc.Resources.countP (Selected ShaderType) = 0
  · rw [Initialize_eq_of_count_zero sizeofVar mgr Signature Allocator AllowedVarTypes
      NumAllowedTypes ShaderType hzero] at hinit
    have hmgr := (Option.some.inj hinit).symm
    subst hmgr
    exact absurd hv (Nat.not_lt_zero v)
  · rw [Initialize_eq sizeofVar mgr Signature Allocator AllowedVarTypes NumAllowedTypes
      ShaderType hpos hsize (Nat.pos_of_ne_zero hzero)] at hinit
    have hmgr := (Option.some.inj hinit).symm
    subst hmgr
    have hsel : (SelectedResourceIndices Signature.GetDesc.Resources ShaderType).length
        = Signature.GetDesc.Resources.countP (Selected ShaderType) :=
      selected_enumFrom_length ShaderType _ 0
    have hv' : v < (SelectedResourceIndices Signature.GetDesc.Resources ShaderType).length := by
      rw [hsel]; exact hv
    have hmem : (SelectedResourceIndices Signature.GetDesc.Resources ShaderType)[v]
        ∈ SelectedResourceIndices Signature.GetDesc.Resources ShaderType :=
      List.getElem_mem hv'
    obtain ⟨Res, hres, hstage, hstatic⟩ := (mem_SelectedResourceIndices _ _ _).mp hmem
    have hres' : Signature.Desc.Resources[
        (SelectedResourceIndices Signature.GetDesc.Resources ShaderType)[v]]? = some Res := hres
    refine ⟨Res, ?_, hstage, hstatic⟩
    simp [VariableDesc, Variable, ShaderVariableManagerMtl.GetResourceDesc,
      PipelineResourceSignatureMtlImpl.GetResourceDesc, List.getElem?_map,
      List.getElem?_eq_getElem hv', hres']

/-- C23: `GetRequiredMemorySize` and `Initialize` do not depend on their
`AllowedVarTypes` and `NumAllowedTypes` arguments: two calls that differ only in
them return the same size and count and leave the same manager; the count is
the number of static resources visible in the stages; and every variable that
`Initialize` creates refers to a static resource. -/
theorem filter_arguments_ignored (sizeofVar : Nat) (mgr : ShaderVariableManagerMtl)
    (Signature : PipelineResourceSignatureMtlImpl) (Allocator : Nat → Nat)
    (AllowedVarTypes OtherVarTypes : List SHADER_RESOURCE_VARIABLE_TYPE)
    (NumAllowedTypes OtherNumTypes : Nat) (ShaderType : SHADER_TYPE) :
    GetRequiredMemorySize sizeofVar Signature AllowedVarTypes NumAllowedTypes ShaderType
      = GetRequiredMemorySize sizeofVar Signature OtherVarTypes OtherNumTypes ShaderType ∧
    Initialize sizeofVar mgr Signature Allocator AllowedVarTypes NumAllowedTypes ShaderType
      = Initialize sizeofVar mgr Signature Allocator OtherVarTypes OtherNumTypes ShaderType ∧
    (GetRequiredMemorySize sizeofVar Signature AllowedVarTypes NumAllowedTypes ShaderType).2
      = Signature.GetDesc.Resources.countP (fun Res =>
          (Res.ShaderStages &&& ShaderType) != 0 &&
            Res.VarType == SHADER_RESOURCE_VARIABLE_TYPE.STATIC) ∧
    (0 < sizeofVar → sizeofVar ≤ 2 ^ 32 →
      ∀ mgr', Initialize sizeofVar mgr Signature Allocator AllowedVarTypes NumAllowedTypes
        ShaderType = some mgr' →
      ∀ v, v < mgr'.GetVariableCount →
        ∃ Res, mgr'.VariableDesc v = some Res ∧
          Res.VarType = SHADER_RESOURCE_VARIABLE_TYPE.STATIC) := by
  refine ⟨rfl, rfl, GetRequiredMemorySize_count sizeofVar Signature AllowedVarTypes
    NumAllowedTypes ShaderType, ?_⟩
  intro hpos hsize mgr' hinit v hv
  obtain ⟨Res, hdesc, _, hstatic⟩ := Initialize_variables_static sizeofVar mgr mgr' Signature
    Allocator AllowedVarTypes NumAllowedTypes ShaderType hpos hsize hinit v hv
  exact ⟨Res, hdesc, hstatic⟩

/-- C23 on the example: asked for the dynamic class, for all three classes or
for none, `Initialize` leaves the same manager, with the static `A` and `C`. -/
theorem filter_arguments_ignored_witness :
    Initialize 24 ShaderVariableManagerMtl.ctor exampleSignature exampleAllocator
        [SHADER_RESOURCE_VARIABLE_TYPE.DYNAMIC] 1 SHADER_TYPE_PIXEL
      = Initialize 24 ShaderVariableManagerMtl.ctor exampleSignature exampleAllocator
        [SHADER_RESOURCE_VARIABLE_TYPE.STATIC, SHADER_RESOURCE_VARIABLE_TYPE.MUTABLE,
          SHADER_RESOURCE_VARIABLE_TYPE.DYNAMIC] 3 SHADER_TYPE_PIXEL ∧
    Initialize 24 ShaderVariableManagerMtl.ctor exampleSignature exampleAllocator
        [SHADER_RESOURCE_VARIABLE_TYPE.DYNAMIC] 1 SHADER_TYPE_PIXEL = some exampleManager ∧
    exampleManager.ResourceIndices = [some 0, some 2] ∧
    GetRequiredMemorySize 24 exampleSignature [] 0 SHADER_TYPE_PIXEL = (48, 2) :=
  ⟨(filter_arguments_ignored 24 ShaderVariableManagerMtl.ctor exampleSignature exampleAllocator
      [SHADER_RESOURCE_VARIABLE_TYPE.DYNAMIC]
      [SHADER_RESOURCE_VARIABLE_TYPE.STATIC, SHADER_RESOURCE_VARIABLE_TYPE.MUTABLE,
        SHADER_RESOURCE_VARIABLE_TYPE.DYNAMIC] 1 3 SHADER_TYPE_PIXEL).2.1,
    rfl, by decide, by decide⟩

/-- The construction loop is the replay of its placement `new` calls. -/
theorem Initialize_loop_eq_replay (ShaderType : SHADER_TYPE) :
    ∀ (Rs : List PipelineResourceDesc) (i VarIdx : Nat)
      (Slots : List (Option ShaderVariableMtlImpl)),
      Initialize.loop ShaderType Rs i VarIdx Slots
        = (Initialize.writes ShaderType Rs i VarIdx).foldlM PlacementNew Slots
  | [], _, _, _ => rfl
  | Res :: rest, i, VarIdx, Slots => by
    by_cases hs : Selected ShaderType Res = true
    · rw [Initialize.loop, Initialize.writes, if_pos hs, if_pos hs, List.foldlM_cons]
      by_cases hlt : VarIdx < Slots.length
      · rw [if_pos hlt]
        have hnew : PlacementNew Slots (VarIdx, i)
            = some (Slots.set VarIdx (some { m_ResIndex := i })) := if_pos hlt
        rw [hnew]
        exact Initialize_loop_eq_replay ShaderType rest _ _ _
      · rw [if_neg hlt]
        have hnew : PlacementNew Slots (VarIdx, i) = none := if_neg hlt
        rw [hnew]
        rfl
    · rw [Initialize.loop, Initialize.writes, if_neg hs, if_neg hs]
      exact Initialize_loop_eq_replay ShaderType rest _ _ _

/-- The slots written by the construction loop, started at slot `VarIdx`, are
`VarIdx`, `VarIdx + 1`, ... in this order, one per selected resource. -/
theorem Initialize_writes_slots (ShaderType : SHADER_TYPE) :
    ∀ (Rs : List PipelineResourceDesc) (i VarIdx : Nat),
      i + Rs.length < 2 ^ 32 → VarIdx ≤ i →
      (Initialize.writes ShaderType Rs i VarIdx).map Prod.fst
        = List.range' VarIdx (Rs.countP (Selected ShaderType))
  | [], _, _, _, _ => by simp [Initialize.writes]
  | Res :: rest, i, VarIdx, hi, hv => by
    simp only [List.length_cons] at hi
    have hi1 : (i + 1) % 2 ^ 32 = i + 1 := Nat.mod_eq_of_lt (by omega)
    have hv1 : (VarIdx + 1) % 2 ^ 32 = VarIdx + 1 := Nat.mod_eq_of_lt (by omega)
    by_cases hs : Selected ShaderType Res = true
    · rw [Initialize.writes, if_pos hs, hi1, hv1, List.countP_cons_of_pos _ _ hs, List.map_cons,
        Initialize_writes_slots ShaderType rest (i + 1) (VarIdx + 1) (by omega) (by omega),
        List.range'_succ]
    · rw [Initialize.writes, if_neg hs, hi1, List.countP_cons_of_neg _ _ hs,
        Initialize_writes_slots ShaderType rest (i + 1) VarIdx (by omega) (by omega)]

/-- C24: with `NumVars` the count returned by `GetRequiredMemorySize`, the
construction loop of `Initialize` writes the slots 0, 1, ..., NumVars-1 in this
order, each exactly once, and no slot with index >= NumVars; the loop is the
replay of these writes; and when NumVars > 0, `Initialize` returns with a block
of exactly NumVars slots in which NumVars variables are constructed, which is
`GetVariableCount()`. On a new manager with NumVars = 0 nothing is constructed. -/
theorem Initialize_writes_each_slot_once (sizeofVar : Nat) (mgr : ShaderVariableManagerMtl)
    (Signature : PipelineResourceSignatureMtlImpl) (Allocator : Nat → Nat)
    (AllowedVarTypes : List SHADER_RESOURCE_VARIABLE_TYPE) (NumAllowedTypes : Nat)
    (ShaderType : SHADER_TYPE) (hpos : 0 < sizeofVar) (hsize : sizeofVar ≤ 2 ^ 32) :
    (Initialize.writes ShaderType Signature.GetDesc.Resources 0 0).map Prod.fst
      = List.range (GetRequiredMemorySize sizeofVar Signature AllowedVarTypes NumAllowedTypes
          ShaderType).2 ∧
    ((Initialize.writes ShaderType Signature.GetDesc.Resources 0 0).map Prod.fst).Nodup ∧
    (∀ w, w ∈ Initialize.writes ShaderType Signature.GetDesc.Resources 0 0 →
      w.1 < (GetRequiredMemorySize sizeofVar Signature AllowedVarTypes NumAllowedTypes
        ShaderType).2) ∧
    (∀ Slots, Initialize.loop ShaderType Signature.GetDesc.Resources 0 0 Slots
      = (Initialize.writes ShaderType Signature.GetDesc.Resources 0 0).foldlM PlacementNew
          Slots) ∧
    (0 < (GetRequiredMemorySize sizeofVar Signature AllowedVarTypes NumAllowedTypes
        ShaderType).2 →
      ∃ mgr' Block,
        Initialize sizeofVar mgr Signature Allocator AllowedVarTypes NumAllowedTypes ShaderType
          = some mgr' ∧
        mgr'.m_pVariables = some Block ∧
        Block.Slots.length = (GetRequiredMemorySize sizeofVar Signature AllowedVarTypes
          NumAllowedTypes ShaderType).2 ∧
        mgr'.GetVariableCount = (GetRequiredMemorySize sizeofVar Signature AllowedVarTypes
          NumAllowedTypes ShaderType).2 ∧
        mgr'.ConstructedVariables = mgr'.GetVariableCount) ∧
    ((GetRequiredMemorySize sizeofVar Signature AllowedVarTypes NumAllowedTypes
        ShaderType).2 = 0 →
      ∃ mgr',
        Initialize sizeofVar ShaderVariableManagerMtl.ctor Signature Allocator AllowedVarTypes
          NumAllowedTypes ShaderType = some mgr' ∧
        mgr'.ConstructedVariables = mgr'.GetVariableCount) := by
  have hlen : Signature.GetDesc.Resources.length < 2 ^ 32 := Signature.Desc.NumResources_lt
  have hcount := GetRequiredMemorySize_count sizeofVar Signature AllowedVarTypes NumAllowedTypes
    ShaderType
  have hslots : (Initialize.writes ShaderType Signature.GetDesc.Resources 0 0).map Prod.fst
      = List.range (Signature.GetDesc.Resources.countP (Selected ShaderType)) := by
    rw [Initialize_writes_slots ShaderType _ 0 0 (by omega) (Nat.le_refl 0),
      List.range_eq_range']
  have hsel : (SelectedResourceIndices Signature.GetDesc.Resources ShaderType).length
      = Signature.GetDesc.Resources.countP (Selected ShaderType) :=
    selected_enumFrom_length ShaderType _ 0
  rw [hcount]
  refine ⟨hslots, ?_, ?_, fun Slots => Initialize_loop_eq_replay ShaderType _ 0 0 Slots, ?_, ?_⟩
  · rw [hslots]
    exact List.nodup_range _
  · intro w hw
    have hmem : w.1 ∈ (Initialize.writes ShaderType Signature.GetDesc.Resources 0 0).map
        Prod.fst := List.mem_map_of_mem _ hw
    rw [hslots] at hmem
    exact List.mem_range.mp hmem
  · intro hposcount
    refine ⟨_, _, Initialize_eq sizeofVar mgr Signature Allocator AllowedVarTypes
      NumAllowedTypes ShaderType hpos hsize hposcount, rfl, ?_, rfl, ?_⟩
    · simp [hsel]
    · show List.countP Option.isSome _ = _
      rw [List.countP_map]
      have hall : ∀ i ∈ SelectedResourceIndices Signature.GetDesc.Resources ShaderType,
          (Option.isSome ∘ fun i => some (ShaderVariableMtlImpl.mk i)) i = true :=
        fun _ _ => rfl
      rw [List.countP_eq_length.mpr hall, hsel]
      rfl
  · intro hzero
    exact ⟨_, Initialize_eq_of_count_zero sizeofVar ShaderVariableManagerMtl.ctor Signature
      Allocator AllowedVarTypes NumAllowedTypes ShaderType hzero, rfl⟩

/-- C24 on the example: the loop writes slot 0 with resource 0 and slot 1 with
resource 2, the block has 2 slots and both hold a variable. -/
theorem Initialize_writes_each_slot_once_witness :
    Initialize.writes SHADER_TYPE_PIXEL exampleSignature.GetDesc.Resources 0 0
      = [(0, 0), (1, 2)] ∧
    (GetRequiredMemorySize 24 exampleSignature [SHADER_RESOURCE_VARIABLE_TYPE.STATIC] 1
      SHADER_TYPE_PIXEL).2 = 2 ∧
    (Initialize.writes SHADER_TYPE_PIXEL exampleSignature.GetDesc.Resources 0 0).map Prod.fst
      = List.range (GetRequiredMemorySize 24 exampleSignature
          [SHADER_RESOURCE_VARIABLE_TYPE.STATIC] 1 SHADER_TYPE_PIXEL).2 ∧
    exampleManager.ConstructedVariables = 2 ∧
    exampleManager.GetVariableCount = 2 :=
  ⟨by decide, by decide,
    (Initialize_writes_each_slot_once 24 ShaderVariableManagerMtl.ctor exampleSignature
      exampleAllocator [SHADER_RESOURCE_VARIABLE_TYPE.STATIC] 1 SHADER_TYPE_PIXEL (by decide)
      (by decide)).1,
    by decide, by decide⟩

/-- C27: `Get(ArrayIndex, ResIndex)` returns null in every manager state and for
every array index and resource index; in particular after every sequence of
`BindResource`, `BindResources` and `SetBufferDynamicOffset` calls, whatever the
base class does in `BindResources`, so an object passed to `BindResource` is not
returned by `Get`. -/
theorem Get_returns_null :
    (∀ (mgr : ShaderVariableManagerMtl) (ArrayIndex ResIndex : Nat),
      mgr.Get ArrayIndex ResIndex = nullptr) ∧
    (∀ (TBase_BindResources : Nat → Nat → ShaderVariableManagerMtl × ShaderResourceCacheMtl →
        Option (ShaderVariableManagerMtl × ShaderResourceCacheMtl))
      (st st' : ShaderVariableManagerMtl × ShaderResourceCacheMtl) (ops : List ManagerOp)
      (ArrayIndex ResIndex : Nat),
      ShaderVariableManagerMtl.RunOps TBase_BindResources st ops = some st' →
      st'.1.Get ArrayIndex ResIndex = nullptr) ∧
    (∀ (mgr mgr' : ShaderVariableManagerMtl) (Cache Cache' : ShaderResourceCacheMtl)
      (ResIndex ArrayIndex : Nat) (BindInfo : BindResourceInfo) (Object : IDeviceObject),
      mgr.BindResource Cache ResIndex BindInfo = some (mgr', Cache') →
      BindInfo.pObject = some Object → Object.Address ≠ nullptr →
      mgr'.Get ArrayIndex ResIndex ≠ Object.Address) :=
  ⟨fun _ _ _ => rfl, fun _ _ _ _ _ _ _ => rfl,
    fun _ _ _ _ _ _ _ _ _ _ hnonnull heq => hnonnull heq.symm⟩

/-- C27 on the example: after a buffer at address 40960 is bound to resource 0,
a dynamic offset is set and the buffer is bound again, the calls all return and
`Get(0, 0)` is null, not the buffer. -/
theorem Get_returns_null_witness :
    (ShaderVariableManagerMtl.RunOps (fun _ _ st => some st) (exampleManager, exampleCache)
      [ManagerOp.BindResource 0 exampleBinding, ManagerOp.SetBufferDynamicOffset 0 0 256,
        ManagerOp.BindResources 0 0, ManagerOp.BindResource 0 exampleBinding]).map
      (fun st => st.1.Get 0 0) = some nullptr ∧
    exampleManager.Get 0 0 = nullptr ∧
    exampleManager.Get 0 0 ≠ 40960 :=
  ⟨rfl, Get_returns_null.1 exampleManager 0 0, by decide⟩

end

section

open EngineFactoryMtlImpl

/-! ## Properties of CreateDeviceAndContextsMtl -/

/-- A context creation loop in which every creation succeeds completes, writes
the slots `Base + CtxInd`, ..., `Base + CtxInd + n - 1` in this order, each with
the context of its index, and leaves everything else as it was. -/
theorem CreateContexts_all_created (New : Nat → Option Nat) (Base : Nat) :
    ∀ (n CtxInd : Nat) (s : FactoryCall) (Contexts : List Nat),
      s.ppContexts = some Contexts → Base + CtxInd + n ≤ Contexts.length →
      CtxInd + n < 2 ^ 32 →
      (∀ k, CtxInd ≤ k → k < CtxInd + n → (New k).isSome = true) →
      ∃ s' Contexts',
        CreateContexts New Base n CtxInd s = TryOutcome.completed s' ∧
        s'.ppContexts = some Contexts' ∧ Contexts'.length = Contexts.length ∧
        s'.ppDevice = s.ppDevice ∧ s'.Zeroed = s.Zeroed ∧ s'.Released = s.Released ∧
        s'.Writes = s.Writes ++ List.range' (Base + CtxInd) n ∧
        ∀ i, Contexts'[i]? =
          if Base + CtxInd ≤ i ∧ i < Base + CtxInd + n then New (i - Base) else Contexts[i]?
  | 0, CtxInd, s, Contexts, hctx, _, _, _ => by
    refine ⟨s, Contexts, rfl, hctx, rfl, rfl, rfl, rfl, by simp, ?_⟩
    intro i
    rw [if_neg (by omega)]
  | n + 1, CtxInd, s, Contexts, hctx, hlen, hbound, hnew => by
    obtain ⟨pContext, hp⟩ := Option.isSome_iff_exists.mp (hnew CtxInd (Nat.le_refl _) (by omega))
    have hlt : Base + CtxInd < Contexts.length := by omega
    have hwrite : WriteContext s (Base + CtxInd) pContext
        = some { s with
            ppContexts := some (Contexts.set (Base + CtxInd) pContext)
            Writes := s.Writes ++ [Base + CtxInd] } := by
      unfold WriteContext
      rw [hctx]
      simp only [if_pos hlt]
    have hmod : (CtxInd + 1) % 2 ^ 32 = CtxInd + 1 := Nat.mod_eq_of_lt (by omega)
    obtain ⟨s', Contexts', hrun, hctx', hlen', hdev, hzero, hrel, hwrites, hcontent⟩ :=
      CreateContexts_all_created New Base n (CtxInd + 1)
        { s with
          ppContexts := some (Contexts.set (Base + CtxInd) pContext)
          Writes := s.Writes ++ [Base + CtxInd] }
        (Contexts.set (Base + CtxInd) pContext) rfl
        (by rw [List.length_set]; omega) (by omega)
        (fun k hk1 hk2 => hnew k (by omega) (by omega))
    refine ⟨s', Contexts', ?_, hctx', ?_, hdev, hzero, hrel, ?_, ?_⟩
    · rw [CreateContexts]
      simp only [hp, hwrite, hmod]
      exact hrun
    · rw [hlen', List.length_set]
    · rw [hwrites]
      simp only [List.append_assoc, List.singleton_append]
      rw [List.range'_succ]
      rfl
    · intro i
      rw [hcontent i]
      by_cases hi : i = Base + CtxInd
      · subst hi
        rw [if_neg (by omega), if_pos (by omega), Nat.add_sub_cancel_left, hp,
          List.getElem?_set_self hlt]
      · by_cases hin : Base + (CtxInd + 1) ≤ i ∧ i < Base + (CtxInd + 1) + n
        · rw [if_pos hin, if_pos (by omega)]
        · rw [if_neg hin, if_neg (by omega), List.getElem?_set_ne (Ne.symm hi)]

/-- A context creation loop in which some creation throws ends by that throw,
with `*ppDevice` as it was at the start of the loop. -/
theorem CreateContexts_thrown (New : Nat → Option Nat) (Base : Nat) :
    ∀ (n CtxInd : Nat) (s : FactoryCall) (Contexts : List Nat),
      s.ppContexts = some Contexts → Base + CtxInd + n ≤ Contexts.length →
      CtxInd + n < 2 ^ 32 →
      (∃ k, CtxInd ≤ k ∧ k < CtxInd + n ∧ New k = none) →
      ∃ s', CreateContexts New Base n CtxInd s = TryOutcome.thrown s' ∧
        s'.ppDevice = s.ppDevice
  | 0, CtxInd, s, Contexts, _, _, _, ⟨k, hk1, hk2, _⟩ => by omega
  | n + 1, CtxInd, s, Contexts, hctx, hlen, hbound, ⟨k, hk1, hk2, hk⟩ => by
    cases hp : New CtxInd with
    | none =>
      refine ⟨s, ?_, rfl⟩
      rw [CreateContexts]
      simp only [hp]
    | some pContext =>
      have hne : k ≠ CtxInd := by
        intro h
        rw [h, hp] at hk
        exact Option.noConfusion hk
      have hlt : Base + CtxInd < Contexts.length := by omega
      have hwrite : WriteContext s (Base + CtxInd) pContext
          = some { s with
              ppContexts := some (Contexts.set (Base + CtxInd) pContext)
              Writes := s.Writes ++ [Base + CtxInd] } := by
        unfold WriteContext
        rw [hctx]
        simp only [if_pos hlt]
      have hmod : (CtxInd + 1) % 2 ^ 32 = CtxInd + 1 := Nat.mod_eq_of_lt (by omega)
      obtain ⟨s', hrun, hdev⟩ := CreateContexts_thrown New Base n (CtxInd + 1)
        { s with
          ppContexts := some (Contexts.set (Base + CtxInd) pContext)
          Writes := s.Writes ++ [Base + CtxInd] }
        (Contexts.set (Base + CtxInd) pContext) rfl
        (by rw [List.length_set]; omega) (by omega) ⟨k, by omega, by omega, hk⟩
      refine ⟨s', ?_, hdev⟩
      rw [CreateContexts]
      simp only [hp, hwrite, hmod]
      exact hrun

/-- After the `catch` block `*ppDevice` is null. -/
theorem CatchBlock_ppDevice (s : FactoryCall) (pDevice : Nat) (h : s.ppDevice = some pDevice) :
    (CatchBlock s).ppDevice = some nullptr := by
  unfold CatchBlock
  rw [h]
  by_cases hp : pDevice = nullptr
  · simp only [hp, ne_eq, not_true_eq_false, if_false, h]
  · simp only [ne_eq, hp, not_false_eq_true, if_true]

/-- With matching API version, non-null output pointers and an array long
enough for the `memset`, the call reaches the `try` block with `*ppDevice` and
the first `max(1, NumImmediateContexts) + NumDeferredContexts` slots cleared. -/
theorem CreateDeviceAndContextsMtl_eq (env : CreationEnvironment)
    (EngineCI : EngineMtlCreateInfo) (call : FactoryCall) (pOld : Nat) (Contexts : List Nat)
    (hdev : call.ppDevice = some pOld) (hctx : call.ppContexts = some Contexts)
    (hlen : max 1 EngineCI.NumImmediateContexts + EngineCI.NumDeferredContexts
      ≤ Contexts.length)
    (hver : EngineCI.EngineAPIVersion = env.DILIGENT_API_VERSION) :
    CreateDeviceAndContextsMtl env EngineCI call
      = match TryBlock env EngineCI
          { call with
            ppDevice := some nullptr
            ppContexts := some
              (List.replicate
                  (max 1 EngineCI.NumImmediateContexts + EngineCI.NumDeferredContexts) nullptr
                ++ Contexts.drop
                  (max 1 EngineCI.NumImmediateContexts + EngineCI.NumDeferredContexts))
            Zeroed := max 1 EngineCI.NumImmediateContexts + EngineCI.NumDeferredContexts } with
        | TryOutcome.undefined => Except.ok none
        | TryOutcome.thrown s => Except.ok (some (CatchBlock s))
        | TryOutcome.completed s => Except.ok (some s) := by
  have h1 := EngineCI.NumImmediateContexts_lt
  have h2 := EngineCI.NumDeferredContexts_lt
  have hmod : (max 1 EngineCI.NumImmediateContexts + EngineCI.NumDeferredContexts) % 2 ^ 64
      = max 1 EngineCI.NumImmediateContexts + EngineCI.NumDeferredContexts := by
    apply Nat.mod_eq_of_lt
    have : max 1 EngineCI.NumImmediateContexts < 2 ^ 32 := by
      rw [Nat.max_def]; split <;> omega
    omega
  unfold CreateDeviceAndContextsMtl
  rw [if_neg (not_not.mpr hver)]
  simp only [hdev, hctx, Option.isSome_some, Bool.and_self, VERIFY, if_true, hmod, if_pos hlen,
    bind, Except.bind, pure, Except.pure]

/-- C29: in a successful call (matching API version, a Metal device, every
creation succeeding, an array of at least N + D slots, with
N = max(1, NumImmediateContexts) and D = NumDeferredContexts) the call returns
with the device in `*ppDevice`; the N + D slots it cleared beforehand are exactly
the slots it then writes: 0, ..., N + D - 1 in this order, each once; slot i < N
holds immediate context i, slot N + j holds deferred context j, and the slots
from N + D on are as the caller left them. -/
theorem CreateDeviceAndContextsMtl_success (env : CreationEnvironment)
    (EngineCI : EngineMtlCreateInfo) (call : FactoryCall) (pOld pDevice : Nat)
    (Contexts : List Nat)
    (hdev : call.ppDevice = some pOld) (hctx : call.ppContexts = some Contexts)
    (hlen : max 1 EngineCI.NumImmediateContexts + EngineCI.NumDeferredContexts
      ≤ Contexts.length)
    (hver : EngineCI.EngineAPIVersion = env.DILIGENT_API_VERSION)
    (hmtl : env.mtlDevice ≠ nullptr) (hrd : env.NewRenderDevice = some pDevice)
    (himm : ∀ i, i < max 1 EngineCI.NumImmediateContexts →
      (env.NewImmediateContext i).isSome = true)
    (hdef : ∀ j, j < EngineCI.NumDeferredContexts →
      (env.NewDeferredContext j).isSome = true) :
    ∃ s Contexts',
      CreateDeviceAndContextsMtl env EngineCI call = Except.ok (some s) ∧
      s.ppDevice = some pDevice ∧
      s.ppContexts = some Contexts' ∧ Contexts'.length = Contexts.length ∧
      s.Zeroed = max 1 EngineCI.NumImmediateContexts + EngineCI.NumDeferredContexts ∧
      s.Writes = call.Writes ++
        List.range (max 1 EngineCI.NumImmediateContexts + EngineCI.NumDeferredContexts) ∧
      (∀ i, i < max 1 EngineCI.NumImmediateContexts →
        Contexts'[i]? = env.NewImmediateContext i) ∧
      (∀ j, j < EngineCI.NumDeferredContexts →
        Contexts'[max 1 EngineCI.NumImmediateContexts + j]? = env.NewDeferredContext j) ∧
      (∀ i, max 1 EngineCI.NumImmediateContexts + EngineCI.NumDeferredContexts ≤ i →
        Contexts'[i]? = Contexts[i]?) ∧
      s.Released = call.Released := by
  have h1 := EngineCI.NumImmediateContexts_lt
  have h2 := EngineCI.NumDeferredContexts_lt
  have hN : max 1 EngineCI.NumImmediateContexts < 2 ^ 32 := by
    rw [Nat.max_def]; split <;> omega
  rw [CreateDeviceAndContextsMtl_eq env EngineCI call pOld Contexts hdev hctx hlen hver]
  generalize hNdef : max 1 EngineCI.NumImmediateContexts = N at *
  generalize hDdef : EngineCI.NumDeferredContexts = D at *
  have hlen1 : (List.replicate (N + D) nullptr ++ Contexts.drop (N + D)).length
      = Contexts.length := by
    simp only [List.length_append, List.length_replicate, List.length_drop]
    omega
  obtain ⟨s2, C2, hrun2, hctx2, hlen2, hdev2, hzero2, hrel2, hwrites2, hcontent2⟩ :=
    CreateContexts_all_created env.NewImmediateContext 0 N 0
      { call with
        ppDevice := some pDevice
        ppContexts := some (List.replicate (N + D) nullptr ++ Contexts.drop (N + D))
        Zeroed := N + D }
      (List.replicate (N + D) nullptr ++ Contexts.drop (N + D)) rfl (by omega) (by omega)
      (fun k _ hk => himm k (by omega))
  obtain ⟨s3, C3, hrun3, hctx3, hlen3, hdev3, hzero3, hrel3, hwrites3, hcontent3⟩ :=
    CreateContexts_all_created env.NewDeferredContext N D 0 s2 C2 hctx2 (by omega) (by omega)
      (fun k _ hk => hdef k (by omega))
  have htry : TryBlock env EngineCI
      { call with
        ppDevice := some nullptr
        ppContexts := some (List.replicate (N + D) nullptr ++ Contexts.drop (N + D))
        Zeroed := N + D } = TryOutcome.completed s3 := by
    unfold TryBlock
    rw [if_neg hmtl]
    simp only [hrd, hNdef, hDdef, hrun2, hrun3]
  rw [htry]
  refine ⟨s3, C3, rfl, ?_, hctx3, ?_, ?_, ?_, ?_, ?_, ?_, ?_⟩
  · rw [hdev3, hdev2]
  · rw [hlen3, hlen2, hlen1]
  · rw [hzero3, hzero2]
  · rw [hwrites3, hwrites2, List.range_eq_range']
    simp only [Nat.zero_add, Nat.add_zero, List.append_assoc]
    congr 1
    have happ := List.range'_append_1 0 N D
    rw [Nat.zero_add, Nat.add_comm D N] at happ
    exact happ
  · intro i hi
    rw [hcontent3 i, if_neg (by omega), hcontent2 i, if_pos (by omega), Nat.sub_zero]
  · intro j hj
    rw [hcontent3 (N + j), if_pos (by omega), Nat.add_sub_cancel_left]
  · intro i hi
    rw [hcontent3 i, if_neg (by omega), hcontent2 i, if_neg (by omega),
      List.getElem?_append_right (by rw [List.length_replicate]; omega), List.length_replicate,
      List.getElem?_drop]
    congr 1
    omega
  · rw [hrel3, hrel2]

/-- C29 on the example: two immediate contexts and one deferred context are
requested with an array of four slots; three slots are cleared and then written,
slots 0 and 1 with the immediate contexts and slot 2 with the deferred one; the
fourth slot keeps the caller's value. -/
theorem CreateDeviceAndContextsMtl_success_witness :
    CreateDeviceAndContextsMtl exampleEnvironment exampleEngineCI exampleCall
      = Except.ok (some
          { ppDevice := some 4096, ppContexts := some [8192, 8193, 12288, 48879], Zeroed := 3,
            Writes := [0, 1, 2], Released := [] }) ∧
    ∃ s Contexts',
      CreateDeviceAndContextsMtl exampleEnvironment exampleEngineCI exampleCall
        = Except.ok (some s) ∧
      s.ppDevice = some 4096 ∧
      s.ppContexts = some Contexts' ∧ Contexts'.length = 4 ∧
      s.Zeroed = 3 ∧
      s.Writes = [] ++ List.range 3 ∧
      (∀ i, i < 2 → Contexts'[i]? = exampleEnvironment.NewImmediateContext i) ∧
      (∀ j, j < 1 → Contexts'[2 + j]? = exampleEnvironment.NewDeferredContext j) ∧
      (∀ i, 3 ≤ i → Contexts'[i]? = [48879, 48879, 48879, 48879][i]?) ∧
      s.Released = [] :=
  ⟨rfl,
    CreateDeviceAndContextsMtl_success exampleEnvironment exampleEngineCI exampleCall 57005 4096
      [48879, 48879, 48879, 48879] rfl rfl (by decide) rfl (by decide) rfl
      (fun _ _ => rfl) (fun _ _ => rfl)⟩

/-- C25 as amended: for a call with non-null `ppDevice` and `ppContexts` and an
array of at least max(1, NumImmediateContexts) + NumDeferredContexts slots:
if the client API version differs from `DILIGENT_API_VERSION`, the call returns
with `*ppDevice` and the array exactly as the caller passed them; if the
versions agree and no Metal device is available or the creation of the render
device throws, on return `*ppDevice` is null, each of these context slots is
null and none was written; and if the creation of a context throws, on return
`*ppDevice` is null. -/
theorem CreateDeviceAndContextsMtl_failure (env : CreationEnvironment)
    (EngineCI : EngineMtlCreateInfo) (call : FactoryCall) (pOld : Nat) (Contexts : List Nat)
    (hdev : call.ppDevice = some pOld) (hctx : call.ppContexts = some Contexts)
    (hlen : max 1 EngineCI.NumImmediateContexts + EngineCI.NumDeferredContexts
      ≤ Contexts.length) :
    (EngineCI.EngineAPIVersion ≠ env.DILIGENT_API_VERSION →
      CreateDeviceAndContextsMtl env EngineCI call = Except.ok (some call)) ∧
    (EngineCI.EngineAPIVersion = env.DILIGENT_API_VERSION →
      env.mtlDevice = nullptr ∨ env.NewRenderDevice = none →
      ∃ s, CreateDeviceAndContextsMtl env EngineCI call = Except.ok (some s) ∧
        SpecNullOutputs EngineCI s ∧ s.Writes = call.Writes) ∧
    (EngineCI.EngineAPIVersion = env.DILIGENT_API_VERSION →
      (∃ i, i < max 1 EngineCI.NumImmediateContexts ∧ env.NewImmediateContext i = none) ∨
        (∃ j, j < EngineCI.NumDeferredContexts ∧ env.NewDeferredContext j = none) →
      ∃ s, CreateDeviceAndContextsMtl env EngineCI call = Except.ok (some s) ∧
        s.ppDevice = some nullptr) := by
  have h1 := EngineCI.NumImmediateContexts_lt
  have h2 := EngineCI.NumDeferredContexts_lt
  have hN : max 1 EngineCI.NumImmediateContexts < 2 ^ 32 := by
    rw [Nat.max_def]; split <;> omega
  refine ⟨?_, ?_, ?_⟩
  · intro hver
    unfold CreateDeviceAndContextsMtl
    rw [if_pos hver]
    rfl
  · intro hver hnodev
    rw [CreateDeviceAndContextsMtl_eq env EngineCI call pOld Contexts hdev hctx hlen hver]
    have hnull : SpecNullOutputs EngineCI
        { call with
          ppDevice := some nullptr
          ppContexts := some
            (List.replicate
                (max 1 EngineCI.NumImmediateContexts + EngineCI.NumDeferredContexts) nullptr
              ++ Contexts.drop
                (max 1 EngineCI.NumImmediateContexts + EngineCI.NumDeferredContexts))
          Zeroed := max 1 EngineCI.NumImmediateContexts + EngineCI.NumDeferredContexts } := by
      refine ⟨rfl, _, rfl, ?_⟩
      intro i hi
      rw [List.getElem?_append_left (by rw [List.length_replicate]; exact hi),
        List.getElem?_replicate, if_pos hi]
    by_cases hmtl : env.mtlDevice = nullptr
    · refine ⟨_, ?_, hnull, rfl⟩
      unfold TryBlock
      rw [if_pos hmtl]
    · have hrd : env.NewRenderDevice = none := hnodev.resolve_left hmtl
      refine ⟨_, ?_, hnull, rfl⟩
      unfold TryBlock
      rw [if_neg hmtl]
      simp only [hrd]
      rfl
  · intro hver hthrow
    rw [CreateDeviceAndContextsMtl_eq env EngineCI call pOld Contexts hdev hctx hlen hver]
    generalize hNdef : max 1 EngineCI.NumImmediateContexts = N at *
    generalize hDdef : EngineCI.NumDeferredContexts = D at *
    have hlen1 : (List.replicate (N + D) nullptr ++ Contexts.drop (N + D)).length
        = Contexts.length := by
      simp only [List.length_append, List.length_replicate, List.length_drop]
      omega
    by_cases hmtl : env.mtlDevice = nullptr
    · have htry : ∀ s1, TryBlock env EngineCI s1 = TryOutcome.completed s1 := by
        intro s1
        unfold TryBlock
        rw [if_pos hmtl]
      rw [htry]
      exact ⟨_, rfl, rfl⟩
    · cases hrd : env.NewRenderDevice with
      | none =>
        have htry : ∀ s1, TryBlock env EngineCI s1 = TryOutcome.thrown s1 := by
          intro s1
          unfold TryBlock
          rw [if_neg hmtl]
          simp only [hrd]
        rw [htry]
        exact ⟨_, rfl, CatchBlock_ppDevice _ nullptr rfl⟩
      | some pDevice =>
        by_cases himm : ∀ i, i < N → (env.NewImmediateContext i).isSome = true
        · have hdefthrow : ∃ j, j < D ∧ env.NewDeferredContext j = none := by
            rcases hthrow with ⟨i, hi, hnone⟩ | h
            · have := himm i hi
              rw [hnone] at this
              exact absurd this (by simp)
            · exact h
          obtain ⟨s2, C2, hrun2, hctx2, hlen2, hdev2, _⟩ :=
            CreateContexts_all_created env.NewImmediateContext 0 N 0
              { call with
                ppDevice := some pDevice
                ppContexts := some (List.replicate (N + D) nullptr ++ Contexts.drop (N + D))
                Zeroed := N + D }
              (List.replicate (N + D) nullptr ++ Contexts.drop (N + D)) rfl (by omega)
              (by omega) (fun k _ hk => himm k (by omega))
          obtain ⟨j, hj, hnone⟩ := hdefthrow
          obtain ⟨s3, hrun3, hdev3⟩ := CreateContexts_thrown env.NewDeferredContext N D 0 s2 C2
            hctx2 (by omega) (by omega) ⟨j, Nat.zero_le j, by omega, hnone⟩
          refine ⟨CatchBlock s3, ?_, CatchBlock_ppDevice s3 pDevice (by rw [hdev3, hdev2])⟩
          unfold TryBlock
          rw [if_neg hmtl]
          simp only [hrd, hNdef, hDdef, hrun2, hrun3]
        · have himmthrow : ∃ i, 0 ≤ i ∧ i < 0 + N ∧ env.NewImmediateContext i = none := by
            by_contra hno
            apply himm
            intro i hi
            cases hnew : env.NewImmediateContext i with
            | none => exact absurd ⟨i, Nat.zero_le i, by omega, hnew⟩ hno
            | some p => rfl
          obtain ⟨s2, hrun2, hdev2⟩ := CreateContexts_thrown env.NewImmediateContext 0 N 0
            { call with
              ppDevice := some pDevice
              ppContexts := some (List.replicate (N + D) nullptr ++ Contexts.drop (N + D))
              Zeroed := N + D }
            (List.replicate (N + D) nullptr ++ Contexts.drop (N + D)) rfl (by omega) (by omega)
            himmthrow
          refine ⟨CatchBlock s2, ?_, CatchBlock_ppDevice s2 pDevice (by rw [hdev2])⟩
          unfold TryBlock
          rw [if_neg hmtl]
          simp only [hrd, hNdef, hrun2]

/-- C25 as amended, on the example: with another API version the caller's
values come back; without a Metal device the device and the three requested
slots are null; when the second immediate context throws the device is null. -/
theorem CreateDeviceAndContextsMtl_failure_witness :
    CreateDeviceAndContextsMtl exampleOtherVersion exampleEngineCI exampleCall
      = Except.ok (some exampleCall) ∧
    CreateDeviceAndContextsMtl { exampleEnvironment with mtlDevice := nullptr } exampleEngineCI
        exampleCall
      = Except.ok (some
          { ppDevice := some nullptr, ppContexts := some [0, 0, 0, 48879], Zeroed := 3,
            Writes := [], Released := [] }) ∧
    (∃ s, CreateDeviceAndContextsMtl exampleContextThrows exampleEngineCI exampleCall
        = Except.ok (some s) ∧ s.ppDevice = some nullptr) :=
  ⟨(CreateDeviceAndContextsMtl_failure exampleOtherVersion exampleEngineCI exampleCall 57005
      [48879, 48879, 48879, 48879] rfl rfl (by decide)).1 (by decide),
    rfl,
    (CreateDeviceAndContextsMtl_failure exampleContextThrows exampleEngineCI exampleCall 57005
      [48879, 48879, 48879, 48879] rfl rfl (by decide)).2.2 rfl
      (Or.inl ⟨1, by decide, rfl⟩)⟩

/-- C25 as stated fails: a call whose client API version differs from the
engine's returns without having created a device and with `*ppDevice` still
57005 and the context slots still 48879, as the caller left them, not null. -/
theorem CreateDeviceAndContextsMtl_version_mismatch_counterexample :
    exampleEngineCI.EngineAPIVersion ≠ exampleOtherVersion.DILIGENT_API_VERSION ∧
    ∃ s, CreateDeviceAndContextsMtl exampleOtherVersion exampleEngineCI exampleCall
        = Except.ok (some s) ∧
      s.ppDevice = some 57005 ∧
      s.ppContexts = some [48879, 48879, 48879, 48879] ∧
      ¬ SpecNullOutputs exampleEngineCI s :=
  ⟨by decide, exampleCall, rfl, rfl, rfl, fun h => absurd h.1 (by decide)⟩

end

end Diligent
